import Mathlib

/-!
# Peer discovery and request correlation (`discovery/discovery.go`)

A shallow embedding of the `discovery` package: the envelope, the device
registry, the pending-request table, the received-message pipeline, the
sweeper, `Send`, `RequestResponse`, `GetDevices`, `Start` and `Stop`.

Modelling conventions.

* A Go `map[string]T` is a `GoMap T`: an association list without duplicate
  keys. Iteration order is the list order (Go leaves it unspecified).
* Pointers are indices into a store kept in the node state: `deviceObjs` for
  the `*Device` values held by `devices`, `chans` for the capacity-one
  channels held by `pending`, `sockets` for the `*net.UDPConn` values.
* Calls into the Go standard library are not re-implemented. A value of
  `RawMessage`, `Datagram`, `ReadResult` or `Float64` records what the library
  call made on it returns (`json.Unmarshal`, `ReadFromUDP`, `int(f)`,
  `fmt.Sprint(f)`); clock readings (`time.Now()`) and fresh identifiers
  (`uuid.New().String()`) are arguments.
* A function of the package is one atomic step on the node state. The result of
  a step lists the goroutines it started and the lines it logged, and says
  whether the step returned, panicked or blocked.
-/

namespace discovery

/-! ## Go maps -/

/-- A Go `map[string]α`: key/value pairs with pairwise distinct keys. -/
structure GoMap (α : Type) where
  entries : List (String × α)
  nodup : (entries.map Prod.fst).Nodup

namespace GoMap

variable {α : Type}

/-- The result of `make(map[string]α)`. -/
def empty : GoMap α := ⟨[], List.nodup_nil⟩

/-- The comma-ok read `v, ok := m[k]`: `none` when `ok` is false. -/
def lookup (m : GoMap α) (k : String) : Option α :=
  (m.entries.find? (fun e => e.1 == k)).map Prod.snd

/-- The statement `delete(m, k)`. -/
def erase (m : GoMap α) (k : String) : GoMap α :=
  ⟨m.entries.filter (fun e => e.1 != k),
    List.Nodup.sublist (List.Sublist.map Prod.fst (List.filter_sublist _)) m.nodup⟩

/-- The assignment `m[k] = v`. -/
def insert (m : GoMap α) (k : String) (v : α) : GoMap α :=
  ⟨(k, v) :: m.entries.filter (fun e => e.1 != k), by
    simp only [List.map_cons, List.nodup_cons]
    refine ⟨?_, List.Nodup.sublist (List.Sublist.map Prod.fst (List.filter_sublist _)) m.nodup⟩
    intro hk
    obtain ⟨e, he, hek⟩ := List.mem_map.1 hk
    have := (List.mem_filter.1 he).2
    simp [hek] at this⟩

/-- The map left by a `range` loop that deletes every entry failing `p`. -/
def filter (m : GoMap α) (p : String → α → Bool) : GoMap α :=
  ⟨m.entries.filter (fun e => p e.1 e.2),
    List.Nodup.sublist (List.Sublist.map Prod.fst (List.filter_sublist _)) m.nodup⟩

/-- The keys of the map. -/
def keys (m : GoMap α) : List String := m.entries.map Prod.fst

end GoMap

/-! ## Values the standard library hands to the package -/

/-- A `float64` as far as the package observes one: the package only converts
it with `int(f)` and prints it with `fmt.Sprint`. Floating-point arithmetic is
outside this model. -/
structure Float64 where
  toInt : Int
  sprint : String
  deriving DecidableEq, Repr

/-- A value of type `any` stored by `json.Unmarshal` in a `map[string]any`.
An array or object member is observed only through `fmt.Sprint`. -/
inductive Any where
  | nil
  | bool (b : Bool)
  | float64 (f : Float64)
  | string (s : String)
  | composite (sprint : String)
  deriving DecidableEq, Repr

/-- The call `fmt.Sprint(v)` on one operand. -/
def Sprint : Any → String
  | .nil => "<nil>"
  | .bool b => if b then "true" else "false"
  | .float64 f => f.sprint
  | .string s => s
  | .composite s => s

/-- The index expression `info[k]` on a `map[string]any`: the zero value `nil`
for a missing key and for a nil map. -/
def index (info : List (String × Any)) (k : String) : Any :=
  match info.find? (fun e => e.1 == k) with
  | some e => e.2
  | none => Any.nil

/-- A `json.RawMessage`, classified by the JSON text it holds. `absent` is the
empty byte slice (the member was omitted), `invalid` is any byte string that is
not one complete JSON value, and `object info` is a JSON object whose decoded
form is the map `info` (every number in it fits a `float64`). -/
inductive RawMessage where
  | absent
  | invalid
  | null
  | bool (b : Bool)
  | number (f : Float64)
  | string (s : String)
  | array
  | object (info : List (String × Any))
  deriving DecidableEq, Repr

/-- The call `json.Unmarshal(payload, &info)` with `info` a nil `map[string]any`:
an error, or the value left in `info`. JSON `null` succeeds and leaves the nil
map, which reads like the empty map. -/
def unmarshalInfo : RawMessage → Except String (List (String × Any))
  | .absent => .error "unexpected end of JSON input"
  | .invalid => .error "invalid character"
  | .null => .ok []
  | .bool _ => .error "json: cannot unmarshal bool into Go value of type map"
  | .number _ => .error "json: cannot unmarshal number into Go value of type map"
  | .string _ => .error "json: cannot unmarshal string into Go value of type map"
  | .array => .error "json: cannot unmarshal array into Go value of type map"
  | .object info => .ok info

/-- The unchecked type assertion `v.(float64)`: `none` is the run-time panic. -/
def assertFloat64 : Any → Option Float64
  | .float64 f => some f
  | _ => none

/-! ## Data model (lines 15-77) -/

/-- The constant `announceIntv`, in nanoseconds (the unit of `time.Duration`). -/
def announceIntv : Int := 15 * 1000000000

/-- The constant `timeout`, in nanoseconds. -/
def timeout : Int := 25 * 1000000000

/-- The largest `time.Duration`. -/
def maxDuration : Int := 2 ^ 63 - 1

/-- The smallest `time.Duration`. -/
def minDuration : Int := -(2 ^ 63)

/-- The method `t.Sub(u)` on instants given in nanoseconds: the difference,
clamped to the range of `time.Duration`. -/
def Sub (t u : Int) : Int :=
  if t - u > maxDuration then maxDuration
  else if t - u < minDuration then minDuration
  else t - u

/-- The struct `MessageEnvelope`. -/
structure MessageEnvelope where
  FromUUID : String
  SendType : String
  SendTo : String
  Command : String
  TaskID : String
  Payload : RawMessage
  deriving DecidableEq, Repr

/-- The zero value `MessageEnvelope{}`. -/
def MessageEnvelope.zero : MessageEnvelope :=
  { FromUUID := "", SendType := "", SendTo := "", Command := "", TaskID := "",
    Payload := RawMessage.absent }

/-- The struct `Device`; `LastSeen` is an instant in nanoseconds. -/
structure Device where
  UUID : String
  Name : String
  IP : String
  Port : Int
  Version : String
  LastSeen : Int
  deriving DecidableEq, Repr

/-- The zero value `Device{}`. -/
def Device.zero : Device :=
  { UUID := "", Name := "", IP := "", Port := 0, Version := "", LastSeen := 0 }

/-- A `CommandHandler`: a function value, known by its identity only. -/
structure CommandHandler where
  id : Nat
  deriving DecidableEq, Repr

/-- What a `*net.UDPConn` was opened for. -/
inductive SocketKind where
  | multicast (iface : String)
  | unicast
  deriving DecidableEq, Repr

/-- A UDP socket of the process. -/
structure Socket where
  kind : SocketKind
  closed : Bool
  deriving DecidableEq, Repr

/-- The struct `Discovery`, followed by the stores its pointers index:
`deviceObjs` for `*Device`, `chans` for `chan MessageEnvelope` (capacity one:
`none` is the empty buffer) and `sockets` for `*net.UDPConn`. `ctxDone` says
that `cancel` was called. The mutex and the logger carry no data. -/
structure Discovery where
  uuid : String
  name : String
  ip : String
  port : Int
  version : String
  ctxDone : Bool
  handlers : GoMap CommandHandler
  devices : GoMap Nat
  pending : GoMap Nat
  multicastConns : List Nat
  unicastConn : Option Nat
  deviceObjs : List Device
  chans : List (Option MessageEnvelope)
  sockets : List Socket

/-- A goroutine started by a `go` statement. -/
inductive Goroutine where
  | listenMulticast (conn : Nat)
  | sendMulticastAnnounce
  | cleanupDevices
  | handler (h : CommandHandler) (src : String) (env : MessageEnvelope)
  deriving DecidableEq, Repr

/-- A call of `d.logger`, by call site, with the arguments formatted into it. -/
inductive LogLine where
  | listenFailed (iface : String)
  | started (name ip : String) (port : Int)
  | stopped
  | readFailed
  | decodeFailed
  | payloadFailed
  | newDevice (name ip : Any) (port : Int)
  | unregistered (cmd : String)
  | expired (uuid : String)
  | sendFailed (msg : String)
  | announceFailed (msg : String)
  deriving DecidableEq, Repr

/-- How a step ended: it returned, it panicked (which ends the process), it
blocked forever, or (for a loop) it is still running. -/
inductive Status where
  | returned
  | panicked
  | blocked
  | running
  deriving DecidableEq, Repr

/-- The result of one step of the package. -/
structure Step where
  state : Discovery
  spawned : List Goroutine
  logged : List LogLine
  status : Status

/-- The registry entry under `k`, read through its pointer. -/
def Discovery.device (d : Discovery) (k : String) : Option Device :=
  (d.devices.lookup k).bind (fun p => d.deviceObjs[p]?)

/-- The dereference `*p` of a `*Device`. -/
def Discovery.deref (d : Discovery) (p : Nat) : Device :=
  d.deviceObjs.getD p Device.zero

/-- The function `NewDiscovery` (lines 80-97); `id`, `ip` and `port` are what
`uuid.New().String()`, `getLocalIP()` and `getAvailablePort()` return. -/
def NewDiscovery (name ver id ip : String) (port : Int) : Discovery :=
  { uuid := id, name := name, ip := ip, port := port, version := ver, ctxDone := false,
    handlers := GoMap.empty, devices := GoMap.empty, pending := GoMap.empty,
    multicastConns := [], unicastConn := none, deviceObjs := [], chans := [], sockets := [] }

/-- The method `RegisterHandler` (lines 100-104). -/
def RegisterHandler (d : Discovery) (cmd : String) (handler : CommandHandler) : Discovery :=
  { d with handlers := d.handlers.insert cmd handler }

/-! ## The received-message pipeline (lines 217-288) -/

/-- Lines 273-276: the send `ch <- env` into an empty buffer, followed by
`delete(d.pending, env.TaskID)`. -/
def deliver (d : Discovery) (env : MessageEnvelope) (ch : Nat) : Discovery :=
  { d with chans := d.chans.set ch (some env), pending := d.pending.erase env.TaskID }

/-- Lines 269-288 of `processReceivedMessage`: the pending lookup, the send
into the capacity-one channel (it blocks unless the buffer is empty) followed by
the delete, and otherwise the handler lookup. `logged` is what the function has
logged so far. -/
def resolveOrDispatch (d : Discovery) (src : String) (env : MessageEnvelope)
    (logged : List LogLine) : Step :=
  match d.pending.lookup env.TaskID with
  | some ch =>
    match d.chans[ch]? with
    | some none =>
      { state := deliver d env ch, spawned := [], logged := logged, status := Status.returned }
    | _ => { state := d, spawned := [], logged := logged, status := Status.blocked }
  | none =>
    match d.handlers.lookup env.Command with
    | some handler =>
      { state := d, spawned := [Goroutine.handler handler src env], logged := logged,
        status := Status.returned }
    | none =>
      { state := d, spawned := [], logged := logged ++ [LogLine.unregistered env.Command],
        status := Status.returned }

/-- The composite literal of lines 257-264; `f` is `info["port"].(float64)`. -/
def announcedDevice (env : MessageEnvelope) (info : List (String × Any)) (f : Float64)
    (now : Int) : Device :=
  { UUID := env.FromUUID, Name := Sprint (index info "name"), IP := Sprint (index info "ip"),
    Port := f.toInt, Version := Sprint (index info "version"), LastSeen := now }

/-- The assignment `d.devices[k] = &dev` of line 257: a new `Device` is
allocated and its pointer stored under `k`. -/
def upsert (d : Discovery) (k : String) (dev : Device) : Discovery :=
  { d with deviceObjs := d.deviceObjs ++ [dev],
           devices := d.devices.insert k d.deviceObjs.length }

/-- The method `processReceivedMessage` (lines 249-288); `now` is the reading
of `time.Now()` on line 263. The type assertion on `info["port"]` panics before
the registry is written. -/
def processReceivedMessage (d : Discovery) (src : String) (env : MessageEnvelope)
    (now : Int) : Step :=
  if env.Command = "announce" then
    match unmarshalInfo env.Payload with
    | .error _ =>
      { state := d, spawned := [], logged := [LogLine.payloadFailed], status := Status.returned }
    | .ok info =>
      match assertFloat64 (index info "port") with
      | none => { state := d, spawned := [], logged := [], status := Status.panicked }
      | some f =>
        resolveOrDispatch (upsert d env.FromUUID (announcedDevice env info f now)) src env
          [LogLine.newDevice (index info "name") (index info "ip") f.toInt]
  else resolveOrDispatch d src env []

/-- What `json.Unmarshal(buf[:n], &env)` makes of a datagram: an error, or the
envelope it fills in. A datagram longer than the buffer of line 218 arrives cut
off and is malformed; `readOf` gives what a node reads of a datagram another
node wrote. -/
inductive Datagram where
  | malformed
  | json (env : MessageEnvelope)
  deriving DecidableEq, Repr

/-- What `conn.ReadFromUDP(buf)` returns: a timeout error, another error, or a
datagram with its source address. -/
inductive ReadResult where
  | timeout
  | failed
  | ok (src : String) (buf : Datagram)
  deriving DecidableEq, Repr

/-- One pass through the `default` branch of the loop of `listenMulticast`
(lines 224-244). -/
def listenMulticastIter (d : Discovery) (r : ReadResult) (now : Int) : Step :=
  match r with
  | .timeout => { state := d, spawned := [], logged := [], status := Status.returned }
  | .failed =>
    { state := d, spawned := [], logged := [LogLine.readFailed], status := Status.returned }
  | .ok _ .malformed =>
    { state := d, spawned := [], logged := [LogLine.decodeFailed], status := Status.returned }
  | .ok src (.json env) =>
    if env.FromUUID = d.uuid then
      { state := d, spawned := [], logged := [], status := Status.returned }
    else processReceivedMessage d src env now

/-- The method `listenMulticast` (lines 217-247) run on the reads the socket
delivers, each with the clock reading of that pass. The loop returns once the
context is done, stops where a pass panics or blocks, and is still running when
the reads given are used up. -/
def listenMulticast : Discovery → List (ReadResult × Int) → Step
  | d, [] =>
    { state := d, spawned := [], logged := [],
      status := if d.ctxDone then Status.returned else Status.running }
  | d, (r, now) :: rest =>
    if d.ctxDone then { state := d, spawned := [], logged := [], status := Status.returned }
    else
      let s := listenMulticastIter d r now
      match s.status with
      | .returned =>
        let t := listenMulticast s.state rest
        { state := t.state, spawned := s.spawned ++ t.spawned, logged := s.logged ++ t.logged,
          status := t.status }
      | _ => s

/-! ## The sweeper (lines 311-330) -/

/-- The test `now.Sub(dev.LastSeen) > timeout` of line 322 on the device that
`p` points to. -/
def Discovery.isExpired (d : Discovery) (now : Int) (p : Nat) : Bool :=
  decide (Sub now (d.deref p).LastSeen > timeout)

/-- One tick of `cleanupDevices` (lines 319-327); `now` is the reading of
`time.Now()` on line 320. -/
def cleanupDevicesTick (d : Discovery) (now : Int) : Step :=
  { state := { d with devices := d.devices.filter (fun _ p => !d.isExpired now p) },
    spawned := [],
    logged := (d.devices.entries.filter (fun e => d.isExpired now e.2)).map
      (fun e => LogLine.expired (d.deref e.2).UUID),
    status := Status.returned }

/-- The method `cleanupDevices` (lines 311-330) run on the ticks the ticker
delivers, each with the clock reading of that tick. The loop returns once the
context is done and is still running when the ticks given are used up. -/
def cleanupDevices : Discovery → List Int → Step
  | d, [] =>
    { state := d, spawned := [], logged := [],
      status := if d.ctxDone then Status.returned else Status.running }
  | d, now :: rest =>
    if d.ctxDone then { state := d, spawned := [], logged := [], status := Status.returned }
    else
      let s := cleanupDevicesTick d now
      let t := cleanupDevices s.state rest
      { state := t.state, spawned := s.spawned ++ t.spawned, logged := s.logged ++ t.logged,
        status := t.status }

/-! ## Start and Stop (lines 107-157, 363-392) -/

/-- An address of an interface, as far as `getActiveInterfaces` inspects it:
whether it is a `*net.IPNet`, whether its IP is a loopback address, and whether
`To4()` is non-nil. -/
structure IfaceAddr where
  isIPNet : Bool
  isLoopback : Bool
  isIPv4 : Bool
  deriving DecidableEq, Repr

/-- A `net.Interface`, as far as the package inspects it: its name, three of its
flags, and what `Addrs()` returns (`none` is an error). -/
structure Interface where
  Name : String
  flagUp : Bool
  flagLoopback : Bool
  flagMulticast : Bool
  addrs : Option (List IfaceAddr)
  deriving DecidableEq, Repr

/-- The function `getActiveInterfaces` (lines 363-392); `all` is what
`net.Interfaces()` returns. -/
def getActiveInterfaces (all : Except String (List Interface)) :
    Except String (List Interface) :=
  match all with
  | .error e => .error ("get network interfaces failed: " ++ e)
  | .ok l =>
    .ok (l.filter (fun i =>
      i.flagUp && !i.flagLoopback && i.flagMulticast &&
        match i.addrs with
        | none => false
        | some as => as.any (fun a => a.isIPNet && !a.isLoopback && a.isIPv4)))

/-- What the operating system answers during one call of `Start`: the error of
`net.ResolveUDPAddr`, the result of `net.Interfaces()`, the error of
`net.ListenMulticastUDP` on each interface and the error of `net.ListenUDP`
(`none` is success). -/
structure StartEnv where
  resolve : Option String
  interfaces : Except String (List Interface)
  listenMulticastUDP : Interface → Option String
  listenUDP : Option String

/-- The loop of lines 120-128 of `Start`: a socket is opened, appended to
`multicastConns` and given a `listenMulticast` goroutine for each interface
that binds; an interface that does not bind is logged and skipped. -/
def bindInterfaces (bind : Interface → Option String) : Discovery → List Interface → Step
  | d, [] => { state := d, spawned := [], logged := [], status := Status.returned }
  | d, i :: rest =>
    match bind i with
    | some _ =>
      let t := bindInterfaces bind d rest
      { t with logged := LogLine.listenFailed i.Name :: t.logged }
    | none =>
      let mc := d.sockets.length
      let t := bindInterfaces bind
        { d with sockets := d.sockets ++ [{ kind := SocketKind.multicast i.Name, closed := false }],
                 multicastConns := d.multicastConns ++ [mc] } rest
      { t with spawned := Goroutine.listenMulticast mc :: t.spawned }

/-- The method `Start` (lines 107-145): the step it makes and the error it
returns (`none` is `nil`). -/
def Start (d : Discovery) (env : StartEnv) : Step × Option String :=
  match env.resolve with
  | some e =>
    ({ state := d, spawned := [], logged := [], status := Status.returned },
      some ("resolve multicast address failed: " ++ e))
  | none =>
    match getActiveInterfaces env.interfaces with
    | .error e =>
      ({ state := d, spawned := [], logged := [], status := Status.returned },
        some ("get active interfaces failed: " ++ e))
    | .ok interfaces =>
      let b := bindInterfaces env.listenMulticastUDP d interfaces
      if b.state.multicastConns.length = 0 then
        (b, some "no active multicast interfaces found to listen on")
      else
        match env.listenUDP with
        | some e => (b, some ("listen unicast UDP failed: " ++ e))
        | none =>
          let uc := b.state.sockets.length
          ({ state := { b.state with
                          sockets := b.state.sockets ++
                            [{ kind := SocketKind.unicast, closed := false }],
                          unicastConn := some uc },
             spawned := b.spawned ++ [Goroutine.sendMulticastAnnounce, Goroutine.cleanupDevices],
             logged := b.logged ++ [LogLine.started d.name d.ip d.port],
             status := Status.returned }, none)

/-- The call `conn.Close()` on the socket that `p` points to. -/
def closeSocket (sockets : List Socket) (p : Nat) : List Socket :=
  match sockets[p]? with
  | some s => sockets.set p { s with closed := true }
  | none => sockets

/-- The method `Stop` (lines 148-157). -/
def Stop (d : Discovery) : Step :=
  let closedMulticast := d.multicastConns.foldl closeSocket d.sockets
  { state := { d with ctxDone := true,
                      sockets := match d.unicastConn with
                        | some uc => closeSocket closedMulticast uc
                        | none => closedMulticast },
    spawned := [], logged := [LogLine.stopped], status := Status.returned }

/-! ## Send (lines 160-175, 332-360) -/

/-- The constant `multicastAddr`. -/
def multicastAddr : String := "239.0.0.1:9999"

/-- What the operating system answers during one call of `Send`: the error of
`net.ResolveUDPAddr("udp", addr)` for each address, the error of
`conn.WriteToUDP(data, addr)` for each open socket, destination and datagram
(`none` is success), and what `conn.LocalAddr().String()` returns. -/
structure Network where
  resolve : String → Option String
  write : Nat → String → MessageEnvelope → Option String
  localAddr : Nat → String

/-- One call of `WriteToUDP`: the socket, the destination, the envelope whose
JSON encoding is the datagram, and the error the call returned. -/
structure Packet where
  conn : Nat
  dest : String
  data : MessageEnvelope
  err : Option String
  deriving DecidableEq, Repr

/-- What a call of `Send` does: the writes it makes in order, the lines it
logs, the error it returns (`none` is `nil`), and whether it returns or
panics. -/
structure Sent where
  writes : List Packet
  logged : List LogLine
  err : Option String
  status : Status
  deriving DecidableEq, Repr

/-- The call `json.Marshal(env)`: it fails exactly when the payload is not a
valid JSON text; otherwise the data is the JSON encoding of `env`, which this
model identifies with `env` (an empty `sendTo` or payload is omitted and reads
back as empty). -/
def marshalEnvelope (env : MessageEnvelope) : Except String MessageEnvelope :=
  match env.Payload with
  | .invalid => .error "json: error calling MarshalJSON for type json.RawMessage"
  | _ => .ok env

/-- The call `conn.WriteToUDP(data, addr)` on the socket `conn` points to: a
closed socket refuses the write, an open one does what the network says. -/
def writeToUDP (d : Discovery) (net : Network) (conn : Nat) (dest : String)
    (data : MessageEnvelope) : Packet :=
  { conn := conn, dest := dest, data := data,
    err := match d.sockets[conn]? with
      | some s =>
        if s.closed then some "use of closed network connection" else net.write conn dest data
      | none => some "invalid argument" }

/-- The loop of lines 340-348 of `sendMulticast` over the remaining
connections; `lastErr` is the variable of line 338. -/
def sendMulticastLoop (d : Discovery) (net : Network) (data : MessageEnvelope) :
    List Nat → Option String → Sent
  | [], lastErr => { writes := [], logged := [], err := lastErr, status := Status.returned }
  | conn :: rest, lastErr =>
    match (writeToUDP d net conn multicastAddr data).err with
    | none =>
      let t := sendMulticastLoop d net data rest lastErr
      { t with writes := writeToUDP d net conn multicastAddr data :: t.writes }
    | some e =>
      let msg := "send multicast on " ++ net.localAddr conn ++ " failed: " ++ e
      let t := sendMulticastLoop d net data rest (some msg)
      { t with writes := writeToUDP d net conn multicastAddr data :: t.writes,
               logged := LogLine.sendFailed msg :: t.logged }

/-- The method `sendMulticast` (lines 332-350). -/
def sendMulticast (d : Discovery) (net : Network) (data : MessageEnvelope) : Sent :=
  match net.resolve multicastAddr with
  | some e =>
    { writes := [], logged := [], err := some ("resolve multicast address failed: " ++ e),
      status := Status.returned }
  | none => sendMulticastLoop d net data d.multicastConns none

/-- The method `sendUnicast` (lines 352-360). The method call on line 357
dereferences `d.unicastConn`: it panics when the pointer is nil, that is when
`Start` has not opened the unicast socket. -/
def sendUnicast (d : Discovery) (net : Network) (addr : String) (data : MessageEnvelope) :
    Sent :=
  match net.resolve addr with
  | some e =>
    { writes := [], logged := [], err := some ("resolve unicast address failed: " ++ e),
      status := Status.returned }
  | none =>
    match d.unicastConn with
    | none => { writes := [], logged := [], err := none, status := Status.panicked }
    | some uc =>
      { writes := [writeToUDP d net uc addr data], logged := [],
        err := (writeToUDP d net uc addr data).err, status := Status.returned }

/-- The method `Send` (lines 160-175). -/
def Send (d : Discovery) (env : MessageEnvelope) (net : Network) : Sent :=
  match marshalEnvelope { env with FromUUID := d.uuid } with
  | .error e =>
    { writes := [], logged := [], err := some ("marshal message envelope failed: " ++ e),
      status := Status.returned }
  | .ok data =>
    if env.SendType = "announce" then sendMulticast d net data
    else if env.SendType = "spec" ∨ env.SendType = "response" then
      sendUnicast d net env.SendTo data
    else
      { writes := [], logged := [], err := some ("未知 sendType: " ++ env.SendType),
        status := Status.returned }

/-! ## GetDevices (lines 207-215) -/

/-- The method `GetDevices` (lines 207-215): a new slice that holds, for each
entry of the map, the pointer stored in that entry. -/
def GetDevices (d : Discovery) : List Nat :=
  d.devices.entries.map Prod.snd

/-- An assignment `*p = dev` by a caller that holds the pointer `p`, for
instance one returned by `GetDevices` (an assignment to one field is the case
where `dev` differs from `*p` in that field). -/
def storeDevice (d : Discovery) (p : Nat) (dev : Device) : Discovery :=
  { d with deviceObjs := d.deviceObjs.set p dev }

/-! ## The announcer (lines 290-309, 422-425) -/

/-- The integer nearest to `n` among the values of a `float64`, ties to the
even significand: `n` itself up to 2^53 in absolute value, and beyond that the
53 leading bits of `n`, rounded. -/
def roundFloat64 (n : Int) : Int :=
  if n.natAbs ≤ 2 ^ 53 then n
  else
    let shift := Nat.log2 n.natAbs - 52
    let q := n.natAbs / 2 ^ shift
    let r := n.natAbs % 2 ^ shift
    let q' := if 2 ^ (shift - 1) < r ∨ (r = 2 ^ (shift - 1) ∧ q % 2 = 1) then q + 1 else q
    Int.sign n * (q' * 2 ^ shift : Nat)

/-- The `float64` that `json.Unmarshal` stores for the decimal literal that
`json.Marshal` writes for the int `n`: the literal is read with correct
rounding, and `int(f)` gives the rounded value back. `%v` prints the digits of
the value while it is below 10^6 in absolute value, the range of port numbers;
the exponent form of larger values is left out, the package never prints the
port it reads with `%v`. -/
def float64OfInt (n : Int) : Float64 :=
  { toInt := roundFloat64 n, sprint := toString (roundFloat64 n) }

/-- The payload `mustJSON(map[string]any{...})` of line 302, as it reads back:
`json.Marshal` writes the members of a map sorted by key, the int `port` as a
decimal literal. -/
def announcePayload (d : Discovery) : RawMessage :=
  RawMessage.object
    [("ip", Any.string d.ip), ("name", Any.string d.name),
     ("port", Any.float64 (float64OfInt d.port)), ("uuid", Any.string d.uuid),
     ("version", Any.string d.version)]

/-- The envelope of lines 298-303; `newUUID` is what `uuid.New().String()`
returns. -/
def announceEnvelope (d : Discovery) (newUUID : String) : MessageEnvelope :=
  { FromUUID := "", SendType := "announce", SendTo := "", Command := "announce",
    TaskID := newUUID, Payload := announcePayload d }

/-- One tick of `sendMulticastAnnounce` (lines 298-306): the envelope is built
and sent, and an error of `Send` is logged. -/
def sendMulticastAnnounceTick (d : Discovery) (newUUID : String) (net : Network) : Sent :=
  match (Send d (announceEnvelope d newUUID) net).err with
  | none => Send d (announceEnvelope d newUUID) net
  | some e =>
    { Send d (announceEnvelope d newUUID) net with
      logged := (Send d (announceEnvelope d newUUID) net).logged ++ [LogLine.announceFailed e] }

/-- The method `sendMulticastAnnounce` (lines 290-309) run on the ticks the
ticker delivers, each with the identifier generated and the network of that
tick. The loop returns once the context is done and is still running when the
ticks given are used up. -/
def sendMulticastAnnounce (d : Discovery) : List (String × Network) → Sent
  | [] =>
    { writes := [], logged := [], err := none,
      status := if d.ctxDone then Status.returned else Status.running }
  | (newUUID, net) :: rest =>
    if d.ctxDone then { writes := [], logged := [], err := none, status := Status.returned }
    else
      { writes := (sendMulticastAnnounceTick d newUUID net).writes ++
          (sendMulticastAnnounce d rest).writes,
        logged := (sendMulticastAnnounceTick d newUUID net).logged ++
          (sendMulticastAnnounce d rest).logged,
        err := none, status := (sendMulticastAnnounce d rest).status }

/-! ## An announce on the wire (lines 39-46, 218, 226, 236, 302) -/

/-- The number of bytes `json.Marshal` writes for one character of a string
(Go 1.22 and later, HTML escaping on): two for the quote, the backslash and the
control characters with a short escape (backspace, tab, line feed, form feed,
carriage return), six for the other control characters, for `<`, `>`, `&` and
for U+2028 and U+2029, which are written as `\uXXXX`, and the length of the
UTF-8 encoding for every other character. -/
def jsonCharLen (c : Char) : Nat :=
  if c.toNat = 34 ∨ c.toNat = 92 then 2
  else if c.toNat = 8 ∨ c.toNat = 9 ∨ c.toNat = 10 ∨ c.toNat = 12 ∨ c.toNat = 13 then 2
  else if c.toNat < 32 ∨ c.toNat = 38 ∨ c.toNat = 60 ∨ c.toNat = 62 then 6
  else if c.toNat = 8232 ∨ c.toNat = 8233 then 6
  else c.utf8Size

/-- The number of bytes `json.Marshal` writes for a string: the two quotes and
the characters. -/
def jsonStringLen (s : String) : Nat :=
  2 + (s.toList.map jsonCharLen).sum

/-- The number of bytes of the payload of line 302: the braces, the five keys
with their colons and the four commas are 42 bytes, the port is written in
decimal. -/
def announcePayloadLen (d : Discovery) : Nat :=
  42 + jsonStringLen d.ip + jsonStringLen d.name + (toString d.port).length +
    jsonStringLen d.uuid + jsonStringLen d.version

/-- The number of bytes of the datagram that `Send` writes for the announce
envelope of line 298, stamped with the node's uuid: the braces, the keys
`fromUuid`, `sendType`, `command`, `taskId` and `payload` with colons and
commas and the two values "announce" are 77 bytes; the empty `sendTo` is
omitted. -/
def announceDatagramLen (d : Discovery) (newUUID : String) : Nat :=
  77 + jsonStringLen d.uuid + jsonStringLen newUUID + announcePayloadLen d

/-- The length of the buffer `listenMulticast` reads into (line 218). -/
def readBufferSize : Nat := 2048

/-- What a pass of `listenMulticast` (lines 226-238) gets of a datagram of
`size` bytes that encodes `data`: the envelope when the datagram fits the
buffer; otherwise the read keeps the first 2048 bytes, which are not a complete
JSON value, and `json.Unmarshal` fails (where the system refuses to cut a
datagram the read fails instead, with the same effect on the node). -/
def readOf (src : String) (data : MessageEnvelope) (size : Nat) : ReadResult :=
  if size ≤ readBufferSize then ReadResult.ok src (Datagram.json data)
  else ReadResult.ok src Datagram.malformed

/-! ## Steps of the node as a whole -/

/-- Lines 179-181 of `RequestResponse`: an empty task id is replaced by
`newUUID`, which is what `uuid.New().String()` returns. -/
def withTaskID (env : MessageEnvelope) (newUUID : String) : MessageEnvelope :=
  if env.TaskID = "" then { env with TaskID := newUUID } else env

/-- Lines 179-186 of `RequestResponse`: the task id is filled in, a channel of
capacity one is made and registered under the task id. The result is the new
state, the envelope that will be sent and the channel. -/
def requestRegister (d : Discovery) (env : MessageEnvelope) (newUUID : String) :
    Discovery × MessageEnvelope × Nat :=
  ({ d with chans := d.chans ++ [none],
            pending := d.pending.insert (withTaskID env newUUID).TaskID d.chans.length },
    withTaskID env newUUID, d.chans.length)

/-- An atomic step some goroutine of the process makes on the node state. -/
inductive Event where
  -- a call of `RegisterHandler`
  | registerHandler (cmd : String) (handler : CommandHandler)
  -- a call of `Start`
  | start (env : StartEnv)
  -- a call of `Stop`
  | stop
  -- one pass of a receive loop
  | recv (r : ReadResult) (now : Int)
  -- one tick of the sweeper
  | sweep (now : Int)
  -- a caller enters `RequestResponse` (lines 179-186)
  | request (env : MessageEnvelope) (newUUID : String)
  -- a caller of `RequestResponse` deletes its registration (lines 189-191, 199-201)
  | abandon (taskID : String)
  -- a caller of `RequestResponse` receives from its channel (line 196)
  | take (ch : Nat)
  -- a caller writes a `Device` through a pointer it holds
  | store (p : Nat) (dev : Device)

/-- The state after an event. -/
def Discovery.apply (d : Discovery) : Event → Discovery
  | .registerHandler cmd handler => RegisterHandler d cmd handler
  | .start env => (Start d env).1.state
  | .stop => (Stop d).state
  | .recv r now => (listenMulticastIter d r now).state
  | .sweep now => (cleanupDevicesTick d now).state
  | .request env newUUID => (requestRegister d env newUUID).1
  | .abandon taskID => { d with pending := d.pending.erase taskID }
  | .take ch => { d with chans := d.chans.set ch none }
  | .store p dev => storeDevice d p dev

/-- The state after a sequence of events. -/
def Discovery.run (d : Discovery) (events : List Event) : Discovery :=
  events.foldl Discovery.apply d

/-- A state of a node made by `NewDiscovery` after some sequence of events. -/
def Reachable (d : Discovery) : Prop :=
  ∃ (name ver id ip : String) (port : Int) (events : List Event),
    d = (NewDiscovery name ver id ip port).run events

/-- Whether an event is a pass of a receive loop that panics in state `d`. -/
def Event.panics (d : Discovery) : Event → Bool
  | .recv r now => decide ((listenMulticastIter d r now).status = Status.panicked)
  | _ => false

/-- Whether an event is a pass of a receive loop of node `d` that hands an
envelope with task id `t` to `processReceivedMessage`. -/
def Event.dispatchesTask (d : Discovery) (t : String) : Event → Bool
  | .recv (.ok _ (.json env)) _ => decide (env.FromUUID ≠ d.uuid) && decide (env.TaskID = t)
  | _ => false

/-- Whether an event is a step of another caller of `RequestResponse` on the
registration of task id `t` or on the channel `ch`: it registers `t` anew,
deletes `t`, or receives from `ch`. -/
def Event.meddles (t : String) (ch : Nat) : Event → Bool
  | .request env newUUID => decide ((withTaskID env newUUID).TaskID = t)
  | .abandon taskID => decide (taskID = t)
  | .take c => decide (c = ch)
  | _ => false

/-- Whether `processReceivedMessage` gets as far as the pending lookup of line
270 on this envelope: it does unless the envelope is an announce whose payload
fails to decode (return on line 254) or has no numeric port (panic on line
261). -/
def MessageEnvelope.reachesLookup (env : MessageEnvelope) : Bool :=
  if env.Command = "announce" then
    match unmarshalInfo env.Payload with
    | .ok info => (assertFloat64 (index info "port")).isSome
    | .error _ => false
  else true

/-- Whether an event is a write of a caller through a `*Device`. -/
def Event.isStore : Event → Bool
  | .store _ _ => true
  | _ => false

/-- Whether the identifier an event takes from `uuid.New().String()` is
non-empty, as every identifier that call returns is (36 characters). -/
def Event.freshOk : Event → Bool
  | .request _ newUUID => decide (newUUID ≠ "")
  | _ => true

/-- The registrations (lines 179-186) of a sequence of `RequestResponse`
calls, in order; each call is given by its envelope and by what
`uuid.New().String()` would return for it. -/
def registerAll (d : Discovery) (reqs : List (MessageEnvelope × String)) : Discovery :=
  reqs.foldl (fun d r => (requestRegister d r.1 r.2).1) d

/-- The task ids under which a sequence of `RequestResponse` calls registers. -/
def taskIDs (reqs : List (MessageEnvelope × String)) : List String :=
  reqs.map (fun r => (withTaskID r.1 r.2).TaskID)

/-- Whether an envelope carries a payload that `processReceivedMessage`
accepts for an announce: a JSON object with a numeric port. -/
def MessageEnvelope.wellFormed (env : MessageEnvelope) : Bool :=
  match env.Payload with
  | .object info => (assertFloat64 (index info "port")).isSome
  | _ => false

/-- What a node sees happen around one peer: an announce of the peer is
processed at an instant, an envelope of somebody else is processed, or the
sweeper ticks at an instant. -/
inductive PeerStep where
  | announced (src : String) (env : MessageEnvelope) (now : Int)
  | other (src : String) (env : MessageEnvelope) (now : Int)
  | swept (now : Int)

/-- The state after a sequence of steps around a peer. -/
def runPeer : Discovery → List PeerStep → Discovery
  | d, [] => d
  | d, .announced src env now :: rest => runPeer (processReceivedMessage d src env now).state rest
  | d, .other src env now :: rest => runPeer (processReceivedMessage d src env now).state rest
  | d, .swept now :: rest => runPeer (cleanupDevicesTick d now).state rest

/-- The steps are timely for peer `k`: every announce among them is a
well-formed announce sent by `k` and comes at most `window` after the previous
one (the first at most `window` after `last`), every sweep comes at most
`window` after the latest announce before it, and the other envelopes are not
sent by `k`. -/
def Timely (k : String) (window : Int) : Int → List PeerStep → Prop
  | _, [] => True
  | last, .announced _ env now :: rest =>
    env.FromUUID = k ∧ env.Command = "announce" ∧ env.wellFormed = true ∧
      now - last ≤ window ∧ Timely k window now rest
  | last, .other _ env _ :: rest => env.FromUUID ≠ k ∧ Timely k window last rest
  | last, .swept now :: rest => now - last ≤ window ∧ Timely k window last rest

/-! ## RequestResponse (lines 178-204) -/

/-- What `RequestResponse` returns: the state it leaves, the envelope and the
error message (`none` is `nil`). -/
structure Response where
  state : Discovery
  resp : MessageEnvelope
  err : Option String

/-- The case `resp := <-ch` of line 196, when it is ready: the envelope is
taken out of the channel and returned with a nil error. -/
def tryReceive (d : Discovery) (ch : Nat) : Option Response :=
  match d.chans[ch]? with
  | some (some resp) =>
    some { state := { d with chans := d.chans.set ch none }, resp := resp, err := none }
  | _ => none

/-- The `select` of lines 195-203, with the steps the other goroutines make
while the caller waits, up to the moment the timer fires. The caller receives
as soon as its channel holds an envelope (line 196); when the steps are used up
and the channel is still empty the timer fires (lines 198-202). A step that
panics ends the process: `none`. -/
def requestAwait (env : MessageEnvelope) (ch : Nat) : Discovery → List Event → Option Response
  | d, [] =>
    match tryReceive d ch with
    | some out => some out
    | none =>
      some { state := { d with pending := d.pending.erase env.TaskID },
             resp := MessageEnvelope.zero, err := some ("任务超时: " ++ env.TaskID) }
  | d, e :: rest =>
    match tryReceive d ch with
    | some out => some out
    | none => if e.panics d then none else requestAwait env ch (d.apply e) rest

/-- The call `d.Send(env)` on line 188 of `RequestResponse`: the envelope with
its task id filled in is sent in the state left by the registration. -/
def requestSend (d : Discovery) (env : MessageEnvelope) (newUUID : String) (net : Network) :
    Sent :=
  Send (requestRegister d env newUUID).1 (requestRegister d env newUUID).2.1 net

/-- The method `RequestResponse` (lines 178-204); `net` is what the operating
system answers to the `Send` of line 188, made in the state the registration
leaves, and `meanwhile` are the steps of the other goroutines until the timer
fires. `none` is a panic: of `Send` on a node without unicast socket (line
357), or of a step of another goroutine while the caller waits. -/
def RequestResponse (d : Discovery) (env : MessageEnvelope) (newUUID : String)
    (net : Network) (meanwhile : List Event) : Option Response :=
  let reg := requestRegister d env newUUID
  match (requestSend d env newUUID net).status with
  | .returned =>
    match (requestSend d env newUUID net).err with
    | some e =>
      some { state := { reg.1 with pending := reg.1.pending.erase reg.2.1.TaskID },
             resp := MessageEnvelope.zero, err := some ("send request failed: " ++ e) }
    | none => requestAwait reg.2.1 reg.2.2 reg.1 meanwhile
  | _ => none

/-! ## Predicates on node states -/

/-- The fields that only the dispatcher, the sweeper and `RequestResponse`
write are left alone by `d'`. -/
def SameTables (d d' : Discovery) : Prop :=
  d'.uuid = d.uuid ∧ d'.handlers = d.handlers ∧ d'.devices = d.devices ∧
  d'.pending = d.pending ∧ d'.deviceObjs = d.deviceObjs ∧ d'.chans = d.chans

/-- Every registered waiter is an existing channel with an empty buffer, and no
channel is registered under two task ids. -/
def Discovery.WF (d : Discovery) : Prop :=
  (∀ t c, d.pending.lookup t = some c → d.chans[c]? = some none) ∧
  (∀ t1 t2 c, d.pending.lookup t1 = some c → d.pending.lookup t2 = some c → t1 = t2)

/-- Every entry of the registry points to a `Device` whose UUID is the key of
the entry. -/
def KeyedByUUID (d : Discovery) : Prop :=
  ∀ k p, d.devices.lookup k = some p → ∃ dev, d.deviceObjs[p]? = some dev ∧ dev.UUID = k

/-- The channel `ch` is empty and is registered under no task id but `t`. -/
def Own (d : Discovery) (t : String) (ch : Nat) : Prop :=
  d.chans[ch]? = some none ∧ ∀ k c, d.pending.lookup k = some c → c = ch → k = t

/-! ## Sample data -/

/-- A freshly created node B. -/
def nodeB : Discovery := NewDiscovery "B" "1.0.0" "uuid-b" "10.0.0.2" 9000

/-- A request B sends to A. -/
def pingRequest : MessageEnvelope :=
  { FromUUID := "", SendType := "spec", SendTo := "10.0.0.5:9000", Command := "ping",
    TaskID := "task-1", Payload := RawMessage.absent }

/-- The reply of A to `pingRequest`. -/
def pongReply : MessageEnvelope :=
  { FromUUID := "uuid-a", SendType := "response", SendTo := "10.0.0.2:40000", Command := "pong",
    TaskID := "task-1", Payload := RawMessage.string "ok" }

/-- An announce envelope of A carrying `payload`. -/
def announceOfA (payload : RawMessage) : MessageEnvelope :=
  { FromUUID := "uuid-a", SendType := "announce", SendTo := "", Command := "announce",
    TaskID := "task-9", Payload := payload }

/-- The payload A's announcer builds: a JSON object with name, version, ip,
port and uuid. -/
def payloadOfA : RawMessage :=
  RawMessage.object
    [("ip", Any.string "10.0.0.5"), ("name", Any.string "A"),
     ("port", Any.float64 { toInt := 9000, sprint := "9000" }),
     ("uuid", Any.string "uuid-a"), ("version", Any.string "1.0.0")]

/-- Node B with `pingRequest` registered and waiting. -/
def nodeBWaiting : Discovery := nodeB.run [Event.request pingRequest "fresh-1"]

/-- Node B with two requests registered and waiting, task-1 and task-2. -/
def nodeBWaitingTwo : Discovery :=
  nodeB.run [Event.request pingRequest "fresh-1",
    Event.request { pingRequest with TaskID := "task-2" } "fresh-2"]

/-- An announce envelope of A without payload that carries the task id of
`pingRequest`. -/
def strayAnnounce : MessageEnvelope :=
  { FromUUID := "uuid-a", SendType := "announce", SendTo := "", Command := "announce",
    TaskID := "task-1", Payload := RawMessage.absent }

/-- An announce envelope that carries B's own uuid. -/
def selfAnnounce : MessageEnvelope :=
  { FromUUID := "uuid-b", SendType := "announce", SendTo := "", Command := "announce",
    TaskID := "task-7", Payload := payloadOfA }

/-- An interface that is up, multicast-capable and holds an IPv4 address. -/
def eth0 : Interface :=
  { Name := "eth0", flagUp := true, flagLoopback := false, flagMulticast := true,
    addrs := some [{ isIPNet := true, isLoopback := false, isIPv4 := true }] }

/-- An operating system on which every call of `Start` succeeds, with the one
interface `eth0`. -/
def startOK : StartEnv :=
  { resolve := none, interfaces := Except.ok [eth0], listenMulticastUDP := fun _ => none,
    listenUDP := none }

/-- Node B after a successful `Start`: multicast socket 0, unicast socket 1. -/
def startedB : Discovery := (Start nodeB startOK).1.state

/-- A network on which every address resolves and every write succeeds. -/
def netOK : Network :=
  { resolve := fun _ => none, write := fun _ _ _ => none, localAddr := fun _ => "10.0.0.2:9999" }

/-- The started node B with `pingRequest` registered and waiting. -/
def startedBWaiting : Discovery := (requestRegister startedB pingRequest "fresh-1").1

/-- What `RequestResponse` returns to the started node B when nothing arrives
for `pingRequest`. -/
def timedOutB : Response :=
  { state := { startedBWaiting with pending := startedBWaiting.pending.erase "task-1" },
    resp := MessageEnvelope.zero, err := some "任务超时: task-1" }

/-- A network on which the address `nowhere` does not resolve. -/
def netNoRoute : Network :=
  { resolve := fun a => if a = "nowhere" then some "missing port in address" else none,
    write := fun _ _ _ => none, localAddr := fun _ => "10.0.0.2:9999" }

/-- A directed request whose destination does not resolve. -/
def lostRequest : MessageEnvelope :=
  { FromUUID := "", SendType := "spec", SendTo := "nowhere", Command := "ping",
    TaskID := "task-3", Payload := RawMessage.absent }

/-- An announce envelope of A with a well-formed payload that carries the task
id of `pingRequest`. -/
def echoAnnounce : MessageEnvelope :=
  { FromUUID := "uuid-a", SendType := "announce", SendTo := "", Command := "announce",
    TaskID := "task-1", Payload := payloadOfA }

/-- Node B after it has processed the announce of A at instant 77. -/
def nodeBKnowsA : Discovery :=
  (processReceivedMessage nodeB "10.0.0.5:9999" (announceOfA payloadOfA) 77).state

/-- The device of A as B stores it, renamed by a caller. -/
def renamedA : Device :=
  { UUID := "uuid-a", Name := "X", IP := "10.0.0.5", Port := 9000, Version := "1.0.0",
    LastSeen := 77 }

/-- A second interface like `eth0`. -/
def wlan0 : Interface :=
  { Name := "wlan0", flagUp := true, flagLoopback := false, flagMulticast := true,
    addrs := some [{ isIPNet := true, isLoopback := false, isIPv4 := true }] }

/-- A tunnel interface that passes the filter of `getActiveInterfaces`. -/
def tun0 : Interface :=
  { Name := "tun0", flagUp := true, flagLoopback := false, flagMulticast := true,
    addrs := some [{ isIPNet := true, isLoopback := false, isIPv4 := true }] }

/-- An operating system with the candidates `eth0`, `tun0` and `wlan0` on which
the bind on `tun0` is refused. -/
def startThree : StartEnv :=
  { resolve := none, interfaces := Except.ok [eth0, tun0, wlan0],
    listenMulticastUDP := fun i => if i.Name = "tun0" then some "no such device" else none,
    listenUDP := none }

/-- Node B after `Start` on `startThree`: multicast sockets 0 (`eth0`) and 1
(`wlan0`), unicast socket 2. -/
def startedThree : Discovery := (Start nodeB startThree).1.state

/-- An operating system on which no bind succeeds. -/
def startNone : StartEnv :=
  { resolve := none, interfaces := Except.ok [eth0, wlan0],
    listenMulticastUDP := fun _ => some "address already in use", listenUDP := none }

/-- A network on which every write on socket 0 fails and every other write
succeeds. -/
def netFirstFails : Network :=
  { resolve := fun _ => none,
    write := fun c _ _ => if c = 0 then some "network is unreachable" else none,
    localAddr := fun c => if c = 0 then "10.0.0.2:9999" else "192.168.1.2:9999" }

/-- The candidates of a list on which the bind succeeds, in order. -/
def boundInterfaces (bind : Interface → Option String) (l : List Interface) : List Interface :=
  l.filter (fun i => (bind i).isNone)

/-- The socket that a successful bind on an interface opens. -/
def multicastSocket (i : Interface) : Socket :=
  { kind := SocketKind.multicast i.Name, closed := false }

/-- Every socket of the store is held by the node, as one of its multicast
connections or as its unicast connection. -/
def HoldsAll (d : Discovery) : Prop :=
  ∀ i, i < d.sockets.length → i ∈ d.multicastConns ∨ d.unicastConn = some i

/-- A request that a third node C sends to B. -/
def strangerPing : MessageEnvelope :=
  { FromUUID := "uuid-c", SendType := "spec", SendTo := "10.0.0.2:9000", Command := "ping",
    TaskID := "task-5", Payload := RawMessage.absent }

/-- Seconds as a `time.Duration` or as an instant on the node's clock. -/
def seconds (n : Int) : Int := n * 1000000000

/-- What B sees of A when one announce of A is lost: announces of A at 7 s and
22 s on B's clock, the announce due at 37 s missing, and the ticks of B's
sweeper at 25 s and 50 s. The next announce of A arrives at 52 s. -/
def missedAnnounce : List PeerStep :=
  [PeerStep.announced "10.0.0.5:9999" (announceOfA payloadOfA) (seconds 7),
   PeerStep.announced "10.0.0.5:9999" (announceOfA payloadOfA) (seconds 22),
   PeerStep.swept (seconds 25),
   PeerStep.swept (seconds 50)]

/-- An announce of A whose payload names another uuid than the envelope. -/
def spoofedAnnounce : MessageEnvelope :=
  { FromUUID := "uuid-a", SendType := "announce", SendTo := "", Command := "announce",
    TaskID := "task-9",
    Payload := RawMessage.object
      [("ip", Any.string "10.0.0.5"), ("name", Any.string "A"),
       ("port", Any.float64 { toInt := 9000, sprint := "9000" }),
       ("uuid", Any.string "uuid-z"), ("version", Any.string "1.0.0")] }

/-- The request `lostRequest` with the task id of `pingRequest`. -/
def lostRetry : MessageEnvelope := { lostRequest with TaskID := "task-1" }

/-- Node B with `pingRequest` waiting and a handler registered under
"announce". -/
def nodeBWaitingWithHandler : Discovery := RegisterHandler nodeBWaiting "announce" { id := 1 }

/-- A node A whose name has 2000 characters, after a successful `Start`. -/
def longNameA : Discovery :=
  (Start (NewDiscovery (String.mk (List.replicate 2000 'a')) "1.0.0" "uuid-a" "10.0.0.5" 9000)
    startOK).1.state

end discovery

namespace timetable

/-! ## The timetable parser (src/image/timetable/parser.go) -/

/-- The loop of `strings.Split` for a non-empty separator, on characters:
`skip` counts the characters of a matched separator still to pass over and
`cur` holds the characters of the current field, last first. -/
def splitLoop (sep : List Char) : List Char → Nat → List Char → List (List Char)
  | [], _, cur => [cur.reverse]
  | _ :: rest, skip + 1, cur => splitLoop sep rest skip cur
  | c :: rest, 0, cur =>
    if sep.isPrefixOf (c :: rest) then cur.reverse :: splitLoop sep rest (sep.length - 1) []
    else splitLoop sep rest 0 (c :: cur)

/-- The method `SplitString` (lines 29-31), that is `strings.Split(s, sep)`:
the fields between the occurrences of `sep`, and the characters of `s` one by
one when `sep` is empty. -/
def SplitString (s : String) (sep : String) : List String :=
  match sep.toList with
  | [] => s.toList.map (fun c => String.mk [c])
  | c :: cs => (splitLoop (c :: cs) s.toList 0 []).map String.mk

/-- The method `ParseData` (lines 18-26): a `map[string]string` with the four
keys, or `none` when one of the index expressions `spData[0]` to `spData[3]` is
out of range and the call panics. -/
def ParseData (info : String) : Option (List (String × String)) :=
  match SplitString info "," with
  | f0 :: f1 :: f2 :: f3 :: _ =>
    some [("courseName", f0), ("classroom", f1), ("class", f2), ("teacher", f3)]
  | _ => none

/-- A value of the `map[string]any` that `GetOneData` builds: a string or the
map that `ParseData` returns. -/
inductive Slot where
  | text (s : String)
  | course (fields : List (String × String))
  deriving DecidableEq, Repr

/-- The key `fmt.Sprintf("第%d节", index+1)`. -/
def slotKey (index : Nat) : String :=
  "第" ++ toString (index + 1) ++ "节"

/-- The loop of `GetOneData` (lines 36-42) from position `index` on; `none` is
a panic of `ParseData`. The keys of different positions differ, so that the
entries listed are the entries of the map. -/
def getOneDataFrom : Nat → List String → Option (List (String × Slot))
  | _, [] => some []
  | index, d :: rest =>
    if d = "" then
      (getOneDataFrom (index + 1) rest).map (fun m => (slotKey index, Slot.text "noClass") :: m)
    else
      match ParseData d with
      | none => none
      | some c =>
        (getOneDataFrom (index + 1) rest).map (fun m => (slotKey index, Slot.course c) :: m)

/-- The method `GetOneData` (lines 34-44). -/
def GetOneData (indexData : List String) : Option (List (String × Slot)) :=
  getOneDataFrom 0 indexData

/-- An element of an inner array, as far as the assertion `v.(string)` of line
102 tells it apart: a string, or a value of another type. -/
inductive Elem where
  | string (s : String)
  | other
  deriving DecidableEq, Repr

/-- An element of the outer array, as far as the assertion `data[i].([]any)` of
line 94 tells it apart: an array, or a value of another type. -/
inductive Row where
  | array (items : List Elem)
  | other
  deriving DecidableEq, Repr

/-- The bytes given to `json.Unmarshal(data, &jsonData)` with `jsonData` a
`[]any`, classified by the result: text that is not valid JSON, a JSON value
that is neither an array nor null, null, or an array. -/
inductive Input where
  | invalid
  | notArray
  | null
  | array (rows : List Row)
  deriving DecidableEq, Repr

/-- What a call does: it returns a value, returns an error, or panics. -/
inductive Result (α : Type) where
  | ok (v : α)
  | error (msg : String)
  | panic
  deriving DecidableEq, Repr

/-- The method `UnmarshalData` (lines 61-68); null leaves the nil slice. -/
def UnmarshalData : Input → Except String (List Row)
  | .invalid => .error "invalid character"
  | .notArray => .error "json: cannot unmarshal value into Go value of type []interface"
  | .null => .ok []
  | .array rows => .ok rows

/-- The method `ReadBytes` (lines 56-58). -/
def ReadBytes (data : Input) : Except String (List Row) :=
  UnmarshalData data

/-- Lines 100-109: the strings of an inner array, with the empty string for
an element that is not a string. -/
def stringData (items : List Elem) : List String :=
  items.map (fun v => match v with
    | .string s => s
    | .other => "")

/-- The loop of `processGenericData` (lines 93-113) from position `i` on: an
element that is not an array is skipped; `none` is a panic. The lines printed
to standard output are left out. -/
def processFrom : Nat → List Row → Option (List (Nat × List (String × Slot)))
  | _, [] => some []
  | i, .other :: rest => processFrom (i + 1) rest
  | i, .array items :: rest =>
    match GetOneData (stringData items) with
    | none => none
    | some d => (processFrom (i + 1) rest).map (fun m => (i, d) :: m)

/-- The method `processGenericData` (lines 89-116). -/
def processGenericData (data : List Row) : Result (List (Nat × List (String × Slot))) :=
  match processFrom 0 data with
  | none => Result.panic
  | some fullData => Result.ok fullData

/-- The method `ProcessBytes` (lines 80-86). -/
def ProcessBytes (data : Input) : Result (List (Nat × List (String × Slot))) :=
  match ReadBytes data with
  | .error e => Result.error e
  | .ok unmarshalledData => processGenericData unmarshalledData

/-- A timetable with one row: a course with four fields, a free slot and a
number where a string is expected. -/
def goodTable : Input :=
  Input.array [Row.array [Elem.string "Math,Room1,Class2,Li", Elem.string "", Elem.other]]

/-- A timetable whose only course string has two fields. -/
def shortTable : Input :=
  Input.array [Row.array [Elem.string "Math,Room1"]]

end timetable

namespace discovery

/-! ## Facts about Go maps -/

namespace GoMap

variable {α : Type}

theorem find_filter_ne (l : List (String × α)) (k k0 : String) (h : k ≠ k0) :
    (l.filter (fun e => e.1 != k0)).find? (fun e => e.1 == k) = l.find? (fun e => e.1 == k) := by
  induction l with
  | nil => rfl
  | cons e l ih =>
    obtain ⟨a, b⟩ := e
    by_cases h0 : a = k0
    · subst h0
      have hk : (a == k) = false := by simpa using (fun e => h e.symm)
      simp [List.filter_cons, List.find?_cons, hk, ih]
    · by_cases hk : a = k
      · subst hk
        simp [List.filter_cons, List.find?_cons, h0]
      · simp [List.filter_cons, List.find?_cons, h0, hk, ih]

theorem find_filter_self (l : List (String × α)) (k : String) :
    (l.filter (fun e => e.1 != k)).find? (fun e => e.1 == k) = none := by
  simp [List.find?_eq_none, List.mem_filter]

@[simp] theorem lookup_empty (k : String) : (empty : GoMap α).lookup k = none := rfl

@[simp] theorem lookup_insert_self (m : GoMap α) (k : String) (v : α) :
    (m.insert k v).lookup k = some v := by
  simp [lookup, insert]

theorem lookup_insert_ne (m : GoMap α) (k k0 : String) (v : α) (h : k ≠ k0) :
    (m.insert k0 v).lookup k = m.lookup k := by
  have h0 : ¬ k0 = k := fun e => h e.symm
  simp [lookup, insert, List.find?_cons, h0, find_filter_ne _ _ _ h]

@[simp] theorem lookup_erase_self (m : GoMap α) (k : String) : (m.erase k).lookup k = none := by
  simp [lookup, erase, find_filter_self]

theorem lookup_erase_ne (m : GoMap α) (k k0 : String) (h : k ≠ k0) :
    (m.erase k0).lookup k = m.lookup k := by
  simp [lookup, erase, find_filter_ne _ _ _ h]

theorem lookup_erase_of_none (m : GoMap α) (k k0 : String) (h : m.lookup k = none) :
    (m.erase k0).lookup k = none := by
  by_cases hk : k = k0
  · subst hk; simp
  · rw [lookup_erase_ne _ _ _ hk, h]

theorem find_filter_nodup (l : List (String × α)) (p : String × α → Bool) (k : String)
    (h : (l.map Prod.fst).Nodup) :
    (l.filter p).find? (fun e => e.1 == k) = (l.find? (fun e => e.1 == k)).filter p := by
  induction l with
  | nil => rfl
  | cons e l ih =>
    simp only [List.map_cons, List.nodup_cons] at h
    by_cases hk : e.1 = k
    · by_cases hp : p e = true
      · simp [List.filter_cons, List.find?_cons, hk, hp, Option.filter]
      · have hnone : (l.filter p).find? (fun e => e.1 == k) = none := by
          simp only [List.find?_eq_none, List.mem_filter]
          rintro x ⟨hx, -⟩ hxk
          have hxk : x.1 = k := by simpa using hxk
          exact h.1 (List.mem_map.2 ⟨x, hx, hxk.trans hk.symm⟩)
        simp [List.filter_cons, List.find?_cons, hk, hp, Option.filter, hnone]
    · by_cases hp : p e = true
      · simp [List.filter_cons, List.find?_cons, hk, hp, ih h.2]
      · simp [List.filter_cons, List.find?_cons, hk, hp, ih h.2]

theorem lookup_filter (m : GoMap α) (p : String → α → Bool) (k : String) :
    (m.filter p).lookup k = (m.lookup k).filter (p k) := by
  unfold lookup filter
  simp only []
  rw [find_filter_nodup _ _ _ m.nodup]
  cases hf : m.entries.find? (fun e => e.1 == k) with
  | none => rfl
  | some e =>
    have hk : e.1 = k := by simpa using List.find?_some hf
    by_cases hp : p e.1 e.2 = true
    · simp [Option.filter, hp, ← hk]
    · simp [Option.filter, hp, ← hk]

end GoMap

/-! ## What a step changes -/

theorem lt_of_getElem?_eq_some {α : Type} {l : List α} {i : Nat} {a : α}
    (h : l[i]? = some a) : i < l.length := by
  rcases Nat.lt_or_ge i l.length with h1 | h1
  · exact h1
  · rw [List.getElem?_eq_none h1] at h
    cases h

theorem resolveOrDispatch_state (d : Discovery) (src : String) (env : MessageEnvelope)
    (logged : List LogLine) :
    (resolveOrDispatch d src env logged).state = d ∨
    ∃ ch, d.pending.lookup env.TaskID = some ch ∧ d.chans[ch]? = some none ∧
      (resolveOrDispatch d src env logged).state = deliver d env ch := by
  unfold resolveOrDispatch
  cases hp : d.pending.lookup env.TaskID with
  | none =>
    left
    cases hh : d.handlers.lookup env.Command <;> simp
  | some ch =>
    simp only []
    split
    · next hc => right; exact ⟨ch, rfl, hc, rfl⟩
    · left; rfl

theorem resolveOrDispatch_status (d : Discovery) (src : String) (env : MessageEnvelope)
    (logged : List LogLine) :
    (resolveOrDispatch d src env logged).status ≠ Status.panicked := by
  unfold resolveOrDispatch
  cases hp : d.pending.lookup env.TaskID with
  | none => cases hh : d.handlers.lookup env.Command <;> simp
  | some ch =>
    simp only []
    split <;> simp

theorem processReceivedMessage_state (d : Discovery) (src : String) (env : MessageEnvelope)
    (now : Int) :
    ∃ d1, (d1 = d ∨ ∃ dev, d1 = upsert d env.FromUUID dev) ∧
      ((processReceivedMessage d src env now).state = d1 ∨
       ∃ ch, d.pending.lookup env.TaskID = some ch ∧ d.chans[ch]? = some none ∧
         (processReceivedMessage d src env now).state = deliver d1 env ch) := by
  unfold processReceivedMessage
  by_cases hcmd : env.Command = "announce"
  · simp only [hcmd, if_true]
    split
    · exact ⟨d, Or.inl rfl, Or.inl rfl⟩
    · rename_i info _
      split
      · exact ⟨d, Or.inl rfl, Or.inl rfl⟩
      · rename_i f _
        exact ⟨_, Or.inr ⟨announcedDevice env info f now, rfl⟩,
          resolveOrDispatch_state (upsert d env.FromUUID _) src env _⟩
  · simp only [hcmd, if_false]
    exact ⟨d, Or.inl rfl, resolveOrDispatch_state d src env []⟩

theorem listenMulticastIter_state (d : Discovery) (r : ReadResult) (now : Int) :
    (listenMulticastIter d r now).state = d ∨
    ∃ src env, r = ReadResult.ok src (Datagram.json env) ∧ env.FromUUID ≠ d.uuid ∧
      listenMulticastIter d r now = processReceivedMessage d src env now := by
  unfold listenMulticastIter
  cases r with
  | timeout => left; rfl
  | failed => left; rfl
  | ok src buf =>
    cases buf with
    | malformed => left; rfl
    | json env =>
      by_cases hself : env.FromUUID = d.uuid
      · left; simp [hself]
      · right; exact ⟨src, env, rfl, hself, by simp [hself]⟩

theorem bindInterfaces_tables (bind : Interface → Option String) (l : List Interface) :
    ∀ d : Discovery, SameTables d (bindInterfaces bind d l).state := by
  induction l with
  | nil => intro d; exact ⟨rfl, rfl, rfl, rfl, rfl, rfl⟩
  | cons i rest ih =>
    intro d
    unfold bindInterfaces
    cases hb : bind i with
    | some e => exact ih d
    | none => exact ih _

theorem Start_tables (d : Discovery) (env : StartEnv) : SameTables d (Start d env).1.state := by
  unfold Start
  cases hr : env.resolve with
  | some e => exact ⟨rfl, rfl, rfl, rfl, rfl, rfl⟩
  | none =>
    cases hi : getActiveInterfaces env.interfaces with
    | error e => exact ⟨rfl, rfl, rfl, rfl, rfl, rfl⟩
    | ok interfaces =>
      have hb := bindInterfaces_tables env.listenMulticastUDP interfaces d
      simp only []
      split
      · exact hb
      · cases hu : env.listenUDP with
        | some e => exact hb
        | none => exact hb

theorem Stop_tables (d : Discovery) : SameTables d (Stop d).state :=
  ⟨rfl, rfl, rfl, rfl, rfl, rfl⟩

/-! ## Invariants of reachable states -/

theorem WF_of_same {d d1 : Discovery} (hp : d1.pending = d.pending) (hc : d1.chans = d.chans)
    (h : d.WF) : d1.WF := by
  unfold Discovery.WF
  rw [hp, hc]
  exact h

theorem WF_erase {d d1 : Discovery} (t : String) (hp : d1.pending = d.pending.erase t)
    (hc : d1.chans = d.chans) (h : d.WF) : d1.WF := by
  have key : ∀ k c, (d.pending.erase t).lookup k = some c → d.pending.lookup k = some c := by
    intro k c hk
    by_cases hkt : k = t
    · subst hkt; simp at hk
    · rwa [GoMap.lookup_erase_ne _ _ _ hkt] at hk
  unfold Discovery.WF
  rw [hp, hc]
  exact ⟨fun k c hk => h.1 k c (key k c hk),
    fun t1 t2 c h1 h2 => h.2 t1 t2 c (key _ _ h1) (key _ _ h2)⟩

theorem WF_deliver {d : Discovery} (env : MessageEnvelope) (ch : Nat) (h : d.WF)
    (hp : d.pending.lookup env.TaskID = some ch) : (deliver d env ch).WF := by
  have key : ∀ k c, (d.pending.erase env.TaskID).lookup k = some c →
      d.pending.lookup k = some c ∧ k ≠ env.TaskID := by
    intro k c hk
    by_cases hkt : k = env.TaskID
    · subst hkt; simp at hk
    · exact ⟨by rwa [GoMap.lookup_erase_ne _ _ _ hkt] at hk, hkt⟩
  refine ⟨?_, ?_⟩
  · intro k c hk
    obtain ⟨hk1, hkt⟩ := key k c hk
    have hne : ch ≠ c := fun e => hkt (h.2 k env.TaskID c hk1 (e ▸ hp))
    show (d.chans.set ch (some env))[c]? = some none
    rw [List.getElem?_set_ne hne]
    exact h.1 k c hk1
  · intro t1 t2 c h1 h2
    exact h.2 t1 t2 c (key _ _ h1).1 (key _ _ h2).1

theorem WF_take {d : Discovery} (ch : Nat) (h : d.WF) :
    ({ d with chans := d.chans.set ch none } : Discovery).WF := by
  refine ⟨?_, h.2⟩
  intro k c hk
  have hc := h.1 k c hk
  show (d.chans.set ch none)[c]? = some none
  by_cases e : ch = c
  · subst e
    rw [List.getElem?_set_self (lt_of_getElem?_eq_some hc)]
  · rw [List.getElem?_set_ne e]
    exact hc

theorem WF_register {d : Discovery} (t : String) (h : d.WF) :
    ({ d with chans := d.chans ++ [none],
              pending := d.pending.insert t d.chans.length } : Discovery).WF := by
  have old : ∀ k c, d.pending.lookup k = some c → c < d.chans.length :=
    fun k c hk => lt_of_getElem?_eq_some (h.1 k c hk)
  refine ⟨?_, ?_⟩
  · intro k c hk
    show (d.chans ++ [none])[c]? = some none
    by_cases hkt : k = t
    · subst hkt
      have hc : d.chans.length = c := by simpa using hk
      subst hc
      exact List.getElem?_concat_length _ _
    · have hk1 : d.pending.lookup k = some c := by
        simpa [GoMap.lookup_insert_ne _ _ _ _ hkt] using hk
      rw [List.getElem?_append_left (old k c hk1)]
      exact h.1 k c hk1
  · intro t1 t2 c h1 h2
    have h1 : (d.pending.insert t d.chans.length).lookup t1 = some c := h1
    have h2 : (d.pending.insert t d.chans.length).lookup t2 = some c := h2
    by_cases e1 : t1 = t <;> by_cases e2 : t2 = t
    · rw [e1, e2]
    · subst e1
      have hc : d.chans.length = c := by simpa using h1
      rw [GoMap.lookup_insert_ne _ _ _ _ e2] at h2
      have := old t2 c h2
      omega
    · subst e2
      have hc : d.chans.length = c := by simpa using h2
      rw [GoMap.lookup_insert_ne _ _ _ _ e1] at h1
      have := old t1 c h1
      omega
    · rw [GoMap.lookup_insert_ne _ _ _ _ e1] at h1
      rw [GoMap.lookup_insert_ne _ _ _ _ e2] at h2
      exact h.2 t1 t2 c h1 h2

theorem WF_process {d : Discovery} (src : String) (env : MessageEnvelope) (now : Int)
    (h : d.WF) : (processReceivedMessage d src env now).state.WF := by
  obtain ⟨d1, hd1, hs⟩ := processReceivedMessage_state d src env now
  have h1 : d1.WF := by
    rcases hd1 with rfl | ⟨dev, rfl⟩
    · exact h
    · exact WF_of_same rfl rfl h
  have hp1 : d1.pending = d.pending := by
    rcases hd1 with rfl | ⟨dev, rfl⟩ <;> rfl
  rcases hs with hs | ⟨ch, hp, -, hs⟩
  · rw [hs]; exact h1
  · rw [hs]; exact WF_deliver env ch h1 (by rw [hp1]; exact hp)

theorem WF_apply {d : Discovery} (e : Event) (h : d.WF) : (d.apply e).WF := by
  cases e with
  | registerHandler cmd handler => exact WF_of_same rfl rfl h
  | start env =>
    have t := Start_tables d env
    exact WF_of_same t.2.2.2.1 t.2.2.2.2.2 h
  | stop => exact WF_of_same rfl rfl h
  | recv r now =>
    show (listenMulticastIter d r now).state.WF
    rcases listenMulticastIter_state d r now with hs | ⟨src, env, -, -, hs⟩
    · rw [hs]; exact h
    · rw [hs]; exact WF_process src env now h
  | sweep now => exact WF_of_same rfl rfl h
  | request env newUUID => exact WF_register _ h
  | abandon taskID => exact WF_erase taskID rfl rfl h
  | take ch => exact WF_take ch h
  | store p dev => exact WF_of_same rfl rfl h

theorem run_induction (P : Discovery → Prop) (hstep : ∀ d e, P d → P (d.apply e)) :
    ∀ (events : List Event) (d : Discovery), P d → P (d.run events) := by
  intro events
  induction events with
  | nil => intro d h; exact h
  | cons e rest ih => intro d h; exact ih (d.apply e) (hstep d e h)

theorem Reachable.induction (P : Discovery → Prop)
    (hnew : ∀ name ver id ip port, P (NewDiscovery name ver id ip port))
    (hstep : ∀ d e, P d → P (d.apply e)) : ∀ d, Reachable d → P d := by
  rintro d ⟨name, ver, id, ip, port, events, rfl⟩
  exact run_induction P hstep events _ (hnew name ver id ip port)

theorem Reachable.apply {d : Discovery} (h : Reachable d) (e : Event) :
    Reachable (d.apply e) := by
  obtain ⟨name, ver, id, ip, port, events, rfl⟩ := h
  refine ⟨name, ver, id, ip, port, events ++ [e], ?_⟩
  simp [Discovery.run, List.foldl_append]

theorem Reachable.wf {d : Discovery} (h : Reachable d) : d.WF := by
  refine Reachable.induction Discovery.WF ?_ (fun d e => WF_apply e) d h
  intro name ver id ip port
  exact ⟨fun t c hk => by simp [NewDiscovery] at hk,
    fun t1 t2 c hk => by simp [NewDiscovery] at hk⟩

theorem uuid_apply (d : Discovery) (e : Event) : (d.apply e).uuid = d.uuid := by
  cases e with
  | registerHandler cmd handler => rfl
  | start env => exact (Start_tables d env).1
  | stop => rfl
  | recv r now =>
    show (listenMulticastIter d r now).state.uuid = d.uuid
    rcases listenMulticastIter_state d r now with hs | ⟨src, env, -, -, hs⟩
    · rw [hs]
    · rw [hs]
      obtain ⟨d1, hd1, hs1⟩ := processReceivedMessage_state d src env now
      rcases hd1 with rfl | ⟨dev, rfl⟩ <;> rcases hs1 with hs1 | ⟨ch, -, -, hs1⟩ <;> rw [hs1] <;> rfl
  | sweep now => rfl
  | request env newUUID => rfl
  | abandon taskID => rfl
  | take ch => rfl
  | store p dev => rfl

theorem noSelf_apply (d : Discovery) (e : Event) (h : d.devices.lookup d.uuid = none) :
    (d.apply e).devices.lookup (d.apply e).uuid = none := by
  rw [uuid_apply]
  cases e with
  | registerHandler cmd handler => exact h
  | start env =>
    show (Start d env).1.state.devices.lookup d.uuid = none
    rw [(Start_tables d env).2.2.1]; exact h
  | stop => exact h
  | recv r now =>
    show (listenMulticastIter d r now).state.devices.lookup d.uuid = none
    rcases listenMulticastIter_state d r now with hs | ⟨src, env, -, hself, hs⟩
    · rw [hs]; exact h
    · rw [hs]
      obtain ⟨d1, hd1, hs1⟩ := processReceivedMessage_state d src env now
      have h1 : d1.devices.lookup d.uuid = none := by
        rcases hd1 with rfl | ⟨dev, rfl⟩
        · exact h
        · show (d.devices.insert env.FromUUID _).lookup d.uuid = none
          rw [GoMap.lookup_insert_ne _ _ _ _ (fun e => hself e.symm)]
          exact h
      rcases hs1 with hs1 | ⟨ch, -, -, hs1⟩ <;> rw [hs1] <;> exact h1
  | sweep now =>
    show (d.devices.filter _).lookup d.uuid = none
    rw [GoMap.lookup_filter, h]
    rfl
  | request env newUUID => exact h
  | abandon taskID => exact h
  | take ch => exact h
  | store p dev => exact h

/-! ## The claims -/

theorem Sub_gt_timeout (t u : Int) : Sub t u > timeout ↔ t - u > timeout := by
  unfold Sub
  have h1 : timeout = 25000000000 := by norm_num [timeout]
  have h2 : maxDuration = 9223372036854775807 := by norm_num [maxDuration]
  have h3 : minDuration = -9223372036854775808 := by norm_num [minDuration]
  split_ifs <;> constructor <;> intro h <;> omega

/-- C1: in every reachable node state, processing a non-announce envelope whose
taskID is a key of the pending table puts exactly that envelope into the channel
registered under that taskID, deletes the entry, starts no handler and returns;
every other channel, every other pending entry, the registry and the handler
table are left as they were. -/
theorem C1_pending_envelope_is_delivered (d : Discovery) (src : String)
    (env : MessageEnvelope) (now : Int) (ch : Nat)
    (hd : Reachable d) (hcmd : env.Command ≠ "announce")
    (hp : d.pending.lookup env.TaskID = some ch) :
    processReceivedMessage d src env now =
      { state := deliver d env ch, spawned := [], logged := [], status := Status.returned } ∧
    (deliver d env ch).chans[ch]? = some (some env) ∧
    (deliver d env ch).pending.lookup env.TaskID = none ∧
    (∀ c, c ≠ ch → (deliver d env ch).chans[c]? = d.chans[c]?) ∧
    (∀ t, t ≠ env.TaskID → (deliver d env ch).pending.lookup t = d.pending.lookup t) ∧
    (deliver d env ch).devices = d.devices ∧
    (deliver d env ch).deviceObjs = d.deviceObjs ∧
    (deliver d env ch).handlers = d.handlers := by
  have hslot : d.chans[ch]? = some none := hd.wf.1 _ _ hp
  refine ⟨?_, ?_, ?_, ?_, ?_, rfl, rfl, rfl⟩
  · simp [processReceivedMessage, hcmd, resolveOrDispatch, hp, hslot]
  · show (d.chans.set ch (some env))[ch]? = some (some env)
    rw [List.getElem?_set_self (lt_of_getElem?_eq_some hslot)]
  · exact GoMap.lookup_erase_self _ _
  · intro c hc
    show (d.chans.set ch (some env))[c]? = d.chans[c]?
    rw [List.getElem?_set_ne (fun e => hc e.symm)]
  · intro t ht
    exact GoMap.lookup_erase_ne _ _ _ ht

/-- Witness of C1: node B waiting for task-1 receives the pong reply. -/
theorem C1_pending_envelope_is_delivered_witness :
    Reachable nodeBWaiting ∧ pongReply.Command ≠ "announce" ∧
    nodeBWaiting.pending.lookup pongReply.TaskID = some 0 ∧
    processReceivedMessage nodeBWaiting "10.0.0.5:40000" pongReply 5 =
      { state := deliver nodeBWaiting pongReply 0, spawned := [], logged := [],
        status := Status.returned } :=
  ⟨⟨_, _, _, _, _, _, rfl⟩, by decide, by decide,
    (C1_pending_envelope_is_delivered nodeBWaiting "10.0.0.5:40000" pongReply 5 0
      ⟨_, _, _, _, _, _, rfl⟩ (by decide) (by decide)).1⟩

/-- C2: processing an announce envelope whose payload is a JSON object with a
numeric port leaves the registry with an entry under the envelope's fromUuid
whose UUID is that fromUuid, whose Name, IP and Version are the payload's name,
ip and version as `fmt.Sprint` renders them (a string member is taken as it
is), whose Port is the payload's port converted to int and whose LastSeen is
the time of processing, whatever was stored under that id before; the entry
under every other id is the same pointer to the same, unchanged object. -/
theorem C2_announce_upserts_sender (d : Discovery) (src : String) (env : MessageEnvelope)
    (now : Int) (info : List (String × Any)) (f : Float64)
    (hcmd : env.Command = "announce") (hpay : env.Payload = RawMessage.object info)
    (hport : index info "port" = Any.float64 f) :
    (processReceivedMessage d src env now).state.device env.FromUUID =
      some { UUID := env.FromUUID, Name := Sprint (index info "name"),
             IP := Sprint (index info "ip"), Port := f.toInt,
             Version := Sprint (index info "version"), LastSeen := now } ∧
    (∀ name ip version, index info "name" = Any.string name → index info "ip" = Any.string ip →
      index info "version" = Any.string version →
      (processReceivedMessage d src env now).state.device env.FromUUID =
        some { UUID := env.FromUUID, Name := name, IP := ip, Port := f.toInt,
               Version := version, LastSeen := now }) ∧
    (∀ k, k ≠ env.FromUUID →
      (processReceivedMessage d src env now).state.devices.lookup k = d.devices.lookup k) ∧
    (∀ p, p < d.deviceObjs.length →
      (processReceivedMessage d src env now).state.deviceObjs[p]? = d.deviceObjs[p]?) ∧
    (∀ k dev, k ≠ env.FromUUID → d.device k = some dev →
      (processReceivedMessage d src env now).state.device k = some dev) := by
  have hstate : (processReceivedMessage d src env now).state.devices =
        d.devices.insert env.FromUUID d.deviceObjs.length ∧
      (processReceivedMessage d src env now).state.deviceObjs =
        d.deviceObjs ++ [announcedDevice env info f now] := by
    have hproc : processReceivedMessage d src env now =
        resolveOrDispatch (upsert d env.FromUUID (announcedDevice env info f now)) src env
          [LogLine.newDevice (index info "name") (index info "ip") f.toInt] := by
      simp [processReceivedMessage, hcmd, hpay, unmarshalInfo, hport, assertFloat64]
    rw [hproc]
    rcases resolveOrDispatch_state (upsert d env.FromUUID (announcedDevice env info f now)) src env
      [LogLine.newDevice (index info "name") (index info "ip") f.toInt] with hs | ⟨ch, -, -, hs⟩ <;>
      rw [hs] <;> exact ⟨rfl, rfl⟩
  have hentry : (processReceivedMessage d src env now).state.device env.FromUUID =
      some (announcedDevice env info f now) := by
    unfold Discovery.device
    rw [hstate.1, hstate.2, GoMap.lookup_insert_self]
    exact List.getElem?_concat_length _ _
  have hother : ∀ k, k ≠ env.FromUUID →
      (processReceivedMessage d src env now).state.devices.lookup k = d.devices.lookup k := by
    intro k hk
    rw [hstate.1, GoMap.lookup_insert_ne _ _ _ _ hk]
  have hobjs : ∀ p, p < d.deviceObjs.length →
      (processReceivedMessage d src env now).state.deviceObjs[p]? = d.deviceObjs[p]? := by
    intro p hp
    rw [hstate.2, List.getElem?_append_left hp]
  refine ⟨hentry, ?_, hother, hobjs, ?_⟩
  · intro name ip version hn hi hv
    rw [hentry]
    simp [announcedDevice, hn, hi, hv, Sprint]
  · intro k dev hk hdev
    unfold Discovery.device at hdev ⊢
    rw [hother k hk]
    cases hl : d.devices.lookup k with
    | none => rw [hl] at hdev; cases hdev
    | some p =>
      rw [hl] at hdev
      have hdev : d.deviceObjs[p]? = some dev := hdev
      show (processReceivedMessage d src env now).state.deviceObjs[p]? = some dev
      rw [hobjs p (lt_of_getElem?_eq_some hdev)]
      exact hdev

/-- Witness of C2: node B processes the announce of A. -/
theorem C2_announce_upserts_sender_witness :
    (announceOfA payloadOfA).Command = "announce" ∧
    (processReceivedMessage nodeB "10.0.0.5:9999" (announceOfA payloadOfA) 77).state.device
        "uuid-a" =
      some { UUID := "uuid-a", Name := "A", IP := "10.0.0.5", Port := 9000,
             Version := "1.0.0", LastSeen := 77 } :=
  ⟨rfl, (C2_announce_upserts_sender nodeB "10.0.0.5:9999" (announceOfA payloadOfA) 77 _
    { toInt := 9000, sprint := "9000" } rfl rfl rfl).1⟩

theorem cleanupDevicesTick_device (d : Discovery) (now : Int) (k : String) :
    (cleanupDevicesTick d now).state.device k =
      (d.device k).filter (fun dev => decide (now - dev.LastSeen ≤ timeout)) := by
  show ((d.devices.filter (fun _ p => !d.isExpired now p)).lookup k).bind
      (fun p => d.deviceObjs[p]?) = _
  rw [GoMap.lookup_filter]
  unfold Discovery.device
  cases hl : d.devices.lookup k with
  | none => rfl
  | some p =>
    cases hdev : d.deviceObjs[p]? with
    | none =>
      by_cases hx : d.isExpired now p = true <;> simp [Option.filter, hx, hdev]
    | some dev =>
      have hderef : d.deref p = dev := by
        simp [Discovery.deref, List.getD_eq_getElem?_getD, hdev]
      have hexp : d.isExpired now p = true ↔ now - dev.LastSeen > timeout := by
        simp only [Discovery.isExpired, hderef, decide_eq_true_eq]
        exact Sub_gt_timeout now dev.LastSeen
      by_cases hx : now - dev.LastSeen > timeout
      · have hx1 : d.isExpired now p = true := hexp.2 hx
        have hx2 : ¬ now - dev.LastSeen ≤ timeout := by omega
        simp [Option.filter, hx1, hdev, hx2]
      · have hx1 : d.isExpired now p = false := by
          cases hb : d.isExpired now p with
          | false => rfl
          | true => exact absurd (hexp.1 hb) hx
        have hx2 : now - dev.LastSeen ≤ timeout := by omega
        simp [Option.filter, hx1, hdev, hx2]

/-- C3: one pass of the sweeper at instant `now`, with the expiry window of 25
seconds, leaves in the registry exactly the peers that were present with
`now - LastSeen <= timeout`, each with the device it had; every peer with
`now - LastSeen > timeout` is absent afterwards, and no device object is
written. -/
theorem C3_sweep_keeps_exactly_fresh_peers (d : Discovery) (now : Int) :
    timeout = 25 * 1000000000 ∧
    (∀ k dev, (cleanupDevicesTick d now).state.device k = some dev ↔
      (d.device k = some dev ∧ now - dev.LastSeen ≤ timeout)) ∧
    (∀ k dev, d.device k = some dev → now - dev.LastSeen > timeout →
      (cleanupDevicesTick d now).state.device k = none ∧
      (cleanupDevicesTick d now).state.devices.lookup k = none) ∧
    (∀ k, d.devices.lookup k = none →
      (cleanupDevicesTick d now).state.devices.lookup k = none) ∧
    (cleanupDevicesTick d now).state.deviceObjs = d.deviceObjs := by
  refine ⟨rfl, ?_, ?_, ?_, rfl⟩
  · intro k dev
    rw [cleanupDevicesTick_device]
    cases hk : d.device k with
    | none => simp [Option.filter]
    | some dev0 =>
      by_cases hx : now - dev0.LastSeen ≤ timeout
      · simp only [Option.filter, hx, decide_True, if_true, Option.some.injEq]
        constructor
        · intro e; subst e; exact ⟨rfl, hx⟩
        · intro e; exact e.1
      · simp only [Option.filter, hx, decide_False, Bool.false_eq_true, if_false]
        constructor
        · intro e; cases e
        · rintro ⟨e, hle⟩
          cases e
          exact absurd hle hx
  · intro k dev hk hx
    have hx2 : ¬ now - dev.LastSeen ≤ timeout := by omega
    refine ⟨by rw [cleanupDevicesTick_device, hk]; simp [Option.filter, hx2], ?_⟩
    show (d.devices.filter (fun _ p => !d.isExpired now p)).lookup k = none
    rw [GoMap.lookup_filter]
    unfold Discovery.device at hk
    cases hl : d.devices.lookup k with
    | none => rfl
    | some p =>
      rw [hl] at hk
      have hk : d.deviceObjs[p]? = some dev := hk
      have hderef : d.deref p = dev := by
        simp [Discovery.deref, List.getD_eq_getElem?_getD, hk]
      have hexp : d.isExpired now p = true := by
        simp only [Discovery.isExpired, hderef, decide_eq_true_eq]
        exact (Sub_gt_timeout now dev.LastSeen).2 hx
      simp [Option.filter, hexp]
  · intro k hk
    show (d.devices.filter (fun _ p => !d.isExpired now p)).lookup k = none
    rw [GoMap.lookup_filter, hk]
    rfl

/-- C4 at its failing inputs: an announce envelope from another node whose
payload is a JSON object without a numeric port, or the JSON value null, makes
the receive step panic; nothing is logged, and the receive loop ends there
without processing the datagram that follows. -/
theorem C4_announce_without_port_panics :
    (listenMulticastIter nodeB
      (ReadResult.ok "10.0.0.5:9999" (Datagram.json (announceOfA (RawMessage.object [])))) 77).status
      = Status.panicked ∧
    (listenMulticastIter nodeB
      (ReadResult.ok "10.0.0.5:9999" (Datagram.json (announceOfA RawMessage.null))) 77).status
      = Status.panicked ∧
    (listenMulticastIter nodeB
      (ReadResult.ok "10.0.0.5:9999" (Datagram.json (announceOfA
        (RawMessage.object [("name", Any.string "A"), ("port", Any.string "9000")])))) 77).status
      = Status.panicked ∧
    (listenMulticastIter nodeB
      (ReadResult.ok "10.0.0.5:9999" (Datagram.json (announceOfA RawMessage.null))) 77).logged
      = [] ∧
    (listenMulticast nodeB
      [(ReadResult.ok "10.0.0.5:9999" (Datagram.json (announceOfA RawMessage.null)), 77),
       (ReadResult.ok "10.0.0.5:9999" (Datagram.json (announceOfA payloadOfA)), 78)]).status
      = Status.panicked ∧
    (listenMulticast nodeB
      [(ReadResult.ok "10.0.0.5:9999" (Datagram.json (announceOfA RawMessage.null)), 77),
       (ReadResult.ok "10.0.0.5:9999" (Datagram.json (announceOfA payloadOfA)), 78)]).state.device
      "uuid-a" = none := by
  refine ⟨?_, ?_, ?_, ?_, ?_, ?_⟩ <;> decide

/-! ## A waiting caller and its channel -/

theorem Own_of_same {d d1 : Discovery} {t : String} {ch : Nat} (hp : d1.pending = d.pending)
    (hc : d1.chans = d.chans) (h : Own d t ch) : Own d1 t ch := by
  unfold Own
  rw [hp, hc]
  exact h

theorem Own_erase {d d1 : Discovery} {t : String} {ch : Nat} (k0 : String)
    (hp : d1.pending = d.pending.erase k0) (hc : d1.chans = d.chans) (h : Own d t ch) :
    Own d1 t ch := by
  unfold Own
  rw [hp, hc]
  refine ⟨h.1, ?_⟩
  intro k c hk hcc
  by_cases hkt : k = k0
  · subst hkt; simp at hk
  · rw [GoMap.lookup_erase_ne _ _ _ hkt] at hk
    exact h.2 k c hk hcc

theorem Own_process {d : Discovery} {t : String} {ch : Nat} (src : String)
    (env : MessageEnvelope) (now : Int) (hne : env.TaskID ≠ t) (h : Own d t ch) :
    Own (processReceivedMessage d src env now).state t ch := by
  obtain ⟨d1, hd1, hs⟩ := processReceivedMessage_state d src env now
  have hp1 : d1.pending = d.pending := by
    rcases hd1 with rfl | ⟨dev, rfl⟩ <;> rfl
  have hc1 : d1.chans = d.chans := by
    rcases hd1 with rfl | ⟨dev, rfl⟩ <;> rfl
  have h1 : Own d1 t ch := Own_of_same hp1 hc1 h
  rcases hs with hs | ⟨c, hp, -, hs⟩
  · rw [hs]; exact h1
  · rw [hs]
    have hcne : c ≠ ch := fun e => hne (h.2 _ _ hp e)
    have h2 : Own ({ d1 with chans := d1.chans.set c (some env) } : Discovery) t ch := by
      refine ⟨?_, h1.2⟩
      show (d1.chans.set c (some env))[ch]? = some none
      rw [List.getElem?_set_ne hcne]
      exact h1.1
    exact Own_erase (d := { d1 with chans := d1.chans.set c (some env) }) env.TaskID rfl rfl h2

theorem Own_apply {d : Discovery} {t : String} {ch : Nat} (e : Event)
    (hq : e.dispatchesTask d t = false) (h : Own d t ch) : Own (d.apply e) t ch := by
  cases e with
  | registerHandler cmd handler => exact Own_of_same rfl rfl h
  | start env =>
    have tb := Start_tables d env
    exact Own_of_same tb.2.2.2.1 tb.2.2.2.2.2 h
  | stop => exact Own_of_same rfl rfl h
  | recv r now =>
    show Own (listenMulticastIter d r now).state t ch
    rcases listenMulticastIter_state d r now with hs | ⟨src, env, hr, hself, hs⟩
    · rw [hs]; exact h
    · rw [hs]
      subst hr
      have hne : env.TaskID ≠ t := by
        simpa [Event.dispatchesTask, hself] using hq
      exact Own_process src env now hne h
  | sweep now => exact Own_of_same rfl rfl h
  | request env newUUID =>
    have hlt : ch < d.chans.length := lt_of_getElem?_eq_some h.1
    refine ⟨?_, ?_⟩
    · show (d.chans ++ [none])[ch]? = some none
      rw [List.getElem?_append_left hlt]
      exact h.1
    · intro k c hk hc
      have hk : (d.pending.insert (withTaskID env newUUID).TaskID d.chans.length).lookup k
          = some c := hk
      by_cases hkt : k = (withTaskID env newUUID).TaskID
      · subst hkt
        have : d.chans.length = c := by simpa using hk
        omega
      · rw [GoMap.lookup_insert_ne _ _ _ _ hkt] at hk
        exact h.2 k c hk hc
  | abandon taskID => exact Own_erase taskID rfl rfl h
  | take c =>
    refine ⟨?_, h.2⟩
    show (d.chans.set c none)[ch]? = some none
    by_cases e : c = ch
    · subst e
      rw [List.getElem?_set_self (lt_of_getElem?_eq_some h.1)]
    · rw [List.getElem?_set_ne e]
      exact h.1
  | store p dev => exact Own_of_same rfl rfl h

theorem lookup_apply {d : Discovery} {t : String} {ch : Nat} (e : Event)
    (hq : e.dispatchesTask d t = false) (hm : e.meddles t ch = false)
    (h : d.pending.lookup t = some ch) : (d.apply e).pending.lookup t = some ch := by
  cases e with
  | registerHandler cmd handler => exact h
  | start env =>
    show (Start d env).1.state.pending.lookup t = some ch
    rw [(Start_tables d env).2.2.2.1]; exact h
  | stop => exact h
  | recv r now =>
    show (listenMulticastIter d r now).state.pending.lookup t = some ch
    rcases listenMulticastIter_state d r now with hs | ⟨src, env, hr, hself, hs⟩
    · rw [hs]; exact h
    · rw [hs]
      subst hr
      have hne : env.TaskID ≠ t := by
        simpa [Event.dispatchesTask, hself] using hq
      obtain ⟨d1, hd1, hs1⟩ := processReceivedMessage_state d src env now
      have hp1 : d1.pending = d.pending := by
        rcases hd1 with rfl | ⟨dev, rfl⟩ <;> rfl
      rcases hs1 with hs1 | ⟨c, -, -, hs1⟩
      · rw [hs1, hp1]; exact h
      · rw [hs1]
        show (d1.pending.erase env.TaskID).lookup t = some ch
        rw [GoMap.lookup_erase_ne _ _ _ (fun e => hne e.symm), hp1]
        exact h
  | sweep now => exact h
  | request env newUUID =>
    have hne : t ≠ (withTaskID env newUUID).TaskID := by
      intro e
      simp [Event.meddles, e] at hm
    show (d.pending.insert (withTaskID env newUUID).TaskID d.chans.length).lookup t = some ch
    rw [GoMap.lookup_insert_ne _ _ _ _ hne]
    exact h
  | abandon taskID =>
    have hne : t ≠ taskID := by
      intro e
      simp [Event.meddles, e] at hm
    show (d.pending.erase taskID).lookup t = some ch
    rw [GoMap.lookup_erase_ne _ _ _ hne]
    exact h
  | take c => exact h
  | store p dev => exact h

theorem dispatchesTask_congr {d d1 : Discovery} (h : d1.uuid = d.uuid) (t : String) (e : Event) :
    e.dispatchesTask d1 t = e.dispatchesTask d t := by
  cases e with
  | recv r now =>
    cases r with
    | ok src buf =>
      cases buf with
      | json env => simp [Event.dispatchesTask, h]
      | malformed => rfl
    | timeout => rfl
    | failed => rfl
  | _ => rfl

theorem processReceivedMessage_panicked (d d1 : Discovery) (src : String)
    (env : MessageEnvelope) (now : Int) :
    ((processReceivedMessage d src env now).status = Status.panicked) ↔
    ((processReceivedMessage d1 src env now).status = Status.panicked) := by
  unfold processReceivedMessage
  by_cases hcmd : env.Command = "announce"
  · simp only [hcmd, if_true]
    split
    · exact Iff.rfl
    · split
      · exact Iff.rfl
      · constructor <;> intro h <;> exact absurd h (resolveOrDispatch_status _ _ _ _)
  · simp only [hcmd, if_false]
    constructor <;> intro h <;> exact absurd h (resolveOrDispatch_status _ _ _ _)

theorem panics_congr {d d1 : Discovery} (h : d1.uuid = d.uuid) (e : Event) :
    e.panics d1 = e.panics d := by
  cases e with
  | recv r now =>
    cases r with
    | ok src buf =>
      cases buf with
      | json env =>
        by_cases hself : env.FromUUID = d.uuid
        · simp [Event.panics, listenMulticastIter, hself, h]
        · have hself1 : ¬ env.FromUUID = d1.uuid := by rw [h]; exact hself
          simp only [Event.panics, listenMulticastIter, hself, hself1, if_false]
          exact decide_eq_decide.2 (processReceivedMessage_panicked d1 d src env now)
      | malformed => rfl
    | timeout => rfl
    | failed => rfl
  | _ => rfl

theorem tryReceive_full (d : Discovery) (ch : Nat) (resp : MessageEnvelope)
    (h : d.chans[ch]? = some (some resp)) :
    tryReceive d ch =
      some { state := { d with chans := d.chans.set ch none }, resp := resp, err := none } := by
  simp [tryReceive, h]

theorem tryReceive_empty (d : Discovery) (ch : Nat) (h : d.chans[ch]? = some none) :
    tryReceive d ch = none := by
  simp [tryReceive, h]

theorem tryReceive_err (d : Discovery) (ch : Nat) (out : Response)
    (h : tryReceive d ch = some out) : out.err = none := by
  unfold tryReceive at h
  split at h
  · simp only [Option.some.injEq] at h
    subst h
    rfl
  · cases h

theorem requestAwait_full (env : MessageEnvelope) (ch : Nat) (d : Discovery)
    (events : List Event) (resp : MessageEnvelope) (h : d.chans[ch]? = some (some resp)) :
    requestAwait env ch d events =
      some { state := { d with chans := d.chans.set ch none }, resp := resp, err := none } := by
  cases events <;> simp [requestAwait, tryReceive_full d ch resp h]

theorem requestAwait_nil (env : MessageEnvelope) (ch : Nat) (d : Discovery)
    (h : d.chans[ch]? = some none) :
    requestAwait env ch d [] =
      some { state := { d with pending := d.pending.erase env.TaskID },
             resp := MessageEnvelope.zero, err := some ("任务超时: " ++ env.TaskID) } := by
  simp [requestAwait, tryReceive_empty d ch h]

theorem requestAwait_cons (env : MessageEnvelope) (ch : Nat) (d : Discovery) (e : Event)
    (rest : List Event) (h : d.chans[ch]? = some none) :
    requestAwait env ch d (e :: rest) =
      if e.panics d then none else requestAwait env ch (d.apply e) rest := by
  simp [requestAwait, tryReceive_empty d ch h]

theorem requestAwait_timeout (env : MessageEnvelope) (ch : Nat) :
    ∀ (events : List Event) (d : Discovery), Own d env.TaskID ch →
      (∀ e ∈ events, e.dispatchesTask d env.TaskID = false) →
      (∀ e ∈ events, e.panics d = false) →
      ∃ s, requestAwait env ch d events =
          some { state := s, resp := MessageEnvelope.zero,
                 err := some ("任务超时: " ++ env.TaskID) } ∧
        s.pending.lookup env.TaskID = none := by
  intro events
  induction events with
  | nil =>
    intro d hown _ _
    exact ⟨_, requestAwait_nil env ch d hown.1, GoMap.lookup_erase_self _ _⟩
  | cons e rest ih =>
    intro d hown hq hl
    have hq0 := hq e (List.mem_cons_self _ _)
    have hl0 := hl e (List.mem_cons_self _ _)
    have hown1 : Own (d.apply e) env.TaskID ch := Own_apply e hq0 hown
    have hu := uuid_apply d e
    obtain ⟨s, hs, hs2⟩ := ih (d.apply e) hown1
      (fun x hx => by rw [dispatchesTask_congr hu]; exact hq x (List.mem_cons_of_mem _ hx))
      (fun x hx => by rw [panics_congr hu]; exact hl x (List.mem_cons_of_mem _ hx))
    refine ⟨s, ?_, hs2⟩
    rw [requestAwait_cons env ch d e rest hown.1, ← hs]
    simp [hl0]

theorem Own_register {d : Discovery} (t : String) (h : d.WF) :
    Own ({ d with chans := d.chans ++ [none],
                  pending := d.pending.insert t d.chans.length } : Discovery)
      t d.chans.length := by
  refine ⟨List.getElem?_concat_length _ _, ?_⟩
  intro k c hk hc
  have hk : (d.pending.insert t d.chans.length).lookup k = some c := hk
  by_cases hkt : k = t
  · exact hkt
  · rw [GoMap.lookup_insert_ne _ _ _ _ hkt] at hk
    have := lt_of_getElem?_eq_some (h.1 k c hk)
    omega

theorem Send_status_of_err (d : Discovery) (env : MessageEnvelope) (net : Network)
    (e : String) (h : (Send d env net).err = some e) :
    (Send d env net).status = Status.returned := by
  unfold Send at h ⊢
  split
  · rfl
  · rename_i data hm
    simp only [hm] at h
    split
    · rename_i ha
      simp only [ha, if_true] at h
      unfold sendMulticast at h ⊢
      split
      · rfl
      · generalize (none : Option String) = lastErr
        generalize d.multicastConns = conns
        induction conns generalizing lastErr with
        | nil => rfl
        | cons c rest ih =>
          unfold sendMulticastLoop
          split
          · exact ih lastErr
          · exact ih _
    · rename_i ha
      simp only [ha, if_false] at h
      split
      · rename_i hs
        simp only [hs, if_true] at h
        unfold sendUnicast at h ⊢
        split
        · rfl
        · rename_i hres
          simp only [hres] at h
          split
          · rename_i hu
            simp only [hu] at h
            cases h
          · rfl
      · rfl

theorem RequestResponse_of_sent (d : Discovery) (env : MessageEnvelope) (newUUID : String)
    (net : Network) (meanwhile : List Event)
    (hst : (requestSend d env newUUID net).status = Status.returned)
    (herr : (requestSend d env newUUID net).err = none) :
    RequestResponse d env newUUID net meanwhile =
      requestAwait (withTaskID env newUUID) d.chans.length (requestRegister d env newUUID).1
        meanwhile := by
  unfold RequestResponse
  simp only [hst, herr]
  rfl

theorem RequestResponse_of_send_error (d : Discovery) (env : MessageEnvelope)
    (newUUID : String) (net : Network) (meanwhile : List Event) (e : String)
    (herr : (requestSend d env newUUID net).err = some e) :
    RequestResponse d env newUUID net meanwhile =
      some { state := { (requestRegister d env newUUID).1 with
                          pending := (requestRegister d env newUUID).1.pending.erase
                            (withTaskID env newUUID).TaskID },
             resp := MessageEnvelope.zero, err := some ("send request failed: " ++ e) } := by
  have hst : (requestSend d env newUUID net).status = Status.returned :=
    Send_status_of_err _ _ net e herr
  unfold RequestResponse
  simp only [hst, herr]
  rfl

theorem RequestResponse_cases (d : Discovery) (env : MessageEnvelope) (newUUID : String)
    (net : Network) (meanwhile : List Event) (out : Response)
    (hout : RequestResponse d env newUUID net meanwhile = some out) :
    (requestSend d env newUUID net).status = Status.returned ∧
    ((∃ e, (requestSend d env newUUID net).err = some e ∧
        out = { state := { (requestRegister d env newUUID).1 with
                             pending := (requestRegister d env newUUID).1.pending.erase
                               (withTaskID env newUUID).TaskID },
                resp := MessageEnvelope.zero, err := some ("send request failed: " ++ e) }) ∨
     ((requestSend d env newUUID net).err = none ∧
        requestAwait (withTaskID env newUUID) d.chans.length (requestRegister d env newUUID).1
          meanwhile = some out)) := by
  cases hst : (requestSend d env newUUID net).status with
  | returned =>
    refine ⟨rfl, ?_⟩
    cases herr : (requestSend d env newUUID net).err with
    | some e =>
      left
      rw [RequestResponse_of_send_error d env newUUID net meanwhile e herr] at hout
      exact ⟨e, rfl, (Option.some.inj hout).symm⟩
    | none =>
      right
      rw [RequestResponse_of_sent d env newUUID net meanwhile hst herr] at hout
      exact ⟨rfl, hout⟩
  | panicked => unfold RequestResponse at hout; simp only [hst] at hout; cases hout
  | blocked => unfold RequestResponse at hout; simp only [hst] at hout; cases hout
  | running => unfold RequestResponse at hout; simp only [hst] at hout; cases hout

/-- C5: in every reachable state, when the `Send` of line 188 returns nil and
no receive loop hands an envelope carrying the request's taskID to the
dispatcher before the timer fires (and the process stays alive),
`RequestResponse` returns the zero envelope together with the error whose
message is the timeout text followed by that taskID, and the pending table it
leaves has no entry for that taskID. -/
theorem C5_timeout_fails_and_deregisters (d : Discovery) (env : MessageEnvelope)
    (newUUID : String) (net : Network) (meanwhile : List Event) (hd : Reachable d)
    (hsent : (requestSend d env newUUID net).status = Status.returned)
    (hnil : (requestSend d env newUUID net).err = none)
    (hquiet : ∀ e ∈ meanwhile, e.dispatchesTask d (withTaskID env newUUID).TaskID = false)
    (hlive : ∀ e ∈ meanwhile, e.panics d = false) :
    ∃ s, RequestResponse d env newUUID net meanwhile =
        some { state := s, resp := MessageEnvelope.zero,
               err := some ("任务超时: " ++ (withTaskID env newUUID).TaskID) } ∧
      s.pending.lookup (withTaskID env newUUID).TaskID = none := by
  have hu : (requestRegister d env newUUID).1.uuid = d.uuid := rfl
  rw [RequestResponse_of_sent d env newUUID net meanwhile hsent hnil]
  exact requestAwait_timeout (withTaskID env newUUID) d.chans.length meanwhile
    (requestRegister d env newUUID).1 (Own_register _ hd.wf)
    (fun e he => by rw [dispatchesTask_congr hu]; exact hquiet e he)
    (fun e he => by rw [panics_congr hu]; exact hlive e he)

/-- Witness of C5: the started node B asks, the request is written on the
unicast socket, a sweep and an announce of A go by, the timer fires. -/
theorem C5_timeout_fails_and_deregisters_witness :
    Reachable startedB ∧
    (requestSend startedB pingRequest "fresh-1" netOK).status = Status.returned ∧
    (requestSend startedB pingRequest "fresh-1" netOK).err = none ∧
    (requestSend startedB pingRequest "fresh-1" netOK).writes.map (fun p => p.conn) = [1] ∧
    ∃ s, RequestResponse startedB pingRequest "fresh-1" netOK
        [Event.sweep 1,
         Event.recv (ReadResult.ok "10.0.0.5:9999" (Datagram.json (announceOfA payloadOfA))) 2] =
        some { state := s, resp := MessageEnvelope.zero,
               err := some ("任务超时: " ++ (withTaskID pingRequest "fresh-1").TaskID) } ∧
      s.pending.lookup (withTaskID pingRequest "fresh-1").TaskID = none :=
  ⟨⟨_, _, _, _, _, [Event.start startOK], rfl⟩, by decide, by decide, by decide,
   C5_timeout_fails_and_deregisters startedB pingRequest "fresh-1" netOK _
     ⟨_, _, _, _, _, [Event.start startOK], rfl⟩ (by decide) (by decide) (by decide)
     (by decide)⟩

theorem requestAwait_err (env : MessageEnvelope) (ch : Nat) :
    ∀ (events : List Event) (d : Discovery) (out : Response),
      requestAwait env ch d events = some out → out.err ≠ none →
      out.state.pending.lookup env.TaskID = none := by
  intro events
  induction events with
  | nil =>
    intro d out h herr
    simp only [requestAwait] at h
    split at h
    · rename_i o ho
      simp only [Option.some.injEq] at h
      subst h
      exact absurd (tryReceive_err d ch o ho) herr
    · simp only [Option.some.injEq] at h
      subst h
      exact GoMap.lookup_erase_self _ _
  | cons e rest ih =>
    intro d out h herr
    simp only [requestAwait] at h
    split at h
    · rename_i o ho
      simp only [Option.some.injEq] at h
      subst h
      exact absurd (tryReceive_err d ch o ho) herr
    · split at h
      · cases h
      · exact ih _ _ h herr

theorem resolveOrDispatch_no_waiter (d : Discovery) (src : String) (env : MessageEnvelope)
    (logged : List LogLine) (h : d.pending.lookup env.TaskID = none) :
    (resolveOrDispatch d src env logged).state = d ∧
    (resolveOrDispatch d src env logged).status = Status.returned ∧
    ((resolveOrDispatch d src env logged).spawned = [] ∨
      ∃ handler, d.handlers.lookup env.Command = some handler ∧
        (resolveOrDispatch d src env logged).spawned = [Goroutine.handler handler src env]) := by
  simp only [resolveOrDispatch, h]
  cases hh : d.handlers.lookup env.Command with
  | none => exact ⟨rfl, rfl, Or.inl rfl⟩
  | some handler => exact ⟨rfl, rfl, Or.inr ⟨handler, rfl, rfl⟩⟩

theorem process_no_waiter (d : Discovery) (src : String) (env : MessageEnvelope) (now : Int)
    (h : d.pending.lookup env.TaskID = none) :
    (processReceivedMessage d src env now).state.chans = d.chans ∧
    (processReceivedMessage d src env now).state.pending = d.pending ∧
    (processReceivedMessage d src env now).status ≠ Status.blocked ∧
    ((processReceivedMessage d src env now).spawned = [] ∨
      ∃ handler, d.handlers.lookup env.Command = some handler ∧
        (processReceivedMessage d src env now).spawned = [Goroutine.handler handler src env]) := by
  unfold processReceivedMessage
  by_cases hcmd : env.Command = "announce"
  · simp only [hcmd, if_true]
    split
    · exact ⟨rfl, rfl, by simp, Or.inl rfl⟩
    · rename_i info _
      split
      · exact ⟨rfl, rfl, by simp, Or.inl rfl⟩
      · rename_i f _
        obtain ⟨h1, h2, h3⟩ := resolveOrDispatch_no_waiter
          (upsert d env.FromUUID (announcedDevice env info f now)) src env
          [LogLine.newDevice (index info "name") (index info "ip") f.toInt] h
        rw [hcmd] at h3
        rw [h1, h2]
        exact ⟨rfl, rfl, by simp, h3⟩
  · simp only [hcmd, if_false]
    obtain ⟨h1, h2, h3⟩ := resolveOrDispatch_no_waiter d src env [] h
    rw [h1, h2]
    exact ⟨rfl, rfl, by simp, h3⟩

/-- C6: after a `RequestResponse` call for taskID t has returned an error, be
it the timeout or a failed send, the pending table has no entry for t, and
processing an inbound envelope with taskID t delivers nothing: no channel is
written (so the channel of the caller that timed out stays as it is), the
pending table is unchanged, the step does not block, and the only goroutine it
can start is the handler registered under the envelope's command; for a
non-announce envelope the step is exactly the handler lookup on an unchanged
state. -/
theorem C6_late_envelope_finds_no_waiter (d : Discovery) (env : MessageEnvelope)
    (newUUID : String) (net : Network) (meanwhile : List Event) (out : Response)
    (src : String) (late : MessageEnvelope) (now : Int)
    (hout : RequestResponse d env newUUID net meanwhile = some out)
    (hto : out.err ≠ none)
    (hlate : late.TaskID = (withTaskID env newUUID).TaskID) :
    out.state.pending.lookup late.TaskID = none ∧
    (processReceivedMessage out.state src late now).state.chans = out.state.chans ∧
    (processReceivedMessage out.state src late now).state.pending = out.state.pending ∧
    (processReceivedMessage out.state src late now).status ≠ Status.blocked ∧
    ((processReceivedMessage out.state src late now).spawned = [] ∨
      ∃ handler, out.state.handlers.lookup late.Command = some handler ∧
        (processReceivedMessage out.state src late now).spawned =
          [Goroutine.handler handler src late]) ∧
    (late.Command ≠ "announce" →
      processReceivedMessage out.state src late now =
        match out.state.handlers.lookup late.Command with
        | some handler =>
          { state := out.state, spawned := [Goroutine.handler handler src late], logged := [],
            status := Status.returned }
        | none =>
          { state := out.state, spawned := [],
            logged := [LogLine.unregistered late.Command], status := Status.returned }) := by
  have hnone : out.state.pending.lookup late.TaskID = none := by
    rw [hlate]
    rcases (RequestResponse_cases d env newUUID net meanwhile out hout).2 with
      ⟨e, -, rfl⟩ | ⟨-, hawait⟩
    · exact GoMap.lookup_erase_self _ _
    · exact requestAwait_err (withTaskID env newUUID) d.chans.length meanwhile
        (requestRegister d env newUUID).1 out hawait hto
  obtain ⟨h1, h2, h3, h4⟩ := process_no_waiter out.state src late now hnone
  refine ⟨hnone, h1, h2, h3, h4, ?_⟩
  intro hcmd
  simp only [processReceivedMessage, hcmd, if_false, resolveOrDispatch, hnone]
  cases out.state.handlers.lookup late.Command <;> rfl

/-- Witness of C6: the request of the started node B is sent and times out,
then the pong reply arrives. -/
theorem C6_late_envelope_finds_no_waiter_witness :
    (requestSend startedB pingRequest "fresh-1" netOK).status = Status.returned ∧
    RequestResponse startedB pingRequest "fresh-1" netOK [] = some timedOutB ∧
    timedOutB.err ≠ none ∧
    (processReceivedMessage timedOutB.state "10.0.0.5:40000" pongReply 9).state.chans =
      timedOutB.state.chans ∧
    (processReceivedMessage timedOutB.state "10.0.0.5:40000" pongReply 9).state.pending =
      timedOutB.state.pending :=
  have h := C6_late_envelope_finds_no_waiter startedB pingRequest "fresh-1" netOK [] timedOutB
    "10.0.0.5:40000" pongReply 9 rfl (by simp [timedOutB]) rfl
  ⟨by decide, rfl, by simp [timedOutB], h.2.1, h.2.2.1⟩

theorem process_of_reaches (d : Discovery) (src : String) (env : MessageEnvelope) (now : Int)
    (hreach : env.reachesLookup = true) :
    ∃ d1 logged, d1.pending = d.pending ∧ d1.chans = d.chans ∧
      processReceivedMessage d src env now = resolveOrDispatch d1 src env logged := by
  unfold MessageEnvelope.reachesLookup at hreach
  unfold processReceivedMessage
  by_cases hcmd : env.Command = "announce"
  · simp only [hcmd, if_true] at hreach ⊢
    split
    · rename_i e he
      rw [he] at hreach
      simp at hreach
    · rename_i info he
      rw [he] at hreach
      split
      · rename_i hf
        simp [hf] at hreach
      · rename_i f _
        exact ⟨upsert d env.FromUUID (announcedDevice env info f now), _, rfl, rfl, rfl⟩
  · simp only [hcmd, if_false]
    exact ⟨d, [], rfl, rfl, rfl⟩

theorem process_of_not_reaches (d : Discovery) (src : String) (env : MessageEnvelope)
    (now : Int) (hreach : env.reachesLookup = false) :
    (processReceivedMessage d src env now).state = d ∧
    (processReceivedMessage d src env now).spawned = [] := by
  unfold MessageEnvelope.reachesLookup at hreach
  unfold processReceivedMessage
  by_cases hcmd : env.Command = "announce"
  · simp only [hcmd, if_true] at hreach ⊢
    split
    · exact ⟨rfl, rfl⟩
    · rename_i info he
      rw [he] at hreach
      split
      · exact ⟨rfl, rfl⟩
      · rename_i f hf
        simp [hf] at hreach
  · simp [hcmd] at hreach

theorem resolveOrDispatch_waiter (d : Discovery) (src : String) (env : MessageEnvelope)
    (logged : List LogLine) (ch : Nat) (hp : d.pending.lookup env.TaskID = some ch)
    (hc : d.chans[ch]? = some none) :
    resolveOrDispatch d src env logged =
      { state := deliver d env ch, spawned := [], logged := logged, status := Status.returned } := by
  simp [resolveOrDispatch, hp, hc]

/-- C7: in every reachable node state with two distinct taskIDs t1 and t2
pending, processing an inbound envelope with taskID t1 writes no channel but
t1's and removes no entry but t1's: t2 stays registered with its channel, whose
buffer stays empty. The envelope is put into t1's channel, t1's entry is
removed and no handler is started whenever processing gets as far as the
pending lookup; an announce that is dropped before it changes nothing. -/
theorem C7_no_cross_delivery (d : Discovery) (src : String) (env : MessageEnvelope)
    (now : Int) (t2 : String) (c1 c2 : Nat) (hd : Reachable d)
    (h1 : d.pending.lookup env.TaskID = some c1) (h2 : d.pending.lookup t2 = some c2)
    (hne : env.TaskID ≠ t2) :
    c1 ≠ c2 ∧
    (processReceivedMessage d src env now).state.pending.lookup t2 = some c2 ∧
    (processReceivedMessage d src env now).state.chans[c2]? = some none ∧
    (∀ c, c ≠ c1 → (processReceivedMessage d src env now).state.chans[c]? = d.chans[c]?) ∧
    (∀ t, t ≠ env.TaskID →
      (processReceivedMessage d src env now).state.pending.lookup t = d.pending.lookup t) ∧
    (env.reachesLookup = true →
      (processReceivedMessage d src env now).state.chans[c1]? = some (some env) ∧
      (processReceivedMessage d src env now).state.pending.lookup env.TaskID = none ∧
      (processReceivedMessage d src env now).spawned = [] ∧
      (processReceivedMessage d src env now).status = Status.returned) ∧
    (env.reachesLookup = false →
      (processReceivedMessage d src env now).state = d ∧
      (processReceivedMessage d src env now).spawned = []) := by
  have hwf := hd.wf
  have hc12 : c1 ≠ c2 := fun e => hne (hwf.2 _ _ _ h1 (e ▸ h2))
  have hslot1 : d.chans[c1]? = some none := hwf.1 _ _ h1
  have hslot2 : d.chans[c2]? = some none := hwf.1 _ _ h2
  have hchans : ∀ c, c ≠ c1 →
      (processReceivedMessage d src env now).state.chans[c]? = d.chans[c]? := by
    intro c hc
    obtain ⟨d1, hd1, hs⟩ := processReceivedMessage_state d src env now
    have hc1 : d1.chans = d.chans := by
      rcases hd1 with rfl | ⟨dev, rfl⟩ <;> rfl
    rcases hs with hs | ⟨ch, hp, -, hs⟩
    · rw [hs, hc1]
    · rw [hs]
      have hch : ch = c1 := by rw [h1] at hp; exact (Option.some.inj hp).symm
      show (d1.chans.set ch (some env))[c]? = d.chans[c]?
      rw [List.getElem?_set_ne (fun e => hc (e.symm.trans hch)), hc1]
  have hpend : ∀ t, t ≠ env.TaskID →
      (processReceivedMessage d src env now).state.pending.lookup t = d.pending.lookup t := by
    intro t ht
    obtain ⟨d1, hd1, hs⟩ := processReceivedMessage_state d src env now
    have hp1 : d1.pending = d.pending := by
      rcases hd1 with rfl | ⟨dev, rfl⟩ <;> rfl
    rcases hs with hs | ⟨ch, -, -, hs⟩
    · rw [hs, hp1]
    · rw [hs]
      show (d1.pending.erase env.TaskID).lookup t = d.pending.lookup t
      rw [GoMap.lookup_erase_ne _ _ _ ht, hp1]
  refine ⟨hc12, ?_, ?_, hchans, hpend, ?_, process_of_not_reaches d src env now⟩
  · rw [hpend t2 (fun e => hne e.symm)]; exact h2
  · rw [hchans c2 (fun e => hc12 e.symm)]; exact hslot2
  · intro hreach
    obtain ⟨d1, logged, hp1, hch1, hproc⟩ := process_of_reaches d src env now hreach
    rw [hproc, resolveOrDispatch_waiter d1 src env logged c1 (by rw [hp1]; exact h1)
      (by rw [hch1]; exact hslot1)]
    refine ⟨?_, GoMap.lookup_erase_self _ _, rfl, rfl⟩
    show (d1.chans.set c1 (some env))[c1]? = some (some env)
    rw [List.getElem?_set_self (by rw [hch1]; exact lt_of_getElem?_eq_some hslot1)]

/-- Witness of C7: B waits for task-1 and task-2; the reply to task-1 arrives. -/
theorem C7_no_cross_delivery_witness :
    (processReceivedMessage nodeBWaitingTwo "10.0.0.5:40000" pongReply 5).state.pending.lookup
      "task-2" = some 1 ∧
    (processReceivedMessage nodeBWaitingTwo "10.0.0.5:40000" pongReply 5).state.chans[1]?
      = some none ∧
    (processReceivedMessage nodeBWaitingTwo "10.0.0.5:40000" pongReply 5).state.chans[0]?
      = some (some pongReply) :=
  have h := C7_no_cross_delivery nodeBWaitingTwo "10.0.0.5:40000" pongReply 5 "task-2" 0 1
    ⟨_, _, _, _, _, _, rfl⟩ (by decide) (by decide) (by decide)
  ⟨h.2.1, h.2.2.1, (h.2.2.2.2.2.1 (by decide)).1⟩

theorem iter_delivers (d : Discovery) (src : String) (r : MessageEnvelope) (now : Int)
    (t : String) (ch : Nat) (hr : r.TaskID = t) (hreach : r.reachesLookup = true)
    (hfrom : r.FromUUID ≠ d.uuid) (hp : d.pending.lookup t = some ch)
    (hc : d.chans[ch]? = some none) :
    ∃ d1 logged, d1.pending = d.pending ∧ d1.chans = d.chans ∧
      listenMulticastIter d (ReadResult.ok src (Datagram.json r)) now =
        { state := deliver d1 r ch, spawned := [], logged := logged,
          status := Status.returned } := by
  obtain ⟨d1, logged, hp1, hc1, hproc⟩ := process_of_reaches d src r now hreach
  refine ⟨d1, logged, hp1, hc1, ?_⟩
  have hiter : listenMulticastIter d (ReadResult.ok src (Datagram.json r)) now =
      processReceivedMessage d src r now := by
    simp [listenMulticastIter, hfrom]
  rw [hiter, hproc]
  exact resolveOrDispatch_waiter d1 src r logged ch (by rw [hp1, hr]; exact hp)
    (by rw [hc1]; exact hc)

theorem requestAwait_delivered (env : MessageEnvelope) (ch : Nat) (src : String)
    (r : MessageEnvelope) (now : Int) (after : List Event) (hr : r.TaskID = env.TaskID)
    (hreach : r.reachesLookup = true) :
    ∀ (before : List Event) (d : Discovery), Own d env.TaskID ch →
      d.pending.lookup env.TaskID = some ch → r.FromUUID ≠ d.uuid →
      (∀ e ∈ before, e.dispatchesTask d env.TaskID = false ∧ e.meddles env.TaskID ch = false) →
      (∀ e ∈ before, e.panics d = false) →
      ∃ s, requestAwait env ch d
          (before ++ Event.recv (ReadResult.ok src (Datagram.json r)) now :: after) =
          some { state := s, resp := r, err := none } ∧
        s.pending.lookup env.TaskID = none := by
  intro before
  induction before with
  | nil =>
    intro d hown hp hfrom _ _
    obtain ⟨d1, logged, hp1, hc1, hiter⟩ :=
      iter_delivers d src r now env.TaskID ch hr hreach hfrom hp hown.1
    have happly : d.apply (Event.recv (ReadResult.ok src (Datagram.json r)) now) =
        deliver d1 r ch := by
      show (listenMulticastIter d _ now).state = _
      rw [hiter]
    have hpan : (Event.recv (ReadResult.ok src (Datagram.json r)) now).panics d = false := by
      simp [Event.panics, hiter]
    have hfull : (deliver d1 r ch).chans[ch]? = some (some r) := by
      show (d1.chans.set ch (some r))[ch]? = some (some r)
      rw [List.getElem?_set_self (by rw [hc1]; exact lt_of_getElem?_eq_some hown.1)]
    refine ⟨{ deliver d1 r ch with chans := (deliver d1 r ch).chans.set ch none }, ?_, ?_⟩
    · rw [List.nil_append, requestAwait_cons env ch d _ after hown.1, hpan,
        happly]
      exact requestAwait_full env ch (deliver d1 r ch) after r hfull
    · show (d1.pending.erase r.TaskID).lookup env.TaskID = none
      rw [hr]
      exact GoMap.lookup_erase_self _ _
  | cons e rest ih =>
    intro d hown hp hfrom hq hl
    have hq0 := hq e (List.mem_cons_self _ _)
    have hl0 := hl e (List.mem_cons_self _ _)
    have hown1 : Own (d.apply e) env.TaskID ch := Own_apply e hq0.1 hown
    have hp1 : (d.apply e).pending.lookup env.TaskID = some ch := lookup_apply e hq0.1 hq0.2 hp
    have hu := uuid_apply d e
    obtain ⟨s, hs, hs2⟩ := ih (d.apply e) hown1 hp1 (by rw [hu]; exact hfrom)
      (fun x hx => by rw [dispatchesTask_congr hu]; exact hq x (List.mem_cons_of_mem _ hx))
      (fun x hx => by rw [panics_congr hu]; exact hl x (List.mem_cons_of_mem _ hx))
    refine ⟨s, ?_, hs2⟩
    rw [List.cons_append, requestAwait_cons env ch d e _ hown.1, ← hs]
    simp [hl0]

/-- C8, as amended: in every reachable state, when the `Send` of line 188
returns nil, the first envelope with the request's taskID that a receive loop
hands to the dispatcher afterwards is `r`, `r` gets as far as the pending
lookup (it is not an announce, or it is an announce whose payload decodes with
a numeric port), and until then no other caller has registered or deleted that
taskID or received from the channel, then `RequestResponse` returns exactly `r`
with a nil error, and the pending table it leaves has no entry for the
taskID. -/
theorem C8_reply_is_returned (d : Discovery) (env : MessageEnvelope) (newUUID : String)
    (net : Network) (before after : List Event) (src : String) (r : MessageEnvelope)
    (now : Int) (hd : Reachable d)
    (hsent : (requestSend d env newUUID net).status = Status.returned)
    (hnil : (requestSend d env newUUID net).err = none)
    (hr : r.TaskID = (withTaskID env newUUID).TaskID)
    (hfrom : r.FromUUID ≠ d.uuid) (hreach : r.reachesLookup = true)
    (hquiet : ∀ e ∈ before, e.dispatchesTask d (withTaskID env newUUID).TaskID = false ∧
      e.meddles (withTaskID env newUUID).TaskID d.chans.length = false)
    (hlive : ∀ e ∈ before, e.panics d = false) :
    ∃ s, RequestResponse d env newUUID net
        (before ++ Event.recv (ReadResult.ok src (Datagram.json r)) now :: after) =
        some { state := s, resp := r, err := none } ∧
      s.pending.lookup (withTaskID env newUUID).TaskID = none := by
  have hu : (requestRegister d env newUUID).1.uuid = d.uuid := rfl
  rw [RequestResponse_of_sent d env newUUID net _ hsent hnil]
  exact requestAwait_delivered (withTaskID env newUUID) d.chans.length src r now after hr hreach
    before (requestRegister d env newUUID).1 (Own_register _ hd.wf)
    (GoMap.lookup_insert_self _ _ _) hfrom
    (fun e he => by rw [dispatchesTask_congr hu]; exact hquiet e he)
    (fun e he => by rw [panics_congr hu]; exact hlive e he)

/-- Witness of C8: the started node B asks, the request is written, an
announce of A goes by, then the pong reply comes. -/
theorem C8_reply_is_returned_witness :
    Reachable startedB ∧
    (requestSend startedB pingRequest "fresh-1" netOK).status = Status.returned ∧
    (requestSend startedB pingRequest "fresh-1" netOK).err = none ∧
    ∃ s, RequestResponse startedB pingRequest "fresh-1" netOK
        ([Event.recv (ReadResult.ok "10.0.0.5:9999" (Datagram.json (announceOfA payloadOfA))) 2]
          ++ Event.recv (ReadResult.ok "10.0.0.5:40000" (Datagram.json pongReply)) 3 ::
            [Event.sweep 4]) =
        some { state := s, resp := pongReply, err := none } ∧
      s.pending.lookup (withTaskID pingRequest "fresh-1").TaskID = none :=
  ⟨⟨_, _, _, _, _, [Event.start startOK], rfl⟩, by decide, by decide,
   C8_reply_is_returned startedB pingRequest "fresh-1" netOK _ _ "10.0.0.5:40000" pongReply 3
     ⟨_, _, _, _, _, [Event.start startOK], rfl⟩ (by decide) (by decide) (by decide)
     (by decide) (by decide) (by decide) (by decide)⟩

/-- C8 as stated fails: the started node B has registered task-1 and written
the request on its unicast socket, and the dispatcher then processes an
announce envelope without payload that carries task-1. The envelope is dropped
on line 254, before the pending lookup: the entry of task-1 stays, its channel
stays empty, and the call times out instead of returning the envelope. -/
theorem C8_counterexample_dropped_announce :
    (requestSend startedB pingRequest "fresh-1" netOK).status = Status.returned ∧
    (requestSend startedB pingRequest "fresh-1" netOK).err = none ∧
    (requestSend startedB pingRequest "fresh-1" netOK).writes.map
      (fun p => (p.conn, p.dest, p.err)) = [(1, "10.0.0.5:9000", none)] ∧
    strayAnnounce.TaskID = (withTaskID pingRequest "fresh-1").TaskID ∧
    strayAnnounce.FromUUID ≠ startedB.uuid ∧
    (listenMulticastIter startedBWaiting
      (ReadResult.ok "10.0.0.5:9999" (Datagram.json strayAnnounce)) 3).status = Status.returned ∧
    (listenMulticastIter startedBWaiting
      (ReadResult.ok "10.0.0.5:9999" (Datagram.json strayAnnounce)) 3).state.chans = [none] ∧
    (RequestResponse startedB pingRequest "fresh-1" netOK
      [Event.recv (ReadResult.ok "10.0.0.5:9999" (Datagram.json strayAnnounce)) 3]).map
        (fun out => (out.resp, out.err)) =
      some (MessageEnvelope.zero, some "任务超时: task-1") := by
  refine ⟨?_, ?_, ?_, ?_, ?_, ?_, ?_, ?_⟩ <;> decide

theorem bindInterfaces_spawned (bind : Interface → Option String) (l : List Interface) :
    ∀ (d : Discovery) (g : Goroutine), g ∈ (bindInterfaces bind d l).spawned →
      d.sockets.length ≤ (bindInterfaces bind d l).state.sockets.length ∧
      ∃ c, g = Goroutine.listenMulticast c ∧ c ∈ (bindInterfaces bind d l).state.multicastConns ∧
        c < (bindInterfaces bind d l).state.sockets.length := by
  have mono : ∀ (l : List Interface) (d : Discovery),
      d.sockets.length ≤ (bindInterfaces bind d l).state.sockets.length ∧
      ∀ c, c ∈ d.multicastConns → c ∈ (bindInterfaces bind d l).state.multicastConns := by
    intro l
    induction l with
    | nil => intro d; exact ⟨Nat.le_refl _, fun c hc => hc⟩
    | cons i rest ih =>
      intro d
      unfold bindInterfaces
      cases hb : bind i with
      | some e => exact ih d
      | none =>
        obtain ⟨h1, h2⟩ := ih { d with
          sockets := d.sockets ++ [{ kind := SocketKind.multicast i.Name, closed := false }],
          multicastConns := d.multicastConns ++ [d.sockets.length] }
        refine ⟨?_, fun c hc => h2 c (List.mem_append_left _ hc)⟩
        have : (d.sockets ++ [({ kind := SocketKind.multicast i.Name, closed := false } : Socket)]).length
            = d.sockets.length + 1 := by simp
        simp only [] at h1 ⊢
        omega
  induction l with
  | nil => intro d g hg; cases hg
  | cons i rest ih =>
    intro d g hg
    unfold bindInterfaces at hg ⊢
    cases hb : bind i with
    | some e =>
      rw [hb] at hg
      exact ih d g hg
    | none =>
      rw [hb] at hg
      have hm := mono rest { d with
        sockets := d.sockets ++ [{ kind := SocketKind.multicast i.Name, closed := false }],
        multicastConns := d.multicastConns ++ [d.sockets.length] }
      have hlen : (d.sockets ++ [({ kind := SocketKind.multicast i.Name, closed := false } : Socket)]).length
          = d.sockets.length + 1 := by simp
      simp only [] at hm hg ⊢
      rcases List.mem_cons.1 hg with hg | hg
      · refine ⟨by omega, d.sockets.length, hg, hm.2 _ (by simp), by omega⟩
      · obtain ⟨h1, c, hc1, hc2, hc3⟩ := ih _ g hg
        simp only [] at h1
        exact ⟨by omega, c, hc1, hc2, hc3⟩

/-- After every successful `Start`, the goroutines it started are the receive
loops of the multicast sockets, the announcer and the sweeper: none of them
reads from the unicast socket. -/
theorem Start_spawns_no_unicast_listener (d : Discovery) (env : StartEnv)
    (hok : (Start d env).2 = none) :
    ∃ uc, (Start d env).1.state.unicastConn = some uc ∧
      (Start d env).1.state.sockets[uc]? = some { kind := SocketKind.unicast, closed := false } ∧
      Goroutine.listenMulticast uc ∉ (Start d env).1.spawned := by
  unfold Start at hok ⊢
  cases hr : env.resolve with
  | some e => rw [hr] at hok; simp at hok
  | none =>
    rw [hr] at hok
    simp only [] at hok ⊢
    cases hi : getActiveInterfaces env.interfaces with
    | error e => rw [hi] at hok; simp at hok
    | ok interfaces =>
      rw [hi] at hok
      simp only [] at hok ⊢
      by_cases hz : (bindInterfaces env.listenMulticastUDP d interfaces).state.multicastConns.length = 0
      · simp [hz] at hok
      · simp only [hz, if_false] at hok ⊢
        cases hu : env.listenUDP with
        | some e => rw [hu] at hok; simp at hok
        | none =>
          simp only []
          refine ⟨_, rfl, List.getElem?_concat_length _ _, ?_⟩
          intro hmem
          rcases List.mem_append.1 hmem with hmem | hmem
          · obtain ⟨-, c, hc1, -, hc3⟩ :=
              bindInterfaces_spawned env.listenMulticastUDP interfaces d _ hmem
            have : (bindInterfaces env.listenMulticastUDP d interfaces).state.sockets.length = c :=
              Goroutine.listenMulticast.inj hc1
            omega
          · simp at hmem

/-- C9 at a failing input: `Start` succeeds on a node with one interface; it
opens the multicast socket 0 and the unicast socket 1, and the goroutines it
starts are the receive loop of socket 0, the announcer and the sweeper. No
receive loop reads from the unicast socket 1. -/
theorem C9_no_receive_loop_on_unicast_socket :
    (Start nodeB startOK).2 = none ∧
    (Start nodeB startOK).1.state.multicastConns = [0] ∧
    (Start nodeB startOK).1.state.unicastConn = some 1 ∧
    (Start nodeB startOK).1.state.sockets =
      [{ kind := SocketKind.multicast "eth0", closed := false },
       { kind := SocketKind.unicast, closed := false }] ∧
    (Start nodeB startOK).1.spawned =
      [Goroutine.listenMulticast 0, Goroutine.sendMulticastAnnounce,
       Goroutine.cleanupDevices] ∧
    Goroutine.listenMulticast 1 ∉ (Start nodeB startOK).1.spawned := by
  refine ⟨?_, ?_, ?_, ?_, ?_, ?_⟩ <;> decide

/-- C10: in every reachable state the device registry has no entry under the
node's own uuid, and a receive-loop pass on a datagram that decodes to an
envelope whose fromUuid is the node's own uuid changes nothing in the node
state (registry, pending table and channels included), starts no handler, logs
nothing and returns. -/
theorem C10_own_envelopes_are_ignored (d : Discovery) (hd : Reachable d) :
    d.devices.lookup d.uuid = none ∧
    d.device d.uuid = none ∧
    ∀ (src : String) (env : MessageEnvelope) (now : Int), env.FromUUID = d.uuid →
      listenMulticastIter d (ReadResult.ok src (Datagram.json env)) now =
        { state := d, spawned := [], logged := [], status := Status.returned } := by
  have hno : d.devices.lookup d.uuid = none :=
    Reachable.induction (fun d => d.devices.lookup d.uuid = none)
      (fun _ _ _ _ _ => rfl) noSelf_apply d hd
  refine ⟨hno, ?_, ?_⟩
  · unfold Discovery.device
    rw [hno]
    rfl
  · intro src env now hself
    simp [listenMulticastIter, hself]

/-- Witness of C10: node B after receiving its own announce and an announce of A. -/
theorem C10_own_envelopes_are_ignored_witness :
    (nodeB.run
      [Event.recv (ReadResult.ok "10.0.0.2:9999" (Datagram.json selfAnnounce)) 1,
       Event.recv (ReadResult.ok "10.0.0.5:9999" (Datagram.json (announceOfA payloadOfA))) 2]
      ).device "uuid-b" = none :=
  (C10_own_envelopes_are_ignored
    (nodeB.run
      [Event.recv (ReadResult.ok "10.0.0.2:9999" (Datagram.json selfAnnounce)) 1,
       Event.recv (ReadResult.ok "10.0.0.5:9999" (Datagram.json (announceOfA payloadOfA))) 2])
    ⟨_, _, _, _, _, _, rfl⟩).2.1

/-! ## The receive loop on a malformed datagram -/

theorem listenMulticast_done (d : Discovery) (reads : List (ReadResult × Int))
    (h : d.ctxDone = true) :
    listenMulticast d reads =
      { state := d, spawned := [], logged := [], status := Status.returned } := by
  cases reads with
  | nil => simp [listenMulticast, h]
  | cons r rest =>
    obtain ⟨r, now⟩ := r
    simp [listenMulticast, h]

/-- C11: one pass of the receive loop on a byte buffer that does not decode as
an envelope leaves the whole node state as it was (registry, pending table and
handler table included), starts no handler, logs the decode error and lets the
loop go on: the loop run on the malformed datagram followed by further reads
ends in the same state, with the same goroutines started and the same status as
the loop run on the further reads alone, and logs the same lines after the one
decode error. -/
theorem C11_malformed_datagram_is_skipped (d : Discovery) (src : String) (now : Int)
    (rest : List (ReadResult × Int)) :
    listenMulticastIter d (ReadResult.ok src Datagram.malformed) now =
      { state := d, spawned := [], logged := [LogLine.decodeFailed],
        status := Status.returned } ∧
    (listenMulticast d ((ReadResult.ok src Datagram.malformed, now) :: rest)).state =
      (listenMulticast d rest).state ∧
    (listenMulticast d ((ReadResult.ok src Datagram.malformed, now) :: rest)).spawned =
      (listenMulticast d rest).spawned ∧
    (listenMulticast d ((ReadResult.ok src Datagram.malformed, now) :: rest)).status =
      (listenMulticast d rest).status ∧
    (listenMulticast d ((ReadResult.ok src Datagram.malformed, now) :: rest)).logged =
      if d.ctxDone then (listenMulticast d rest).logged
      else LogLine.decodeFailed :: (listenMulticast d rest).logged := by
  refine ⟨rfl, ?_⟩
  by_cases hdone : d.ctxDone = true
  · rw [listenMulticast_done d _ hdone, listenMulticast_done d rest hdone]
    simp [hdone]
  · simp [listenMulticast, listenMulticastIter, hdone]

/-! ## Send -/

theorem sendMulticastLoop_writes (d : Discovery) (net : Network) (data : MessageEnvelope)
    (conns : List Nat) :
    ∀ lastErr, (sendMulticastLoop d net data conns lastErr).writes =
      conns.map (fun c => writeToUDP d net c multicastAddr data) := by
  induction conns with
  | nil => intro lastErr; rfl
  | cons c rest ih =>
    intro lastErr
    unfold sendMulticastLoop
    split
    · simp [ih]
    · simp [ih]

theorem sendMulticast_data (d : Discovery) (net : Network) (data : MessageEnvelope)
    (p : Packet) (hp : p ∈ (sendMulticast d net data).writes) : p.data = data := by
  unfold sendMulticast at hp
  split at hp
  · cases hp
  · rw [sendMulticastLoop_writes] at hp
    obtain ⟨c, -, rfl⟩ := List.mem_map.1 hp
    rfl

theorem sendUnicast_data (d : Discovery) (net : Network) (addr : String)
    (data : MessageEnvelope) (p : Packet) (hp : p ∈ (sendUnicast d net addr data).writes) :
    p.data = data := by
  unfold sendUnicast at hp
  split at hp
  · cases hp
  · split at hp
    · cases hp
    · rw [List.mem_singleton] at hp
      rw [hp]
      rfl

theorem marshalEnvelope_ok (env : MessageEnvelope) (data : MessageEnvelope)
    (h : marshalEnvelope env = Except.ok data) : data = env := by
  unfold marshalEnvelope at h
  split at h
  · cases h
  · cases h; rfl

theorem marshalEnvelope_of_valid (env : MessageEnvelope)
    (h : env.Payload ≠ RawMessage.invalid) : marshalEnvelope env = Except.ok env := by
  unfold marshalEnvelope
  split
  · rename_i hp; exact absurd hp h
  · rfl

/-- C13: every datagram that `Send` writes carries the envelope with the local
node's uuid as fromUuid and with the caller's SendType, SendTo, Command, TaskID
and Payload; what `Send` does is the same whatever FromUUID the caller
supplied. The envelope is a value parameter: `Send` hands nothing back through
which the caller's envelope could change. -/
theorem C13_send_stamps_fromUuid (d : Discovery) (env : MessageEnvelope) (net : Network)
    (p : Packet) (hp : p ∈ (Send d env net).writes) :
    p.data = { env with FromUUID := d.uuid } ∧
    p.data.FromUUID = d.uuid ∧ p.data.SendType = env.SendType ∧ p.data.SendTo = env.SendTo ∧
    p.data.Command = env.Command ∧ p.data.TaskID = env.TaskID ∧
    p.data.Payload = env.Payload ∧
    (∀ supplied : String, Send d { env with FromUUID := supplied } net = Send d env net) := by
  have hdata : p.data = { env with FromUUID := d.uuid } := by
    unfold Send at hp
    split at hp
    · cases hp
    · rename_i data hm
      have hd := marshalEnvelope_ok _ _ hm
      subst hd
      split at hp
      · exact sendMulticast_data d net _ p hp
      · split at hp
        · exact sendUnicast_data d net _ _ p hp
        · cases hp
  refine ⟨hdata, ?_, ?_, ?_, ?_, ?_, ?_, ?_⟩
  · rw [hdata]
  · rw [hdata]
  · rw [hdata]
  · rw [hdata]
  · rw [hdata]
  · rw [hdata]
  · intro supplied
    rfl

/-- Witness of C13: the started node B sends the ping request. -/
theorem C13_send_stamps_fromUuid_witness :
    (writeToUDP startedB netOK 1 "10.0.0.5:9000" { pingRequest with FromUUID := "uuid-b" })
      ∈ (Send startedB pingRequest netOK).writes ∧
    (writeToUDP startedB netOK 1 "10.0.0.5:9000"
      { pingRequest with FromUUID := "uuid-b" }).data.FromUUID = "uuid-b" :=
  ⟨by decide,
    (C13_send_stamps_fromUuid startedB pingRequest netOK
      (writeToUDP startedB netOK 1 "10.0.0.5:9000" { pingRequest with FromUUID := "uuid-b" })
      (by decide)).2.1⟩

/-- C12 as stated fails: on the started node B the envelope `lostRequest`
serialises and has SendType "spec", but its SendTo does not resolve; `Send`
returns the resolve error of line 355 and writes nothing, on the unicast socket
or elsewhere. -/
theorem C12_counterexample_unresolved_sendTo :
    marshalEnvelope { lostRequest with FromUUID := startedB.uuid } =
      Except.ok { lostRequest with FromUUID := startedB.uuid } ∧
    lostRequest.SendType = "spec" ∧
    startedB.unicastConn = some 1 ∧
    (Send startedB lostRequest netNoRoute).writes = [] ∧
    (Send startedB lostRequest netNoRoute).err =
      some "resolve unicast address failed: missing port in address" := by
  refine ⟨rfl, ?_, ?_, ?_, ?_⟩ <;> decide

/-- C12, as amended: for every envelope that serialises, `Send` hands the
stamped envelope to `sendMulticast` when SendType is "announce", which once the
group address resolves makes one write on every multicast socket, in order; it
hands it to `sendUnicast` when SendType is "spec" or "response", which makes
exactly one write, on the unicast socket and to SendTo, when SendTo resolves and
the unicast socket has been opened, and returns the resolve error without
writing when SendTo does not resolve; for every other SendType it returns the
unknown-sendType error and writes nothing. -/
theorem C12_send_routes_by_sendType (d : Discovery) (env : MessageEnvelope) (net : Network)
    (hser : env.Payload ≠ RawMessage.invalid) :
    (env.SendType = "announce" →
      Send d env net = sendMulticast d net { env with FromUUID := d.uuid } ∧
      (net.resolve multicastAddr = none →
        (Send d env net).writes =
          d.multicastConns.map
            (fun c => writeToUDP d net c multicastAddr { env with FromUUID := d.uuid }))) ∧
    (env.SendType = "spec" ∨ env.SendType = "response" →
      Send d env net = sendUnicast d net env.SendTo { env with FromUUID := d.uuid } ∧
      (∀ uc, net.resolve env.SendTo = none → d.unicastConn = some uc →
        (Send d env net).writes =
          [writeToUDP d net uc env.SendTo { env with FromUUID := d.uuid }] ∧
        (Send d env net).err =
          (writeToUDP d net uc env.SendTo { env with FromUUID := d.uuid }).err ∧
        (Send d env net).status = Status.returned) ∧
      (∀ e, net.resolve env.SendTo = some e →
        (Send d env net).writes = [] ∧
        (Send d env net).err = some ("resolve unicast address failed: " ++ e))) ∧
    (env.SendType ≠ "announce" → env.SendType ≠ "spec" → env.SendType ≠ "response" →
      Send d env net =
        { writes := [], logged := [], err := some ("未知 sendType: " ++ env.SendType),
          status := Status.returned }) := by
  have hm : marshalEnvelope { env with FromUUID := d.uuid } =
      Except.ok { env with FromUUID := d.uuid } :=
    marshalEnvelope_of_valid _ hser
  refine ⟨?_, ?_, ?_⟩
  · intro ha
    have hsend : Send d env net = sendMulticast d net { env with FromUUID := d.uuid } := by
      unfold Send
      rw [hm]
      simp [ha]
    refine ⟨hsend, ?_⟩
    intro hres
    rw [hsend]
    simp [sendMulticast, hres, sendMulticastLoop_writes]
  · intro hs
    have hna : env.SendType ≠ "announce" := by
      rcases hs with h | h <;> rw [h] <;> decide
    have hsend : Send d env net =
        sendUnicast d net env.SendTo { env with FromUUID := d.uuid } := by
      unfold Send
      rw [hm]
      rcases hs with h | h <;> simp [h]
    refine ⟨hsend, ?_, ?_⟩
    · intro uc hres huc
      rw [hsend]
      simp [sendUnicast, hres, huc]
    · intro e hres
      rw [hsend]
      simp [sendUnicast, hres]
  · intro h1 h2 h3
    unfold Send
    rw [hm]
    simp [h1, h2, h3]

/-- Witness of C12: the started node B sends the ping request to A. -/
theorem C12_send_routes_by_sendType_witness :
    (Send startedB pingRequest netOK).writes =
      [writeToUDP startedB netOK 1 "10.0.0.5:9000" { pingRequest with FromUUID := "uuid-b" }] :=
  (((C12_send_routes_by_sendType startedB pingRequest netOK (by decide)).2.1
    (Or.inl rfl)).2.1 1 rfl rfl).1

/-! ## Announces, handlers and the pending lookup -/

theorem process_announce (d : Discovery) (src : String) (env : MessageEnvelope) (now : Int)
    (info : List (String × Any)) (f : Float64) (hcmd : env.Command = "announce")
    (hpay : env.Payload = RawMessage.object info) (hport : index info "port" = Any.float64 f) :
    processReceivedMessage d src env now =
      resolveOrDispatch (upsert d env.FromUUID (announcedDevice env info f now)) src env
        [LogLine.newDevice (index info "name") (index info "ip") f.toInt] := by
  simp [processReceivedMessage, hcmd, hpay, unmarshalInfo, hport, assertFloat64]

theorem process_announce_registry (d : Discovery) (src : String) (env : MessageEnvelope)
    (now : Int) (info : List (String × Any)) (f : Float64) (hcmd : env.Command = "announce")
    (hpay : env.Payload = RawMessage.object info) (hport : index info "port" = Any.float64 f) :
    (processReceivedMessage d src env now).state.devices =
      d.devices.insert env.FromUUID d.deviceObjs.length ∧
    (processReceivedMessage d src env now).state.deviceObjs =
      d.deviceObjs ++ [announcedDevice env info f now] := by
  rw [process_announce d src env now info f hcmd hpay hport]
  rcases resolveOrDispatch_state (upsert d env.FromUUID (announcedDevice env info f now)) src env
    [LogLine.newDevice (index info "name") (index info "ip") f.toInt] with hs | ⟨ch, -, -, hs⟩ <;>
    rw [hs] <;> exact ⟨rfl, rfl⟩

/-- C14: processing an announce envelope with a well-formed payload (a JSON
object with a numeric port) whose taskID is not pending, on a node with a
handler registered under "announce", stores the sender's device in the registry
and starts that handler exactly once, with the source address and the envelope,
and nothing else; the registry the step leaves is the same whatever the handler
table holds. -/
theorem C14_announce_updates_and_dispatches (d : Discovery) (src : String)
    (env : MessageEnvelope) (now : Int) (info : List (String × Any)) (f : Float64)
    (handler : CommandHandler) (hcmd : env.Command = "announce")
    (hpay : env.Payload = RawMessage.object info) (hport : index info "port" = Any.float64 f)
    (hp : d.pending.lookup env.TaskID = none)
    (hh : d.handlers.lookup "announce" = some handler) :
    processReceivedMessage d src env now =
      { state := upsert d env.FromUUID (announcedDevice env info f now),
        spawned := [Goroutine.handler handler src env],
        logged := [LogLine.newDevice (index info "name") (index info "ip") f.toInt],
        status := Status.returned } ∧
    (processReceivedMessage d src env now).state.device env.FromUUID =
      some (announcedDevice env info f now) ∧
    (∀ handlers : GoMap CommandHandler,
      (processReceivedMessage { d with handlers := handlers } src env now).state.devices =
        (processReceivedMessage d src env now).state.devices ∧
      (processReceivedMessage { d with handlers := handlers } src env now).state.deviceObjs =
        (processReceivedMessage d src env now).state.deviceObjs) := by
  have hreg := process_announce_registry d src env now info f hcmd hpay hport
  refine ⟨?_, ?_, ?_⟩
  · rw [process_announce d src env now info f hcmd hpay hport]
    have hp1 : (upsert d env.FromUUID (announcedDevice env info f now)).pending.lookup env.TaskID
        = none := hp
    have hh1 : (upsert d env.FromUUID (announcedDevice env info f now)).handlers.lookup
        env.Command = some handler := by rw [hcmd]; exact hh
    simp [resolveOrDispatch, hp1, hh1]
  · unfold Discovery.device
    rw [hreg.1, hreg.2, GoMap.lookup_insert_self]
    exact List.getElem?_concat_length _ _
  · intro handlers
    have hreg1 := process_announce_registry { d with handlers := handlers } src env now info f
      hcmd hpay hport
    rw [hreg.1, hreg.2, hreg1.1, hreg1.2]
    exact ⟨rfl, rfl⟩

/-- Witness of C14: B, with a handler under "announce", processes the announce of A. -/
theorem C14_announce_updates_and_dispatches_witness :
    (processReceivedMessage (RegisterHandler nodeB "announce" { id := 7 }) "10.0.0.5:9999"
      (announceOfA payloadOfA) 77).spawned =
      [Goroutine.handler { id := 7 } "10.0.0.5:9999" (announceOfA payloadOfA)] ∧
    (processReceivedMessage (RegisterHandler nodeB "announce" { id := 7 }) "10.0.0.5:9999"
      (announceOfA payloadOfA) 77).state.device "uuid-a" =
      some { UUID := "uuid-a", Name := "A", IP := "10.0.0.5", Port := 9000,
             Version := "1.0.0", LastSeen := 77 } :=
  have h := C14_announce_updates_and_dispatches (RegisterHandler nodeB "announce" { id := 7 })
    "10.0.0.5:9999" (announceOfA payloadOfA) 77 _ { toInt := 9000, sprint := "9000" }
    { id := 7 } rfl rfl rfl (by decide) (by decide)
  ⟨by rw [h.1], h.2.1⟩

/-- C19: processing a non-announce envelope whose taskID is not pending starts
the handler registered under the envelope's command, once, with the source
address and the envelope as received, and starts nothing else; when no handler
is registered under that command it starts nothing and logs the unregistered
command. In both cases the node state, with the registry and the pending table,
is left as it was. -/
theorem C19_command_dispatch (d : Discovery) (src : String) (env : MessageEnvelope)
    (now : Int) (hcmd : env.Command ≠ "announce") (hp : d.pending.lookup env.TaskID = none) :
    (∀ handler, d.handlers.lookup env.Command = some handler →
      processReceivedMessage d src env now =
        { state := d, spawned := [Goroutine.handler handler src env], logged := [],
          status := Status.returned }) ∧
    (d.handlers.lookup env.Command = none →
      processReceivedMessage d src env now =
        { state := d, spawned := [], logged := [LogLine.unregistered env.Command],
          status := Status.returned }) ∧
    (processReceivedMessage d src env now).state = d ∧
    (processReceivedMessage d src env now).status = Status.returned := by
  have hproc : processReceivedMessage d src env now = resolveOrDispatch d src env [] := by
    simp [processReceivedMessage, hcmd]
  obtain ⟨h1, h2, -⟩ := resolveOrDispatch_no_waiter d src env [] hp
  refine ⟨?_, ?_, by rw [hproc]; exact h1, by rw [hproc]; exact h2⟩
  · intro handler hh
    rw [hproc]
    simp [resolveOrDispatch, hp, hh]
  · intro hh
    rw [hproc]
    simp [resolveOrDispatch, hp, hh]

/-- Witness of C19: B, with a handler under "pong", processes the pong reply
while nothing is pending. -/
theorem C19_command_dispatch_witness :
    processReceivedMessage (RegisterHandler nodeB "pong" { id := 3 }) "10.0.0.5:40000"
      pongReply 5 =
      { state := RegisterHandler nodeB "pong" { id := 3 },
        spawned := [Goroutine.handler { id := 3 } "10.0.0.5:40000" pongReply], logged := [],
        status := Status.returned } :=
  (C19_command_dispatch (RegisterHandler nodeB "pong" { id := 3 }) "10.0.0.5:40000" pongReply 5
    (by decide) (by decide)).1 { id := 3 } (by decide)

/-- C20: after `RegisterHandler(c, h)` the handler found under c is h, whatever
was registered under c before; the handler under every other command, the
registry, the pending table and the channels are unchanged; and a non-announce
envelope with command c whose taskID is not pending is dispatched to h. -/
theorem C20_last_registration_wins (d : Discovery) (c : String) (h : CommandHandler) :
    (RegisterHandler d c h).handlers.lookup c = some h ∧
    (∀ h0, (RegisterHandler (RegisterHandler d c h0) c h).handlers.lookup c = some h) ∧
    (∀ c0, c0 ≠ c → (RegisterHandler d c h).handlers.lookup c0 = d.handlers.lookup c0) ∧
    (RegisterHandler d c h).devices = d.devices ∧
    (RegisterHandler d c h).deviceObjs = d.deviceObjs ∧
    (RegisterHandler d c h).pending = d.pending ∧
    (RegisterHandler d c h).chans = d.chans ∧
    (∀ (src : String) (env : MessageEnvelope) (now : Int), env.Command = c →
      env.Command ≠ "announce" → d.pending.lookup env.TaskID = none →
      (processReceivedMessage (RegisterHandler d c h) src env now).spawned =
        [Goroutine.handler h src env]) := by
  refine ⟨GoMap.lookup_insert_self _ _ _, fun h0 => GoMap.lookup_insert_self _ _ _,
    fun c0 hc0 => GoMap.lookup_insert_ne _ _ _ _ hc0, rfl, rfl, rfl, rfl, ?_⟩
  intro src env now hc hcmd hp
  have hp1 : (RegisterHandler d c h).pending.lookup env.TaskID = none := hp
  have hh : (RegisterHandler d c h).handlers.lookup env.Command = some h := by
    rw [hc]; exact GoMap.lookup_insert_self _ _ _
  simp [processReceivedMessage, hcmd, resolveOrDispatch, hp1, hh]

/-- C15 as stated fails: B waits for task-1 and an announce of A with a
well-formed payload carries the task id task-1. The announce updates the
registry, then goes through the pending lookup of line 270 like any other
envelope: it is put into the channel of the request and the request's entry is
deleted. -/
theorem C15_counterexample_announce_resolves_request :
    echoAnnounce.Command = "announce" ∧
    nodeBWaiting.pending.lookup echoAnnounce.TaskID = some 0 ∧
    nodeBWaiting.chans[0]? = some none ∧
    (processReceivedMessage nodeBWaiting "10.0.0.5:9999" echoAnnounce 5).state.pending.lookup
      echoAnnounce.TaskID = none ∧
    (processReceivedMessage nodeBWaiting "10.0.0.5:9999" echoAnnounce 5).state.chans[0]? =
      some (some echoAnnounce) := by
  refine ⟨?_, ?_, ?_, ?_, ?_⟩ <;> decide

/-- C15, as amended: in every reachable state, an announce envelope whose
taskID is pending and whose payload is well-formed (a JSON object with a numeric
port) is both a peer announcement and a correlated response: the sender's
device is stored, the envelope is put into the channel registered under its
taskID, the entry is deleted and no handler is started. Only an announce whose
payload fails to decode leaves the entry in the pending table and every channel
as it was. -/
theorem C15_announce_is_resolved_too (d : Discovery) (src : String) (env : MessageEnvelope)
    (now : Int) (ch : Nat) (hd : Reachable d) (hcmd : env.Command = "announce")
    (hp : d.pending.lookup env.TaskID = some ch) :
    (∀ info f, env.Payload = RawMessage.object info → index info "port" = Any.float64 f →
      processReceivedMessage d src env now =
        { state := deliver (upsert d env.FromUUID (announcedDevice env info f now)) env ch,
          spawned := [],
          logged := [LogLine.newDevice (index info "name") (index info "ip") f.toInt],
          status := Status.returned } ∧
      (processReceivedMessage d src env now).state.device env.FromUUID =
        some (announcedDevice env info f now) ∧
      (processReceivedMessage d src env now).state.chans[ch]? = some (some env) ∧
      (processReceivedMessage d src env now).state.pending.lookup env.TaskID = none) ∧
    (∀ e, unmarshalInfo env.Payload = Except.error e →
      processReceivedMessage d src env now =
        { state := d, spawned := [], logged := [LogLine.payloadFailed],
          status := Status.returned }) := by
  have hslot : d.chans[ch]? = some none := hd.wf.1 _ _ hp
  refine ⟨?_, ?_⟩
  · intro info f hpay hport
    have hproc : processReceivedMessage d src env now =
        { state := deliver (upsert d env.FromUUID (announcedDevice env info f now)) env ch,
          spawned := [],
          logged := [LogLine.newDevice (index info "name") (index info "ip") f.toInt],
          status := Status.returned } := by
      rw [process_announce d src env now info f hcmd hpay hport]
      exact resolveOrDispatch_waiter _ src env _ ch hp hslot
    have hreg := process_announce_registry d src env now info f hcmd hpay hport
    refine ⟨hproc, ?_, ?_, ?_⟩
    · unfold Discovery.device
      rw [hreg.1, hreg.2, GoMap.lookup_insert_self]
      exact List.getElem?_concat_length _ _
    · rw [hproc]
      show (d.chans.set ch (some env))[ch]? = some (some env)
      rw [List.getElem?_set_self (lt_of_getElem?_eq_some hslot)]
    · rw [hproc]
      exact GoMap.lookup_erase_self _ _
  · intro e he
    simp [processReceivedMessage, hcmd, he]

/-- Witness of C15: B waits for task-1; the announce of A carrying task-1 is
delivered to the waiting caller. -/
theorem C15_announce_is_resolved_too_witness :
    (processReceivedMessage nodeBWaiting "10.0.0.5:9999" echoAnnounce 5).state.chans[0]? =
      some (some echoAnnounce) ∧
    (processReceivedMessage nodeBWaiting "10.0.0.5:9999" echoAnnounce 5).state.device "uuid-a" =
      some { UUID := "uuid-a", Name := "A", IP := "10.0.0.5", Port := 9000,
             Version := "1.0.0", LastSeen := 5 } :=
  have h := (C15_announce_is_resolved_too nodeBWaiting "10.0.0.5:9999" echoAnnounce 5 0
    ⟨_, _, _, _, _, _, rfl⟩ rfl (by decide)).1 _ { toInt := 9000, sprint := "9000" } rfl rfl
  ⟨h.2.2.1, h.2.1⟩

/-! ## Snapshots of the registry -/

theorem GoMap.mem_entries_iff {α : Type} (m : GoMap α) (k : String) (v : α) :
    (k, v) ∈ m.entries ↔ m.lookup k = some v := by
  unfold GoMap.lookup
  have hnd := m.nodup
  generalize m.entries = l at hnd
  induction l with
  | nil => simp
  | cons e l ih =>
    obtain ⟨a, b⟩ := e
    simp only [List.map_cons, List.nodup_cons] at hnd
    by_cases hk : a = k
    · subst hk
      simp only [List.mem_cons, Prod.mk.injEq, true_and, List.find?_cons, beq_self_eq_true,
        Option.map_some', Option.some.injEq]
      constructor
      · rintro (h | h)
        · exact h.symm
        · exact absurd (List.mem_map.2 ⟨(a, v), h, rfl⟩) hnd.1
      · intro h; exact Or.inl h.symm
    · have hk2 : (a == k) = false := by simpa using hk
      have hk3 : ¬ k = a := fun e => hk e.symm
      simp only [List.mem_cons, Prod.mk.injEq, hk3, false_and, false_or, List.find?_cons, hk2]
      exact ih hnd.2

theorem deviceObjs_apply (d : Discovery) (e : Event) (hs : e.isStore = false) :
    ∃ added, (d.apply e).deviceObjs = d.deviceObjs ++ added := by
  cases e with
  | registerHandler cmd handler => exact ⟨[], (List.append_nil _).symm⟩
  | start env =>
    refine ⟨[], ?_⟩
    rw [List.append_nil]
    exact (Start_tables d env).2.2.2.2.1
  | stop => exact ⟨[], (List.append_nil _).symm⟩
  | recv r now =>
    show ∃ added, (listenMulticastIter d r now).state.deviceObjs = d.deviceObjs ++ added
    rcases listenMulticastIter_state d r now with h | ⟨src, env, -, -, h⟩
    · rw [h]; exact ⟨[], (List.append_nil _).symm⟩
    · rw [h]
      obtain ⟨d1, hd1, hs1⟩ := processReceivedMessage_state d src env now
      have h1 : ∃ added, d1.deviceObjs = d.deviceObjs ++ added := by
        rcases hd1 with rfl | ⟨dev, rfl⟩
        · exact ⟨[], (List.append_nil _).symm⟩
        · exact ⟨[dev], rfl⟩
      rcases hs1 with hs1 | ⟨ch, -, -, hs1⟩ <;> rw [hs1] <;> exact h1
  | sweep now => exact ⟨[], (List.append_nil _).symm⟩
  | request env newUUID => exact ⟨[], (List.append_nil _).symm⟩
  | abandon taskID => exact ⟨[], (List.append_nil _).symm⟩
  | take ch => exact ⟨[], (List.append_nil _).symm⟩
  | store p dev => simp [Event.isStore] at hs

theorem deviceObjs_run (events : List Event) :
    ∀ d : Discovery, (∀ e ∈ events, e.isStore = false) →
      ∃ added, (d.run events).deviceObjs = d.deviceObjs ++ added := by
  induction events with
  | nil => intro d _; exact ⟨[], (List.append_nil _).symm⟩
  | cons e rest ih =>
    intro d hs
    obtain ⟨a1, h1⟩ := deviceObjs_apply d e (hs e (List.mem_cons_self _ _))
    obtain ⟨a2, h2⟩ := ih (d.apply e) (fun x hx => hs x (List.mem_cons_of_mem _ hx))
    refine ⟨a1 ++ a2, ?_⟩
    show ((d.apply e).run rest).deviceObjs = _
    rw [h2, h1, List.append_assoc]

/-- C16 as stated fails: B knows A; `GetDevices` returns the one pointer that
the registry itself stores under A's uuid, and when the caller renames the
device through that pointer the registry entry of A is renamed. -/
theorem C16_counterexample_snapshot_is_live :
    GetDevices nodeBKnowsA = [0] ∧
    nodeBKnowsA.devices.lookup "uuid-a" = some 0 ∧
    nodeBKnowsA.device "uuid-a" =
      some { UUID := "uuid-a", Name := "A", IP := "10.0.0.5", Port := 9000,
             Version := "1.0.0", LastSeen := 77 } ∧
    (storeDevice nodeBKnowsA 0 renamedA).device "uuid-a" = some renamedA ∧
    (storeDevice nodeBKnowsA 0 renamedA).device "uuid-a" ≠ nodeBKnowsA.device "uuid-a" := by
  refine ⟨?_, ?_, ?_, ?_, ?_⟩ <;> decide

/-- C16, as amended: `GetDevices` returns a new slice with exactly one element
per registry entry, each the pointer the registry stores in that entry, so
each element reads as the entry's device. No later step of the package writes a
`Device` that exists: after any later announces, sweeps and other steps short of
a caller's own write, every pointer of the snapshot still points to the device
it pointed to. The elements are live references: a write the caller makes
through a returned element changes the registry entry it came from, and leaves
the set of entries as it was. -/
theorem C16_snapshot_shares_devices (d : Discovery) :
    (GetDevices d).length = d.devices.entries.length ∧
    (∀ p, p ∈ GetDevices d ↔ ∃ k, d.devices.lookup k = some p) ∧
    (∀ k p, d.devices.lookup k = some p → d.device k = d.deviceObjs[p]?) ∧
    (∀ events : List Event, (∀ e ∈ events, e.isStore = false) →
      ∀ (p : Nat) (dev : Device), d.deviceObjs[p]? = some dev →
        (d.run events).deviceObjs[p]? = some dev) ∧
    (∀ k p dev, d.devices.lookup k = some p → p < d.deviceObjs.length →
      (storeDevice d p dev).device k = some dev ∧
      GetDevices (storeDevice d p dev) = GetDevices d) := by
  refine ⟨by simp [GetDevices], ?_, ?_, ?_, ?_⟩
  · intro p
    unfold GetDevices
    constructor
    · intro hp
      obtain ⟨e, he, rfl⟩ := List.mem_map.1 hp
      exact ⟨e.1, (GoMap.mem_entries_iff _ _ _).1 he⟩
    · rintro ⟨k, hk⟩
      exact List.mem_map.2 ⟨(k, p), (GoMap.mem_entries_iff _ _ _).2 hk, rfl⟩
  · intro k p hk
    unfold Discovery.device
    rw [hk]
    rfl
  · intro events hs p dev hp
    obtain ⟨added, ha⟩ := deviceObjs_run events d hs
    rw [ha, List.getElem?_append_left (lt_of_getElem?_eq_some hp)]
    exact hp
  · intro k p dev hk hlt
    refine ⟨?_, rfl⟩
    unfold Discovery.device
    show (d.devices.lookup k).bind (fun q => (d.deviceObjs.set p dev)[q]?) = some dev
    rw [hk]
    show (d.deviceObjs.set p dev)[p]? = some dev
    rw [List.getElem?_set_self hlt]

/-! ## Registrations of several requests -/

theorem registerAll_cons (d : Discovery) (r : MessageEnvelope × String)
    (rest : List (MessageEnvelope × String)) :
    registerAll d (r :: rest) = registerAll (requestRegister d r.1 r.2).1 rest := rfl

theorem registerAll_lookup_other (reqs : List (MessageEnvelope × String)) :
    ∀ (d : Discovery) (t : String), t ∉ taskIDs reqs →
      (registerAll d reqs).pending.lookup t = d.pending.lookup t := by
  induction reqs with
  | nil => intro d t _; rfl
  | cons r rest ih =>
    intro d t ht
    have ht1 : t ≠ (withTaskID r.1 r.2).TaskID := by
      intro e
      exact ht (by simp [taskIDs, e])
    have ht2 : t ∉ taskIDs rest := by
      intro hm
      exact ht (by simp only [taskIDs, List.map_cons, List.mem_cons]; exact Or.inr hm)
    rw [registerAll_cons, ih _ t ht2]
    exact GoMap.lookup_insert_ne _ _ _ _ ht1

theorem registerAll_chans (reqs : List (MessageEnvelope × String)) :
    ∀ d : Discovery, (registerAll d reqs).chans = d.chans ++ List.replicate reqs.length none := by
  induction reqs with
  | nil => intro d; simp [registerAll]
  | cons r rest ih =>
    intro d
    rw [registerAll_cons, ih]
    show (d.chans ++ [none]) ++ _ = _
    simp [List.replicate_succ]

theorem registerAll_lookup_own (reqs : List (MessageEnvelope × String)) :
    ∀ (d : Discovery), (taskIDs reqs).Nodup →
      ∀ (i : Nat) (t : String), (taskIDs reqs)[i]? = some t →
        (registerAll d reqs).pending.lookup t = some (d.chans.length + i) := by
  induction reqs with
  | nil => intro d _ i t h; simp [taskIDs] at h
  | cons r rest ih =>
    intro d hnd i t h
    have hnd1 : (withTaskID r.1 r.2).TaskID ∉ taskIDs rest ∧ (taskIDs rest).Nodup := by
      simpa [taskIDs] using hnd
    rw [registerAll_cons]
    cases i with
    | zero =>
      have ht : (withTaskID r.1 r.2).TaskID = t := by simpa [taskIDs] using h
      subst ht
      rw [registerAll_lookup_other rest _ _ hnd1.1]
      exact GoMap.lookup_insert_self _ _ _
    | succ j =>
      have hj : (taskIDs rest)[j]? = some t := by simpa [taskIDs] using h
      rw [ih _ hnd1.2 j t hj]
      show some ((d.chans ++ [none]).length + j) = some (d.chans.length + (j + 1))
      simp
      omega

/-- C17 as stated fails: B has an outstanding request under task-1 (channel 0)
and a second `RequestResponse` call is made with the same caller-supplied
TaskID. Line 185 overwrites the entry: task-1 now leads to the channel of the
second call, the two outstanding calls share one entry, and the reply goes to
the second caller while the channel of the first stays empty. -/
theorem C17_counterexample_same_taskID_overwrites :
    nodeBWaiting.pending.lookup "task-1" = some 0 ∧
    (withTaskID pingRequest "fresh-2").TaskID = "task-1" ∧
    (requestRegister nodeBWaiting pingRequest "fresh-2").1.pending.lookup "task-1" = some 1 ∧
    (requestRegister nodeBWaiting pingRequest "fresh-2").1.pending.entries.length = 1 ∧
    (processReceivedMessage (requestRegister nodeBWaiting pingRequest "fresh-2").1
      "10.0.0.5:40000" pongReply 5).state.chans = [none, some pongReply] := by
  refine ⟨?_, ?_, ?_, ?_, ?_⟩ <;> decide

/-- C17, as amended: the registrations of a sequence of `RequestResponse`
calls whose taskIDs (caller-supplied, or generated when empty) are pairwise
distinct give every call its own live entry: the taskID of the i-th call leads
to the i-th channel made, which is empty, and every entry under a taskID that
no call of the sequence uses is untouched. One registration leaves the entry of
every other taskID and every existing channel as they were, and a caller that
gives up deletes the entry of its own taskID only. -/
theorem C17_distinct_taskIDs_keep_own_entries (d : Discovery)
    (reqs : List (MessageEnvelope × String)) (hdistinct : (taskIDs reqs).Nodup) :
    (∀ (i : Nat) (t : String), (taskIDs reqs)[i]? = some t →
      (registerAll d reqs).pending.lookup t = some (d.chans.length + i) ∧
      (registerAll d reqs).chans[d.chans.length + i]? = some none) ∧
    (∀ t, t ∉ taskIDs reqs → (registerAll d reqs).pending.lookup t = d.pending.lookup t) ∧
    (∀ (c : Nat), c < d.chans.length → (registerAll d reqs).chans[c]? = d.chans[c]?) ∧
    (∀ (env : MessageEnvelope) (newUUID t : String), t ≠ (withTaskID env newUUID).TaskID →
      (requestRegister d env newUUID).1.pending.lookup t = d.pending.lookup t) ∧
    (∀ t t0 : String, t ≠ t0 →
      (d.apply (Event.abandon t0)).pending.lookup t = d.pending.lookup t) := by
  refine ⟨?_, registerAll_lookup_other reqs d, ?_, ?_, ?_⟩
  · intro i t h
    refine ⟨registerAll_lookup_own reqs d hdistinct i t h, ?_⟩
    have hi : i < reqs.length := by
      have := lt_of_getElem?_eq_some h
      simpa [taskIDs] using this
    rw [registerAll_chans, List.getElem?_append_right (Nat.le_add_right _ _)]
    simp [hi]
  · intro c hc
    rw [registerAll_chans, List.getElem?_append_left hc]
  · intro env newUUID t ht
    exact GoMap.lookup_insert_ne _ _ _ _ ht
  · intro t t0 ht
    exact GoMap.lookup_erase_ne _ _ _ ht

/-- Witness of C17: B registers requests under task-1 and task-2. -/
theorem C17_distinct_taskIDs_keep_own_entries_witness :
    (registerAll nodeB [(pingRequest, "fresh-1"),
      ({ pingRequest with TaskID := "task-2" }, "fresh-2")]).pending.lookup "task-1" = some 0 ∧
    (registerAll nodeB [(pingRequest, "fresh-1"),
      ({ pingRequest with TaskID := "task-2" }, "fresh-2")]).pending.lookup "task-2" = some 1 :=
  have h := (C17_distinct_taskIDs_keep_own_entries nodeB
    [(pingRequest, "fresh-1"), ({ pingRequest with TaskID := "task-2" }, "fresh-2")]
    (by decide)).1
  ⟨(h 0 "task-1" (by decide)).1, (h 1 "task-2" (by decide)).1⟩

/-! ## The task id of a request -/

theorem Send_writes_data (d : Discovery) (env : MessageEnvelope) (net : Network) (p : Packet)
    (hp : p ∈ (Send d env net).writes) : p.data = { env with FromUUID := d.uuid } := by
  unfold Send at hp
  split at hp
  · cases hp
  · rename_i data hm
    have hd := marshalEnvelope_ok _ _ hm
    subst hd
    split at hp
    · exact sendMulticast_data d net _ p hp
    · split at hp
      · exact sendUnicast_data d net _ _ p hp
      · cases hp

theorem pending_none_apply (d : Discovery) (e : Event) (t : String)
    (h : d.pending.lookup t = none)
    (hreq : ∀ env newUUID, e = Event.request env newUUID → (withTaskID env newUUID).TaskID ≠ t) :
    (d.apply e).pending.lookup t = none := by
  cases e with
  | registerHandler cmd handler => exact h
  | start env =>
    show (Start d env).1.state.pending.lookup t = none
    rw [(Start_tables d env).2.2.2.1]; exact h
  | stop => exact h
  | recv r now =>
    show (listenMulticastIter d r now).state.pending.lookup t = none
    rcases listenMulticastIter_state d r now with hs | ⟨src, env, -, -, hs⟩
    · rw [hs]; exact h
    · rw [hs]
      obtain ⟨d1, hd1, hs1⟩ := processReceivedMessage_state d src env now
      have hp1 : d1.pending = d.pending := by
        rcases hd1 with rfl | ⟨dev, rfl⟩ <;> rfl
      rcases hs1 with hs1 | ⟨c, -, -, hs1⟩
      · rw [hs1, hp1]; exact h
      · rw [hs1]
        show (d1.pending.erase env.TaskID).lookup t = none
        rw [hp1]
        exact GoMap.lookup_erase_of_none _ _ _ h
  | sweep now => exact h
  | request env newUUID =>
    show (d.pending.insert (withTaskID env newUUID).TaskID d.chans.length).lookup t = none
    rw [GoMap.lookup_insert_ne _ _ _ _ (fun e => hreq env newUUID rfl e.symm)]
    exact h
  | abandon taskID => exact GoMap.lookup_erase_of_none _ _ _ h
  | take ch => exact h
  | store p dev => exact h

theorem withTaskID_ne_empty (env : MessageEnvelope) (newUUID : String) (hfresh : newUUID ≠ "") :
    (withTaskID env newUUID).TaskID ≠ "" := by
  unfold withTaskID
  by_cases h : env.TaskID = ""
  · simp [h, hfresh]
  · simp [h]

theorem pending_empty_key_run (events : List Event) :
    ∀ d : Discovery, d.pending.lookup "" = none → (∀ e ∈ events, e.freshOk = true) →
      (d.run events).pending.lookup "" = none := by
  induction events with
  | nil => intro d h _; exact h
  | cons e rest ih =>
    intro d h hf
    refine ih (d.apply e) (pending_none_apply d e "" h ?_)
      (fun x hx => hf x (List.mem_cons_of_mem _ hx))
    intro env newUUID he
    have hfe := hf e (List.mem_cons_self _ _)
    subst he
    have hne : newUUID ≠ "" := by simpa [Event.freshOk] using hfe
    exact withTaskID_ne_empty env newUUID hne

/-- C18: `RequestResponse` keeps a non-empty caller-supplied TaskID and
replaces an empty one by the generated identifier, which is non-empty, and
changes no other field; the entry is registered under that identifier before
the send, and every datagram the send writes carries the identifier the entry
is registered under. So the empty string does not become a key of the pending
table, and it is a key in no state a node reaches while every generated
identifier is non-empty. -/
theorem C18_taskID_kept_or_generated (d : Discovery) (env : MessageEnvelope)
    (newUUID : String) (net : Network) (hfresh : newUUID ≠ "") :
    (env.TaskID ≠ "" → withTaskID env newUUID = env) ∧
    (env.TaskID = "" → withTaskID env newUUID = { env with TaskID := newUUID }) ∧
    (withTaskID env newUUID).TaskID ≠ "" ∧
    (requestRegister d env newUUID).1.pending.lookup (withTaskID env newUUID).TaskID =
      some d.chans.length ∧
    (requestRegister d env newUUID).2.1 = withTaskID env newUUID ∧
    (∀ p, p ∈ (requestSend d env newUUID net).writes →
      p.data.TaskID = (withTaskID env newUUID).TaskID ∧
      (requestRegister d env newUUID).1.pending.lookup p.data.TaskID = some d.chans.length) ∧
    (d.pending.lookup "" = none → (requestRegister d env newUUID).1.pending.lookup "" = none) ∧
    (∀ (name ver id ip : String) (port : Int) (events : List Event),
      (∀ e ∈ events, e.freshOk = true) →
      ((NewDiscovery name ver id ip port).run events).pending.lookup "" = none) := by
  have hne := withTaskID_ne_empty env newUUID hfresh
  have hreg : (requestRegister d env newUUID).1.pending.lookup (withTaskID env newUUID).TaskID =
      some d.chans.length := GoMap.lookup_insert_self _ _ _
  refine ⟨?_, ?_, hne, hreg, rfl, ?_, ?_, ?_⟩
  · intro h
    simp [withTaskID, h]
  · intro h
    simp [withTaskID, h]
  · intro p hp
    have hdata := Send_writes_data _ _ net p hp
    have ht : p.data.TaskID = (withTaskID env newUUID).TaskID := by
      rw [hdata]
      rfl
    exact ⟨ht, by rw [ht]; exact hreg⟩
  · intro h
    show (d.pending.insert (withTaskID env newUUID).TaskID d.chans.length).lookup "" = none
    rw [GoMap.lookup_insert_ne _ _ _ _ (fun e => hne e.symm)]
    exact h
  · intro name ver id ip port events hf
    exact pending_empty_key_run events _ rfl hf

/-- Witness of C18: the started node B sends a request without TaskID; the
generated identifier fresh-1 is registered and sent. -/
theorem C18_taskID_kept_or_generated_witness :
    (withTaskID { pingRequest with TaskID := "" } "fresh-1").TaskID = "fresh-1" ∧
    (requestRegister startedB { pingRequest with TaskID := "" } "fresh-1").1.pending.lookup
      "fresh-1" = some 0 ∧
    (requestSend startedB { pingRequest with TaskID := "" } "fresh-1" netOK).writes.map
      (fun p => p.data.TaskID) = ["fresh-1"] :=
  have h := C18_taskID_kept_or_generated startedB { pingRequest with TaskID := "" } "fresh-1"
    netOK (by decide)
  ⟨by rw [h.2.1 rfl], h.2.2.2.1, by decide⟩

/-! ## The multicast fan-out -/

theorem sendMulticastLoop_err_of_ok (d : Discovery) (net : Network) (data : MessageEnvelope)
    (conns : List Nat)
    (hok : ∀ c ∈ conns, (writeToUDP d net c multicastAddr data).err = none) :
    ∀ lastErr, (sendMulticastLoop d net data conns lastErr).err = lastErr := by
  induction conns with
  | nil => intro lastErr; rfl
  | cons c rest ih =>
    intro lastErr
    have hc := hok c (List.mem_cons_self _ _)
    have hrest := ih (fun c' h' => hok c' (List.mem_cons_of_mem _ h'))
    unfold sendMulticastLoop
    simp only [hc]
    exact hrest lastErr

theorem sendMulticastLoop_err_none (d : Discovery) (net : Network) (data : MessageEnvelope)
    (conns : List Nat) :
    ∀ lastErr, (sendMulticastLoop d net data conns lastErr).err = none ↔
      lastErr = none ∧ ∀ c ∈ conns, (writeToUDP d net c multicastAddr data).err = none := by
  induction conns with
  | nil => intro lastErr; simp [sendMulticastLoop]
  | cons c rest ih =>
    intro lastErr
    unfold sendMulticastLoop
    cases hc : (writeToUDP d net c multicastAddr data).err with
    | none =>
      simp only []
      rw [ih lastErr]
      simp [hc]
    | some e =>
      simp only []
      rw [ih]
      simp [hc]

theorem sendMulticastLoop_err_last (d : Discovery) (net : Network) (data : MessageEnvelope)
    (c : Nat) (post : List Nat) (e : String)
    (hc : (writeToUDP d net c multicastAddr data).err = some e)
    (hpost : ∀ c' ∈ post, (writeToUDP d net c' multicastAddr data).err = none) :
    ∀ (pre : List Nat) (lastErr : Option String),
      (sendMulticastLoop d net data (pre ++ c :: post) lastErr).err =
        some ("send multicast on " ++ net.localAddr c ++ " failed: " ++ e) := by
  intro pre
  induction pre with
  | nil =>
    intro lastErr
    simp only [List.nil_append]
    unfold sendMulticastLoop
    simp only [hc]
    exact sendMulticastLoop_err_of_ok d net data post hpost _
  | cons c0 rest ih =>
    intro lastErr
    simp only [List.cons_append]
    unfold sendMulticastLoop
    split
    · exact ih lastErr
    · exact ih _

/-- C21: when the multicast address resolves (it is a literal address),
`sendMulticast` makes one write on each connection of `multicastConns`, in
order, whatever the outcome of the earlier writes; it returns nil exactly when
every write succeeded; and when the write on a connection fails and every write
on a later connection succeeds, it returns the error of that connection,
wrapped with the connection's local address. The call returns in every case. -/
theorem C21_sendMulticast_fans_out (d : Discovery) (net : Network) (data : MessageEnvelope)
    (hr : net.resolve multicastAddr = none) :
    (sendMulticast d net data).writes =
      d.multicastConns.map (fun c => writeToUDP d net c multicastAddr data) ∧
    ((sendMulticast d net data).err = none ↔
      ∀ p ∈ (sendMulticast d net data).writes, p.err = none) ∧
    (∀ (pre : List Nat) (c : Nat) (post : List Nat) (e : String),
      d.multicastConns = pre ++ c :: post →
      (writeToUDP d net c multicastAddr data).err = some e →
      (∀ c' ∈ post, (writeToUDP d net c' multicastAddr data).err = none) →
      (sendMulticast d net data).err =
        some ("send multicast on " ++ net.localAddr c ++ " failed: " ++ e)) ∧
    (sendMulticast d net data).status = Status.returned := by
  have hs : sendMulticast d net data = sendMulticastLoop d net data d.multicastConns none := by
    simp [sendMulticast, hr]
  rw [hs]
  refine ⟨sendMulticastLoop_writes d net data _ none, ?_, ?_, ?_⟩
  · rw [sendMulticastLoop_err_none, sendMulticastLoop_writes]
    simp
  · intro pre c post e hconns hc hpost
    rw [hconns]
    exact sendMulticastLoop_err_last d net data c post e hc hpost pre none
  · generalize (none : Option String) = lastErr
    generalize d.multicastConns = conns
    induction conns generalizing lastErr with
    | nil => rfl
    | cons c rest ih =>
      unfold sendMulticastLoop
      split
      · exact ih lastErr
      · exact ih _

theorem C21_sendMulticast_fans_out_witness :
    netFirstFails.resolve multicastAddr = none ∧
    (sendMulticast startedThree netFirstFails pingRequest).writes =
      [{ conn := 0, dest := "239.0.0.1:9999", data := pingRequest,
         err := some "network is unreachable" },
       { conn := 1, dest := "239.0.0.1:9999", data := pingRequest, err := none }] ∧
    (sendMulticast startedThree netFirstFails pingRequest).err =
      some "send multicast on 10.0.0.2:9999 failed: network is unreachable" :=
  ⟨rfl,
   (C21_sendMulticast_fans_out startedThree netFirstFails pingRequest rfl).1.trans (by decide),
   (C21_sendMulticast_fans_out startedThree netFirstFails pingRequest rfl).2.2.1
     [] 0 [1] "network is unreachable" (by decide) (by decide) (by decide)⟩

/-! ## The interfaces Start binds -/

theorem bindInterfaces_state (bind : Interface → Option String) :
    ∀ (l : List Interface) (d : Discovery),
      (bindInterfaces bind d l).state.sockets =
        d.sockets ++ (boundInterfaces bind l).map multicastSocket ∧
      (bindInterfaces bind d l).state.multicastConns =
        d.multicastConns ++ List.range' d.sockets.length (boundInterfaces bind l).length ∧
      (bindInterfaces bind d l).state.unicastConn = d.unicastConn ∧
      (bindInterfaces bind d l).state.ctxDone = d.ctxDone ∧
      (bindInterfaces bind d l).spawned =
        (List.range' d.sockets.length (boundInterfaces bind l).length).map
          Goroutine.listenMulticast ∧
      (bindInterfaces bind d l).logged =
        (l.filter (fun i => (bind i).isSome)).map (fun i => LogLine.listenFailed i.Name) ∧
      (bindInterfaces bind d l).status = Status.returned := by
  intro l
  induction l with
  | nil => intro d; simp [bindInterfaces, boundInterfaces]
  | cons i rest ih =>
    intro d
    unfold bindInterfaces
    cases hb : bind i with
    | some e =>
      obtain ⟨h1, h2, h3, h4, h5, h6, h7⟩ := ih d
      simp only []
      refine ⟨?_, ?_, h3, h4, ?_, ?_, h7⟩
      · rw [h1]; simp [boundInterfaces, hb]
      · rw [h2]; simp [boundInterfaces, hb]
      · rw [h5]; simp [boundInterfaces, hb]
      · rw [h6]; simp [hb]
    | none =>
      obtain ⟨h1, h2, h3, h4, h5, h6, h7⟩ := ih
        { d with sockets := d.sockets ++ [{ kind := SocketKind.multicast i.Name, closed := false }],
                 multicastConns := d.multicastConns ++ [d.sockets.length] }
      simp only []
      refine ⟨?_, ?_, h3, h4, ?_, ?_, h7⟩
      · rw [h1]; simp [boundInterfaces, hb, multicastSocket]
      · rw [h2]; simp [boundInterfaces, hb, List.range'_succ]
      · rw [h5]; simp [boundInterfaces, hb, List.range'_succ]
      · rw [h6]; simp [hb]

theorem Start_of_candidates (d : Discovery) (env : StartEnv) (cands : List Interface)
    (hr : env.resolve = none) (hi : getActiveInterfaces env.interfaces = Except.ok cands) :
    (Start d env).1.state.multicastConns =
      (bindInterfaces env.listenMulticastUDP d cands).state.multicastConns ∧
    (∃ tail, (Start d env).1.state.sockets =
      (bindInterfaces env.listenMulticastUDP d cands).state.sockets ++ tail) ∧
    (∀ line ∈ (bindInterfaces env.listenMulticastUDP d cands).logged,
      line ∈ (Start d env).1.logged) ∧
    (∀ g ∈ (bindInterfaces env.listenMulticastUDP d cands).spawned,
      g ∈ (Start d env).1.spawned) ∧
    (Start d env).1.status = Status.returned ∧
    ((bindInterfaces env.listenMulticastUDP d cands).state.multicastConns = [] →
      (Start d env).2 = some "no active multicast interfaces found to listen on") ∧
    ((bindInterfaces env.listenMulticastUDP d cands).state.multicastConns ≠ [] →
      env.listenUDP = none → (Start d env).2 = none) := by
  have hst := (bindInterfaces_state env.listenMulticastUDP cands d).2.2.2.2.2.2
  by_cases hlen : (bindInterfaces env.listenMulticastUDP d cands).state.multicastConns.length = 0
  · have hnil := List.length_eq_zero.1 hlen
    have hS : Start d env = (bindInterfaces env.listenMulticastUDP d cands,
        some "no active multicast interfaces found to listen on") := by
      simp only [Start, hr, hi, hlen, if_true]
    rw [hS]
    exact ⟨rfl, ⟨[], by simp⟩, fun _ h => h, fun _ h => h, hst, fun _ => rfl,
      fun hne => absurd hnil hne⟩
  · have hne : (bindInterfaces env.listenMulticastUDP d cands).state.multicastConns ≠ [] :=
      fun h => hlen (by rw [h]; rfl)
    cases hu : env.listenUDP with
    | some e =>
      have hS : Start d env = (bindInterfaces env.listenMulticastUDP d cands,
          some ("listen unicast UDP failed: " ++ e)) := by
        simp only [Start, hr, hi, hlen, if_false, hu]
      rw [hS]
      exact ⟨rfl, ⟨[], by simp⟩, fun _ h => h, fun _ h => h, hst,
        fun h => absurd h hne, fun _ h => by cases h⟩
    | none =>
      have hS : Start d env =
          ({ state := { (bindInterfaces env.listenMulticastUDP d cands).state with
                          sockets := (bindInterfaces env.listenMulticastUDP d cands).state.sockets ++
                            [{ kind := SocketKind.unicast, closed := false }],
                          unicastConn := some
                            (bindInterfaces env.listenMulticastUDP d cands).state.sockets.length },
             spawned := (bindInterfaces env.listenMulticastUDP d cands).spawned ++
               [Goroutine.sendMulticastAnnounce, Goroutine.cleanupDevices],
             logged := (bindInterfaces env.listenMulticastUDP d cands).logged ++
               [LogLine.started d.name d.ip d.port],
             status := Status.returned }, none) := by
        simp only [Start, hr, hi, hlen, if_false, hu]
      rw [hS]
      exact ⟨rfl, ⟨_, rfl⟩, fun _ h => List.mem_append_left _ h,
        fun _ h => List.mem_append_left _ h, rfl, fun h => absurd h hne, fun _ _ => rfl⟩

/-- C22: when the multicast address resolves (it is a literal address) and
`getActiveInterfaces` returns the candidates `cands`, `Start` appends to
`multicastConns` one connection for each candidate whose bind succeeded, in the
order of the candidates, each pointing to an open socket on that interface and
each with a `listenMulticast` goroutine; a candidate whose bind failed is
logged and adds nothing. On a node that holds no multicast connection before
the call, `Start` fails with "no active multicast interfaces found to listen
on" and keeps no connection when no candidate bound (also when there is no
candidate); when at least one bound and the unicast socket opens, `Start`
returns nil. -/
theorem C22_start_keeps_bound_interfaces (d : Discovery) (env : StartEnv)
    (cands : List Interface) (hr : env.resolve = none)
    (hi : getActiveInterfaces env.interfaces = Except.ok cands) :
    (Start d env).1.state.multicastConns =
      d.multicastConns ++
        List.range' d.sockets.length (boundInterfaces env.listenMulticastUDP cands).length ∧
    (∀ j, j < (boundInterfaces env.listenMulticastUDP cands).length →
      (Start d env).1.state.sockets[d.sockets.length + j]? =
        ((boundInterfaces env.listenMulticastUDP cands)[j]?).map multicastSocket ∧
      Goroutine.listenMulticast (d.sockets.length + j) ∈ (Start d env).1.spawned) ∧
    (∀ i ∈ cands, env.listenMulticastUDP i ≠ none →
      i ∉ boundInterfaces env.listenMulticastUDP cands ∧
      LogLine.listenFailed i.Name ∈ (Start d env).1.logged) ∧
    (d.multicastConns = [] → boundInterfaces env.listenMulticastUDP cands = [] →
      (Start d env).2 = some "no active multicast interfaces found to listen on" ∧
      (Start d env).1.state.multicastConns = []) ∧
    (boundInterfaces env.listenMulticastUDP cands ≠ [] → env.listenUDP = none →
      (Start d env).2 = none) ∧
    (Start d env).1.status = Status.returned := by
  obtain ⟨hconns, ⟨tail, hsock⟩, hlog, hspawn, hstatus, hfail, hsucc⟩ :=
    Start_of_candidates d env cands hr hi
  obtain ⟨b1, b2, -, -, b5, b6, -⟩ := bindInterfaces_state env.listenMulticastUDP cands d
  refine ⟨hconns.trans b2, ?_, ?_, ?_, ?_, hstatus⟩
  · intro j hj
    constructor
    · rw [hsock, b1, List.append_assoc, List.getElem?_append_right (Nat.le_add_right _ _)]
      simp only [Nat.add_sub_cancel_left]
      rw [List.getElem?_append_left (by simpa using hj), List.getElem?_map]
    · apply hspawn
      rw [b5]
      exact List.mem_map.2 ⟨_, List.mem_range'_1.2 ⟨Nat.le_add_right _ _, by omega⟩, rfl⟩
  · intro i hi' hne
    constructor
    · intro hmem
      have := (List.mem_filter.1 hmem).2
      cases hb : env.listenMulticastUDP i with
      | none => exact hne hb
      | some e => simp [hb] at this
    · apply hlog
      rw [b6]
      refine List.mem_map.2 ⟨i, List.mem_filter.2 ⟨hi', ?_⟩, rfl⟩
      cases hb : env.listenMulticastUDP i with
      | none => exact absurd hb hne
      | some e => rfl
  · intro hd hb
    have hnil : (bindInterfaces env.listenMulticastUDP d cands).state.multicastConns = [] := by
      rw [b2, hd, hb]; rfl
    exact ⟨hfail hnil, hconns.trans hnil⟩
  · intro hb hu
    apply hsucc _ hu
    rw [b2]
    intro h
    have hlen := congrArg List.length h
    simp at hlen
    exact hb hlen.2

theorem C22_start_keeps_bound_interfaces_witness :
    startThree.resolve = none ∧
    getActiveInterfaces startThree.interfaces = Except.ok [eth0, tun0, wlan0] ∧
    boundInterfaces startThree.listenMulticastUDP [eth0, tun0, wlan0] = [eth0, wlan0] ∧
    (Start nodeB startThree).1.state.multicastConns = [0, 1] ∧
    (Start nodeB startThree).2 = none ∧
    (Start nodeB startNone).2 = some "no active multicast interfaces found to listen on" :=
  ⟨rfl, rfl, by decide,
   (C22_start_keeps_bound_interfaces nodeB startThree [eth0, tun0, wlan0] rfl rfl).1.trans
     (by decide),
   (C22_start_keeps_bound_interfaces nodeB startThree [eth0, tun0, wlan0] rfl rfl).2.2.2.2.1
     (by decide) rfl,
   ((C22_start_keeps_bound_interfaces nodeB startNone [eth0, wlan0] rfl rfl).2.2.2.1
     rfl (by decide)).1⟩

/-! ## Stop, once and twice -/

theorem closeSocket_getElem? (ss : List Socket) (p i : Nat) :
    (closeSocket ss p)[i]? =
      (ss[i]?).map (fun s => if i = p then { s with closed := true } else s) := by
  unfold closeSocket
  cases hp : ss[p]? with
  | none =>
    simp only []
    by_cases hip : i = p
    · subst hip; simp [hp]
    · simp [hip]
  | some s =>
    simp only []
    by_cases hip : i = p
    · subst hip
      have hlt := lt_of_getElem?_eq_some hp
      simp [List.getElem?_set, hlt, hp]
    · have hpi : p ≠ i := fun h => hip h.symm
      simp [List.getElem?_set, hip, hpi]

theorem closeAll_getElem? (ps : List Nat) :
    ∀ (ss : List Socket) (i : Nat), (ps.foldl closeSocket ss)[i]? =
      (ss[i]?).map (fun s => if i ∈ ps then { s with closed := true } else s) := by
  induction ps with
  | nil => intro ss i; simp
  | cons p rest ih =>
    intro ss i
    rw [List.foldl_cons, ih, closeSocket_getElem?]
    cases ss[i]? with
    | none => rfl
    | some s =>
      by_cases h1 : i = p <;> by_cases h2 : i ∈ rest <;> simp [h1, h2]

theorem Stop_sockets_getElem? (d : Discovery) (i : Nat) :
    (Stop d).state.sockets[i]? =
      (d.sockets[i]?).map (fun s =>
        if i ∈ d.multicastConns ∨ d.unicastConn = some i then { s with closed := true }
        else s) := by
  unfold Stop
  cases hu : d.unicastConn with
  | none => simp [closeAll_getElem?]
  | some uc =>
    simp only []
    rw [closeSocket_getElem?, closeAll_getElem?]
    cases d.sockets[i]? with
    | none => rfl
    | some s =>
      by_cases h1 : i = uc
      · subst h1
        by_cases h2 : i ∈ d.multicastConns <;> simp [h2]
      · have h1' : ¬ uc = i := fun h => h1 h.symm
        by_cases h2 : i ∈ d.multicastConns <;> simp [h1, h1', h2]

theorem HoldsAll_Start (d : Discovery) (env : StartEnv) (hu : d.unicastConn = none)
    (hd : HoldsAll d) : HoldsAll (Start d env).1.state := by
  have hbind : ∀ l, HoldsAll (bindInterfaces env.listenMulticastUDP d l).state := by
    intro l i hi
    obtain ⟨b1, b2, -⟩ := bindInterfaces_state env.listenMulticastUDP l d
    left
    rw [b2]
    rw [b1, List.length_append, List.length_map] at hi
    by_cases hlt : i < d.sockets.length
    · rcases hd i hlt with h | h
      · exact List.mem_append_left _ h
      · rw [hu] at h; cases h
    · exact List.mem_append_right _ (List.mem_range'_1.2 ⟨by omega, by omega⟩)
  unfold Start
  split
  · exact hd
  · split
    · exact hd
    · rename_i interfaces _
      simp only []
      split
      · exact hbind interfaces
      · split
        · exact hbind interfaces
        · intro i hi
          simp only [List.length_append, List.length_singleton] at hi
          by_cases hlt : i < (bindInterfaces env.listenMulticastUDP d interfaces).state.sockets.length
          · rcases hbind interfaces i hlt with h | h
            · exact Or.inl h
            · rw [(bindInterfaces_state env.listenMulticastUDP interfaces d).2.2.1, hu] at h
              cases h
          · right
            show some _ = some i
            congr 1
            omega

/-- C23: for every node state, a second `Stop` leaves the state that the first
`Stop` produced; after `Stop` the context is cancelled and every socket that
one of the node's connections points to is closed; both calls return. On a
node that holds every socket of the store, which is the case for a new node
and is kept by a `Start` on a node without unicast connection, every socket is
closed after `Stop`. -/
theorem C23_stop_is_idempotent (d : Discovery) :
    (Stop (Stop d).state).state = (Stop d).state ∧
    (Stop d).state.ctxDone = true ∧
    (∀ i s, (i ∈ d.multicastConns ∨ d.unicastConn = some i) →
      (Stop d).state.sockets[i]? = some s → s.closed = true) ∧
    (HoldsAll d → ∀ s ∈ (Stop d).state.sockets, s.closed = true) ∧
    (∀ name ver id ip port, HoldsAll (NewDiscovery name ver id ip port)) ∧
    (∀ env, d.unicastConn = none → HoldsAll d → HoldsAll (Start d env).1.state) ∧
    (Stop d).status = Status.returned ∧
    (Stop (Stop d).state).status = Status.returned := by
  have hclosed : ∀ i s, (i ∈ d.multicastConns ∨ d.unicastConn = some i) →
      (Stop d).state.sockets[i]? = some s → s.closed = true := by
    intro i s hi hs
    rw [Stop_sockets_getElem?] at hs
    cases hget : d.sockets[i]? with
    | none => rw [hget] at hs; cases hs
    | some s0 =>
      rw [hget] at hs
      simp only [Option.map_some', if_pos hi, Option.some.injEq] at hs
      rw [← hs]
  refine ⟨?_, rfl, hclosed, ?_, ?_, fun env hu hd => HoldsAll_Start d env hu hd, rfl, rfl⟩
  · have hsock : (Stop (Stop d).state).state.sockets = (Stop d).state.sockets := by
      apply List.ext_getElem?
      intro i
      rw [Stop_sockets_getElem? (Stop d).state, Stop_sockets_getElem? d]
      have e1 : (Stop d).state.multicastConns = d.multicastConns := rfl
      have e2 : (Stop d).state.unicastConn = d.unicastConn := rfl
      rw [e1, e2]
      cases d.sockets[i]? with
      | none => rfl
      | some s =>
        by_cases h : i ∈ d.multicastConns ∨ d.unicastConn = some i <;> simp [h]
    have hrest : Stop (Stop d).state =
        { state := { (Stop d).state with sockets := (Stop (Stop d).state).state.sockets },
          spawned := [], logged := [LogLine.stopped], status := Status.returned } := rfl
    rw [hrest, hsock]
  · intro hd s hs
    obtain ⟨i, hlt, hget⟩ := List.getElem_of_mem hs
    have hlen : (Stop d).state.sockets.length = d.sockets.length := by
      have h1 := Stop_sockets_getElem? d d.sockets.length
      simp at h1
      have h2 : ∀ j, j < d.sockets.length → j < (Stop d).state.sockets.length := by
        intro j hj
        have h3 := Stop_sockets_getElem? d j
        rw [List.getElem?_eq_getElem hj] at h3
        exact lt_of_getElem?_eq_some h3
      rcases Nat.lt_or_ge d.sockets.length (Stop d).state.sockets.length with h | h
      · omega
      · rcases Nat.eq_or_lt_of_le h with h | h
        · exact h
        · exact absurd (h2 _ h) (Nat.lt_irrefl _)
    exact hclosed i s (hd i (hlen ▸ hlt)) (by rw [List.getElem?_eq_getElem hlt, hget])
  · intro name ver id ip port i hi
    simp [NewDiscovery] at hi

/-! ## An announce, from the announcer of one node to the registry of another -/

theorem sendMulticastAnnounceTick_writes (d : Discovery) (newUUID : String) (net : Network) :
    (sendMulticastAnnounceTick d newUUID net).writes =
      (Send d (announceEnvelope d newUUID) net).writes := by
  unfold sendMulticastAnnounceTick
  split <;> rfl

theorem device_of_announce (d : Discovery) (src : String) (env : MessageEnvelope) (now : Int)
    (info : List (String × Any)) (f : Float64) (hcmd : env.Command = "announce")
    (hpay : env.Payload = RawMessage.object info) (hport : index info "port" = Any.float64 f) :
    (processReceivedMessage d src env now).state.device env.FromUUID =
      some (announcedDevice env info f now) := by
  obtain ⟨h1, h2⟩ := process_announce_registry d src env now info f hcmd hpay hport
  unfold Discovery.device
  rw [h1, h2, GoMap.lookup_insert_self]
  simp

theorem roundFloat64_of_port (n : Int) (h : 0 ≤ n ∧ n ≤ 65535) : roundFloat64 n = n := by
  unfold roundFloat64
  have h53 : (2 : Nat) ^ 53 = 9007199254740992 := by norm_num
  have hn : n.natAbs ≤ 2 ^ 53 := by
    rw [h53]
    omega
  rw [if_pos hn]

theorem jsonStringLen_replicate (n : Nat) :
    jsonStringLen (String.mk (List.replicate n 'a')) = 2 + n := by
  show 2 + ((List.replicate n 'a').map jsonCharLen).sum = 2 + n
  congr 1
  induction n with
  | zero => rfl
  | succ k ih =>
    rw [List.replicate_succ, List.map_cons, List.sum_cons, ih]
    have h1 : jsonCharLen 'a' = 1 := by decide
    rw [h1]
    omega

/-- C24 as stated fails: the started node A has a name of 2000 characters. A
tick of its announcer writes the announce envelope without error; its JSON
encoding has 2166 bytes, more than the 2048 bytes of the buffer B reads into
(line 218). B's read gets a cut-off datagram, the decode of line 236 fails, the
pass logs the failure and B's registry has no entry for A. -/
theorem C24_counterexample_long_name_is_dropped :
    longNameA.name.length = 2000 ∧
    (sendMulticastAnnounceTick longNameA "task-9" netOK).writes.map
      (fun p => (p.conn, p.dest, p.err)) = [(0, "239.0.0.1:9999", none)] ∧
    announceDatagramLen longNameA "task-9" = 2166 ∧
    readOf "10.0.0.5:9999" { announceEnvelope longNameA "task-9" with FromUUID := "uuid-a" }
      (announceDatagramLen longNameA "task-9") =
      ReadResult.ok "10.0.0.5:9999" Datagram.malformed ∧
    (listenMulticastIter nodeB
      (readOf "10.0.0.5:9999" { announceEnvelope longNameA "task-9" with FromUUID := "uuid-a" }
        (announceDatagramLen longNameA "task-9")) 5).logged = [LogLine.decodeFailed] ∧
    (listenMulticastIter nodeB
      (readOf "10.0.0.5:9999" { announceEnvelope longNameA "task-9" with FromUUID := "uuid-a" }
        (announceDatagramLen longNameA "task-9")) 5).state.device "uuid-a" = none := by
  have hname : longNameA.name = String.mk (List.replicate 2000 'a') := rfl
  have hlen : announceDatagramLen longNameA "task-9" = 2166 := by
    have huuid : longNameA.uuid = "uuid-a" := rfl
    have hip : longNameA.ip = "10.0.0.5" := rfl
    have hport : longNameA.port = 9000 := rfl
    have hver : longNameA.version = "1.0.0" := rfl
    unfold announceDatagramLen announcePayloadLen
    rw [huuid, hip, hport, hver, hname, jsonStringLen_replicate]
    decide
  have hread : readOf "10.0.0.5:9999"
      { announceEnvelope longNameA "task-9" with FromUUID := "uuid-a" }
      (announceDatagramLen longNameA "task-9") =
      ReadResult.ok "10.0.0.5:9999" Datagram.malformed := by
    rw [hlen]
    rfl
  refine ⟨?_, by decide, hlen, hread, ?_, ?_⟩
  · rw [hname]
    exact List.length_replicate 2000 'a'
  · rw [hread]; rfl
  · rw [hread]; rfl

/-- C24, as amended: let A be a node whose port is a port number (it is what
`getAvailablePort` returned) and B a node with another uuid. Every datagram
that a tick of A's announcer writes carries the announce envelope stamped with
A's uuid. When its JSON encoding has at most 2048 bytes, B's pass on it, at
instant `now`, leaves under A's uuid the device with A's uuid, name, ip, port
and version and with `now` as LastSeen, and does not panic. When the encoding
is longer, B's pass logs a decode failure and leaves B's state as it was. -/
theorem C24_announce_round_trip (a b : Discovery) (newUUID : String) (net : Network)
    (p : Packet) (src : String) (now : Int)
    (hport : 0 ≤ a.port ∧ a.port ≤ 65535) (hab : a.uuid ≠ b.uuid)
    (hp : p ∈ (sendMulticastAnnounceTick a newUUID net).writes) :
    p.data = { announceEnvelope a newUUID with FromUUID := a.uuid } ∧
    (announceDatagramLen a newUUID ≤ readBufferSize →
      (listenMulticastIter b (readOf src p.data (announceDatagramLen a newUUID))
          now).state.device a.uuid =
        some { UUID := a.uuid, Name := a.name, IP := a.ip, Port := a.port,
               Version := a.version, LastSeen := now } ∧
      (listenMulticastIter b (readOf src p.data (announceDatagramLen a newUUID)) now).status ≠
        Status.panicked) ∧
    (readBufferSize < announceDatagramLen a newUUID →
      listenMulticastIter b (readOf src p.data (announceDatagramLen a newUUID)) now =
        { state := b, spawned := [], logged := [LogLine.decodeFailed],
          status := Status.returned }) := by
  rw [sendMulticastAnnounceTick_writes] at hp
  have hdata := Send_writes_data a _ net p hp
  refine ⟨hdata, ?_, ?_⟩
  · intro hfit
    have hread : readOf src p.data (announceDatagramLen a newUUID) =
        ReadResult.ok src (Datagram.json p.data) := by
      unfold readOf
      rw [if_pos hfit]
    rw [hread]
    have hiter : listenMulticastIter b (ReadResult.ok src (Datagram.json p.data)) now =
        processReceivedMessage b src p.data now := by
      simp [listenMulticastIter, hdata, hab]
    have hinfo : index
        [("ip", Any.string a.ip), ("name", Any.string a.name),
         ("port", Any.float64 (float64OfInt a.port)), ("uuid", Any.string a.uuid),
         ("version", Any.string a.version)] "port" = Any.float64 (float64OfInt a.port) := by
      simp [index, List.find?]
    have hcmd : p.data.Command = "announce" := by rw [hdata]; rfl
    have hpay : p.data.Payload = RawMessage.object
        [("ip", Any.string a.ip), ("name", Any.string a.name),
         ("port", Any.float64 (float64OfInt a.port)), ("uuid", Any.string a.uuid),
         ("version", Any.string a.version)] := by rw [hdata]; rfl
    have hfrom : p.data.FromUUID = a.uuid := by rw [hdata]
    refine ⟨?_, ?_⟩
    · rw [hiter]
      have h := device_of_announce b src p.data now _ _ hcmd hpay hinfo
      rw [hfrom] at h
      rw [h]
      simp [announcedDevice, hfrom, index, List.find?, Sprint, float64OfInt,
        roundFloat64_of_port a.port hport]
    · rw [hiter, process_announce b src p.data now _ _ hcmd hpay hinfo]
      exact resolveOrDispatch_status _ _ _ _
  · intro hlong
    have hread : readOf src p.data (announceDatagramLen a newUUID) =
        ReadResult.ok src Datagram.malformed := by
      unfold readOf
      rw [if_neg (Nat.not_le.2 hlong)]
    rw [hread]
    rfl

theorem C24_announce_round_trip_witness :
    (0 ≤ startedB.port ∧ startedB.port ≤ 65535) ∧
    ({ conn := 0, dest := "239.0.0.1:9999",
       data := { announceEnvelope startedB "task-9" with FromUUID := "uuid-b" },
       err := none } : Packet) ∈ (sendMulticastAnnounceTick startedB "task-9" netOK).writes ∧
    announceDatagramLen startedB "task-9" = 167 ∧
    (listenMulticastIter (NewDiscovery "A" "1.0.0" "uuid-a" "10.0.0.5" 9000)
      (readOf "10.0.0.2:9999" { announceEnvelope startedB "task-9" with FromUUID := "uuid-b" }
        (announceDatagramLen startedB "task-9")) 5).state.device "uuid-b" =
      some { UUID := "uuid-b", Name := "B", IP := "10.0.0.2", Port := 9000,
             Version := "1.0.0", LastSeen := 5 } :=
  ⟨by decide, by decide, by decide,
   ((C24_announce_round_trip startedB (NewDiscovery "A" "1.0.0" "uuid-a" "10.0.0.5" 9000)
     "task-9" netOK
     { conn := 0, dest := "239.0.0.1:9999",
       data := { announceEnvelope startedB "task-9" with FromUUID := "uuid-b" }, err := none }
     "10.0.0.2:9999" 5 (by decide) (by decide) (by decide)).2.1 (by decide)).1⟩

/-! ## The expiry window and the announce interval -/

theorem device_upsert_ne (d : Discovery) (k k0 : String) (dev dev0 : Device) (h : k ≠ k0)
    (hdev : d.device k = some dev) : (upsert d k0 dev0).device k = some dev := by
  unfold Discovery.device at hdev ⊢
  show ((d.devices.insert k0 d.deviceObjs.length).lookup k).bind
    (fun p => (d.deviceObjs ++ [dev0])[p]?) = some dev
  rw [GoMap.lookup_insert_ne _ _ _ _ h]
  cases hl : d.devices.lookup k with
  | none => rw [hl] at hdev; cases hdev
  | some p =>
    rw [hl] at hdev
    change d.deviceObjs[p]? = some dev at hdev
    show (d.deviceObjs ++ [dev0])[p]? = some dev
    rw [List.getElem?_append_left (lt_of_getElem?_eq_some hdev)]
    exact hdev

theorem process_other_device (d : Discovery) (src : String) (env : MessageEnvelope) (now : Int)
    (k : String) (dev : Device) (h : env.FromUUID ≠ k) (hdev : d.device k = some dev) :
    (processReceivedMessage d src env now).state.device k = some dev := by
  obtain ⟨d1, hd1, hs⟩ := processReceivedMessage_state d src env now
  have h1 : d1.device k = some dev := by
    rcases hd1 with rfl | ⟨dev0, rfl⟩
    · exact hdev
    · exact device_upsert_ne d k env.FromUUID dev dev0 (fun e => h e.symm) hdev
  rcases hs with hs | ⟨ch, -, -, hs⟩
  · rw [hs]; exact h1
  · rw [hs]; exact h1

theorem wellFormed_iff (env : MessageEnvelope) (h : env.wellFormed = true) :
    ∃ info f, env.Payload = RawMessage.object info ∧ index info "port" = Any.float64 f := by
  unfold MessageEnvelope.wellFormed at h
  split at h
  · rename_i info hpay
    cases hport : index info "port" with
    | float64 f => exact ⟨info, f, hpay, hport⟩
    | nil => simp [hport, assertFloat64] at h
    | bool b => simp [hport, assertFloat64] at h
    | string s => simp [hport, assertFloat64] at h
    | composite s => simp [hport, assertFloat64] at h
  · cases h

theorem runPeer_append (pre post : List PeerStep) :
    ∀ d : Discovery, runPeer d (pre ++ post) = runPeer (runPeer d pre) post := by
  induction pre with
  | nil => intro d; rfl
  | cons s rest ih =>
    intro d
    cases s with
    | announced src env now => exact ih _
    | other src env now => exact ih _
    | swept now => exact ih _

theorem sweep_keeps_fresh (d : Discovery) (now window : Int) (k : String) (dev : Device)
    (hw : window ≤ timeout) (hdev : d.device k = some dev)
    (hfresh : now - dev.LastSeen ≤ window) :
    (cleanupDevicesTick d now).state.device k = some dev := by
  rw [cleanupDevicesTick_device, hdev]
  have : now - dev.LastSeen ≤ timeout := le_trans hfresh hw
  simp [Option.filter, this]

theorem timely_split (k : String) (window : Int) (hw : window ≤ timeout)
    (pre post : List PeerStep) :
    ∀ (d : Discovery) (dev : Device), d.device k = some dev →
      Timely k window dev.LastSeen (pre ++ post) →
      ∃ dev', (runPeer d pre).device k = some dev' ∧ Timely k window dev'.LastSeen post := by
  induction pre with
  | nil => intro d dev hdev ht; exact ⟨dev, hdev, ht⟩
  | cons s rest ih =>
    intro d dev hdev ht
    cases s with
    | announced src env now =>
      obtain ⟨hfrom, hcmd, hwf, -, hrest⟩ := ht
      obtain ⟨info, f, hpay, hport⟩ := wellFormed_iff env hwf
      have h := device_of_announce d src env now info f hcmd hpay hport
      rw [hfrom] at h
      exact ih _ (announcedDevice env info f now) h hrest
    | other src env now =>
      obtain ⟨hfrom, hrest⟩ := ht
      exact ih _ dev (process_other_device d src env now k dev hfrom hdev) hrest
    | swept now =>
      obtain ⟨hfresh, hrest⟩ := ht
      exact ih _ dev (sweep_keeps_fresh d now window k dev hw hdev hfresh) hrest

/-- C25: the expiry window is strictly greater than the announce interval.
Let peer `k` be registered and let the steps that follow be timely: every
announce of `k` is well formed and is processed at most one announce interval
after the previous one, every sweep comes at most one announce interval after
the latest processed announce, and the other envelopes processed come from
other senders. Then at every sweep in the sequence the peer is registered with
`now - LastSeen` at most the announce interval, the sweep leaves its entry as
it is, and the peer is registered at the end of the sequence. -/
theorem C25_timely_peer_is_never_swept (d : Discovery) (k : String) (dev : Device)
    (steps : List PeerStep) (hdev : d.device k = some dev)
    (ht : Timely k announceIntv dev.LastSeen steps) :
    announceIntv < timeout ∧
    (∀ pre now post, steps = pre ++ PeerStep.swept now :: post →
      ∃ dev', (runPeer d pre).device k = some dev' ∧
        now - dev'.LastSeen ≤ announceIntv ∧ now - dev'.LastSeen < timeout ∧
        (runPeer d (pre ++ [PeerStep.swept now])).device k = some dev') ∧
    ∃ dev', (runPeer d steps).device k = some dev' := by
  have hlt : announceIntv < timeout := by norm_num [announceIntv, timeout]
  have hw : announceIntv ≤ timeout := le_of_lt hlt
  refine ⟨hlt, ?_, ?_⟩
  · intro pre now post hsplit
    rw [hsplit] at ht
    obtain ⟨dev', hdev', hfresh, -⟩ := timely_split k announceIntv hw pre _ d dev hdev ht
    refine ⟨dev', hdev', hfresh, lt_of_le_of_lt hfresh hlt, ?_⟩
    rw [runPeer_append]
    exact sweep_keeps_fresh _ now announceIntv k dev' hw hdev' hfresh
  · have ht' : Timely k announceIntv dev.LastSeen (steps ++ []) := by
      rw [List.append_nil]; exact ht
    obtain ⟨dev', hdev', -⟩ := timely_split k announceIntv hw steps [] d dev hdev ht'
    exact ⟨dev', hdev'⟩

theorem C25_timely_peer_is_never_swept_witness :
    nodeBKnowsA.device "uuid-a" =
      some { UUID := "uuid-a", Name := "A", IP := "10.0.0.5", Port := 9000,
             Version := "1.0.0", LastSeen := 77 } ∧
    ∃ dev', (runPeer nodeBKnowsA
      [PeerStep.swept (77 + 10 * 1000000000),
       PeerStep.announced "10.0.0.5:9999" (announceOfA payloadOfA) (77 + 15 * 1000000000),
       PeerStep.other "10.0.0.7:40000" strangerPing (77 + 16 * 1000000000),
       PeerStep.swept (77 + 30 * 1000000000)]).device "uuid-a" = some dev' :=
  ⟨by decide,
   (C25_timely_peer_is_never_swept nodeBKnowsA "uuid-a"
     { UUID := "uuid-a", Name := "A", IP := "10.0.0.5", Port := 9000,
       Version := "1.0.0", LastSeen := 77 }
     [PeerStep.swept (77 + 10 * 1000000000),
      PeerStep.announced "10.0.0.5:9999" (announceOfA payloadOfA) (77 + 15 * 1000000000),
      PeerStep.other "10.0.0.7:40000" strangerPing (77 + 16 * 1000000000),
      PeerStep.swept (77 + 30 * 1000000000)]
     (by decide)
     ⟨by decide, rfl, rfl, rfl, by decide, by decide, by decide, trivial⟩).2.2⟩

/-! ## A missed announce -/

theorem sweep_removes_stale (d : Discovery) (now : Int) (k : String) (dev : Device)
    (hdev : d.device k = some dev) (hstale : now - dev.LastSeen > timeout) :
    (cleanupDevicesTick d now).state.device k = none := by
  rw [cleanupDevicesTick_device, hdev]
  have : ¬ now - dev.LastSeen ≤ timeout := not_le.2 hstale
  simp [Option.filter, this]

theorem sweeps_keep_absent (k : String) (sweeps : List Int) :
    ∀ d : Discovery, d.device k = none →
      (runPeer d (sweeps.map PeerStep.swept)).device k = none := by
  induction sweeps with
  | nil => intro d h; exact h
  | cons s rest ih =>
    intro d h
    apply ih
    rw [cleanupDevicesTick_device, h]
    rfl

theorem sweeps_keep_fresh (k : String) (dev : Device) (sweeps : List Int)
    (hfresh : ∀ s ∈ sweeps, s - dev.LastSeen ≤ timeout) :
    ∀ d : Discovery, d.device k = some dev →
      (runPeer d (sweeps.map PeerStep.swept)).device k = some dev := by
  induction sweeps with
  | nil => intro d h; exact h
  | cons s rest ih =>
    intro d h
    apply ih (fun s' h' => hfresh s' (List.mem_cons_of_mem _ h'))
    exact sweep_keeps_fresh d s timeout k dev (le_refl _) h (hfresh s (List.mem_cons_self _ _))

theorem sweeps_remove_stale (k : String) (dev : Device) (sweeps : List Int)
    (hstale : ∃ s ∈ sweeps, s - dev.LastSeen > timeout) :
    ∀ d : Discovery, d.device k = some dev →
      (runPeer d (sweeps.map PeerStep.swept)).device k = none := by
  induction sweeps with
  | nil => obtain ⟨s, hs, -⟩ := hstale; cases hs
  | cons s rest ih =>
    intro d h
    by_cases hs : s - dev.LastSeen > timeout
    · exact sweeps_keep_absent k rest _ (sweep_removes_stale d s k dev h hs)
    · obtain ⟨s', hs', hgt⟩ := hstale
      rcases List.mem_cons.1 hs' with rfl | hmem
      · exact absurd hgt hs
      · exact ih ⟨s', hmem, hgt⟩ _
          (sweep_keeps_fresh d s timeout k dev (le_refl _) h (not_lt.1 hs))

/-- C26, counterexample: B processes announces of A at 7 s and at 22 s on its
clock, the announce due at 37 s is lost and the next one arrives at 52 s, 30 s
after the previous one. The tick of B's sweeper at 25 s keeps A; the tick at
50 s, between the two announces, finds A last seen 28 s ago and removes it. The
announce at 52 s registers A again. -/
theorem C26_counterexample_sweep_in_the_gap_evicts :
    seconds 52 - seconds 22 = 2 * announceIntv ∧
    (runPeer nodeB (missedAnnounce.take 3)).device "uuid-a" =
      some { UUID := "uuid-a", Name := "A", IP := "10.0.0.5", Port := 9000,
             Version := "1.0.0", LastSeen := seconds 22 } ∧
    seconds 22 < seconds 50 ∧ seconds 50 < seconds 52 ∧
    (runPeer nodeB missedAnnounce).device "uuid-a" = none ∧
    (runPeer nodeB (missedAnnounce ++
      [PeerStep.announced "10.0.0.5:9999" (announceOfA payloadOfA) (seconds 52)])).device
        "uuid-a" =
      some { UUID := "uuid-a", Name := "A", IP := "10.0.0.5", Port := 9000,
             Version := "1.0.0", LastSeen := seconds 52 } := by
  refine ⟨?_, ?_, ?_, ?_, ?_, ?_⟩ <;> decide

/-- C26, amended: let peer `k` be registered with its last announce processed
at `dev.LastSeen`, and let the sweeper tick at the instants `sweeps` before the
next announce of `k` is processed. When every tick comes at most 25 s after
`dev.LastSeen`, the peer is still registered, unchanged, after the ticks. When
some tick comes more than 25 s after it, which is possible as soon as the next
announce is more than 25 s away, as it is after one missed announce, the peer
is no longer registered after the ticks. In both cases a well-formed announce
of `k` processed afterwards leaves `k` registered with the new LastSeen. -/
theorem C26_peer_survives_sweeps_within_timeout (d : Discovery) (k : String) (dev : Device)
    (sweeps : List Int) (src : String) (env : MessageEnvelope) (next : Int)
    (hdev : d.device k = some dev) (hfrom : env.FromUUID = k)
    (hcmd : env.Command = "announce") (hwf : env.wellFormed = true) :
    timeout = seconds 25 ∧ announceIntv = seconds 15 ∧
    ((∀ s ∈ sweeps, s - dev.LastSeen ≤ timeout) →
      (runPeer d (sweeps.map PeerStep.swept)).device k = some dev) ∧
    ((∃ s ∈ sweeps, s - dev.LastSeen > timeout) →
      (runPeer d (sweeps.map PeerStep.swept)).device k = none) ∧
    ∃ dev', (runPeer d (sweeps.map PeerStep.swept ++
        [PeerStep.announced src env next])).device k = some dev' ∧
      dev'.UUID = k ∧ dev'.LastSeen = next := by
  refine ⟨rfl, rfl, fun h => sweeps_keep_fresh k dev sweeps h d hdev,
    fun h => sweeps_remove_stale k dev sweeps h d hdev, ?_⟩
  obtain ⟨info, f, hpay, hport⟩ := wellFormed_iff env hwf
  refine ⟨announcedDevice env info f next, ?_, hfrom, rfl⟩
  rw [runPeer_append]
  have h := device_of_announce (runPeer d (sweeps.map PeerStep.swept)) src env next info f
    hcmd hpay hport
  rw [hfrom] at h
  exact h

theorem C26_peer_survives_sweeps_within_timeout_witness :
    nodeBKnowsA.device "uuid-a" =
      some { UUID := "uuid-a", Name := "A", IP := "10.0.0.5", Port := 9000,
             Version := "1.0.0", LastSeen := 77 } ∧
    (runPeer nodeBKnowsA ([77 + seconds 10, 77 + seconds 25].map PeerStep.swept)).device
      "uuid-a" =
      some { UUID := "uuid-a", Name := "A", IP := "10.0.0.5", Port := 9000,
             Version := "1.0.0", LastSeen := 77 } :=
  ⟨by decide,
   (C26_peer_survives_sweeps_within_timeout nodeBKnowsA "uuid-a"
     { UUID := "uuid-a", Name := "A", IP := "10.0.0.5", Port := 9000,
       Version := "1.0.0", LastSeen := 77 }
     [77 + seconds 10, 77 + seconds 25] "10.0.0.5:9999" (announceOfA payloadOfA)
     (77 + seconds 30) (by decide) rfl rfl rfl).2.2.1 (by decide)⟩

/-! ## The key of a registry entry -/

theorem KeyedByUUID_of_same (d d' : Discovery) (h1 : d'.devices = d.devices)
    (h2 : d'.deviceObjs = d.deviceObjs) (h : KeyedByUUID d) : KeyedByUUID d' := by
  intro k p hl
  rw [h1] at hl
  rw [h2]
  exact h k p hl

theorem KeyedByUUID_upsert (d : Discovery) (k : String) (dev : Device) (hk : dev.UUID = k)
    (h : KeyedByUUID d) : KeyedByUUID (upsert d k dev) := by
  intro k' p hl
  change (d.devices.insert k d.deviceObjs.length).lookup k' = some p at hl
  show ∃ dev', (d.deviceObjs ++ [dev])[p]? = some dev' ∧ dev'.UUID = k'
  by_cases hkk : k' = k
  · subst hkk
    rw [GoMap.lookup_insert_self] at hl
    cases hl
    exact ⟨dev, by simp, hk⟩
  · rw [GoMap.lookup_insert_ne _ _ _ _ hkk] at hl
    obtain ⟨dev', hget, huuid⟩ := h k' p hl
    exact ⟨dev', by rw [List.getElem?_append_left (lt_of_getElem?_eq_some hget)]; exact hget,
      huuid⟩

theorem KeyedByUUID_resolveOrDispatch (d : Discovery) (src : String) (env : MessageEnvelope)
    (logged : List LogLine) (h : KeyedByUUID d) :
    KeyedByUUID (resolveOrDispatch d src env logged).state := by
  rcases resolveOrDispatch_state d src env logged with hs | ⟨ch, -, -, hs⟩
  · rw [hs]; exact h
  · rw [hs]; exact KeyedByUUID_of_same d _ rfl rfl h

theorem KeyedByUUID_process (d : Discovery) (src : String) (env : MessageEnvelope) (now : Int)
    (h : KeyedByUUID d) : KeyedByUUID (processReceivedMessage d src env now).state := by
  unfold processReceivedMessage
  split
  · split
    · exact h
    · split
      · exact h
      · exact KeyedByUUID_resolveOrDispatch _ _ _ _ (KeyedByUUID_upsert d _ _ rfl h)
  · exact KeyedByUUID_resolveOrDispatch _ _ _ _ h

theorem KeyedByUUID_sweep (d : Discovery) (now : Int) (h : KeyedByUUID d) :
    KeyedByUUID (cleanupDevicesTick d now).state := by
  intro k p hl
  change (d.devices.filter (fun _ p => !d.isExpired now p)).lookup k = some p at hl
  rw [GoMap.lookup_filter] at hl
  cases hk : d.devices.lookup k with
  | none => rw [hk] at hl; cases hl
  | some q =>
    rw [hk] at hl
    have hqp : q = p := by
      simp only [Option.filter] at hl
      split at hl
      · exact Option.some.inj hl
      · cases hl
    subst hqp
    exact h k q hk

theorem KeyedByUUID_apply (d : Discovery) (e : Event) (hs : e.isStore = false)
    (h : KeyedByUUID d) : KeyedByUUID (d.apply e) := by
  cases e with
  | registerHandler cmd handler => exact KeyedByUUID_of_same d _ rfl rfl h
  | start env =>
    exact KeyedByUUID_of_same d _ (Start_tables d env).2.2.1 (Start_tables d env).2.2.2.2.1 h
  | stop => exact KeyedByUUID_of_same d _ rfl rfl h
  | recv r now =>
    show KeyedByUUID (listenMulticastIter d r now).state
    rcases listenMulticastIter_state d r now with hst | ⟨src, env, -, -, hst⟩
    · rw [hst]; exact h
    · rw [hst]; exact KeyedByUUID_process d src env now h
  | sweep now => exact KeyedByUUID_sweep d now h
  | request env newUUID => exact KeyedByUUID_of_same d _ rfl rfl h
  | abandon taskID => exact KeyedByUUID_of_same d _ rfl rfl h
  | take ch => exact KeyedByUUID_of_same d _ rfl rfl h
  | store p dev => cases hs

theorem KeyedByUUID_run (events : List Event) :
    ∀ d : Discovery, (∀ e ∈ events, e.isStore = false) → KeyedByUUID d →
      KeyedByUUID (d.run events) := by
  induction events with
  | nil => intro d _ h; exact h
  | cons e rest ih =>
    intro d hs h
    exact ih (d.apply e) (fun x hx => hs x (List.mem_cons_of_mem _ hx))
      (KeyedByUUID_apply d e (hs e (List.mem_cons_self _ _)) h)

/-- C27: in every state that a new node reaches through steps of the package
(calls of its methods, passes of the receive loops, ticks of the sweeper),
every entry of the registry points to a device whose UUID is the key of the
entry. The dispatcher and the sweeper each keep this property, and the device
the dispatcher stores for an announce has the envelope's fromUuid as UUID and
is stored under that key, whatever the payload holds under "uuid". -/
theorem C27_registry_keyed_by_uuid (name ver id ip : String) (port : Int)
    (events : List Event) (hs : ∀ e ∈ events, e.isStore = false) :
    KeyedByUUID ((NewDiscovery name ver id ip port).run events) ∧
    (∀ d src env now, KeyedByUUID d →
      KeyedByUUID (processReceivedMessage d src env now).state) ∧
    (∀ d now, KeyedByUUID d → KeyedByUUID (cleanupDevicesTick d now).state) ∧
    (∀ (d : Discovery) src (env : MessageEnvelope) now info f, env.Command = "announce" →
      env.Payload = RawMessage.object info → index info "port" = Any.float64 f →
      ∃ dev, (processReceivedMessage d src env now).state.device env.FromUUID = some dev ∧
        dev.UUID = env.FromUUID) := by
  refine ⟨KeyedByUUID_run events _ hs ?_, KeyedByUUID_process, KeyedByUUID_sweep, ?_⟩
  · intro k p hl
    simp [NewDiscovery, GoMap.lookup, GoMap.empty] at hl
  · intro d src env now info f hcmd hpay hport
    exact ⟨_, device_of_announce d src env now info f hcmd hpay hport, rfl⟩

theorem C27_registry_keyed_by_uuid_witness :
    (∀ e ∈ [Event.recv (ReadResult.ok "10.0.0.5:9999" (Datagram.json spoofedAnnounce)) 77,
        Event.sweep 99], e.isStore = false) ∧
    (nodeB.run [Event.recv (ReadResult.ok "10.0.0.5:9999" (Datagram.json spoofedAnnounce)) 77,
        Event.sweep 99]).device "uuid-a" =
      some { UUID := "uuid-a", Name := "A", IP := "10.0.0.5", Port := 9000,
             Version := "1.0.0", LastSeen := 77 } ∧
    KeyedByUUID
      (nodeB.run [Event.recv (ReadResult.ok "10.0.0.5:9999" (Datagram.json spoofedAnnounce)) 77,
        Event.sweep 99]) :=
  ⟨by decide, by decide,
   (C27_registry_keyed_by_uuid "B" "1.0.0" "uuid-b" "10.0.0.2" 9000
     [Event.recv (ReadResult.ok "10.0.0.5:9999" (Datagram.json spoofedAnnounce)) 77,
      Event.sweep 99] (by decide)).1⟩

/-! ## A request whose send fails -/

theorem GoMap.eq_of_entries {α : Type} (m m' : GoMap α) (h : m.entries = m'.entries) :
    m = m' := by
  cases m
  cases m'
  simp only at h
  subst h
  rfl

theorem GoMap.erase_insert_self {α : Type} (m : GoMap α) (k : String) (v : α) :
    (m.insert k v).erase k = m.erase k := by
  apply GoMap.eq_of_entries
  show ((k, v) :: m.entries.filter (fun e => e.1 != k)).filter (fun e => e.1 != k) =
    m.entries.filter (fun e => e.1 != k)
  simp [List.filter_cons]

theorem GoMap.erase_of_lookup_none {α : Type} (m : GoMap α) (k : String)
    (h : m.lookup k = none) : m.erase k = m := by
  apply GoMap.eq_of_entries
  show m.entries.filter (fun e => e.1 != k) = m.entries
  rw [List.filter_eq_self]
  intro e he
  unfold GoMap.lookup at h
  simp only [Option.map_eq_none', List.find?_eq_none] at h
  have := h e he
  simpa using this

theorem GoMap.erase_ne_of_lookup_some {α : Type} (m : GoMap α) (k : String) (v : α)
    (h : m.lookup k = some v) : m.erase k ≠ m := by
  intro heq
  have h1 : (m.erase k).lookup k = none := GoMap.lookup_erase_self m k
  rw [heq, h] at h1
  cases h1

/-- C28 as stated fails: B has an outstanding request under task-1 and a
second `RequestResponse` call is made with the same caller-supplied TaskID and
a destination that does not resolve. `Send` fails, the call returns the wrapped
error, and the delete of line 190 removes the entry of the first call: the
pending table is not what it was before the call. -/
theorem C28_counterexample_failed_send_deletes_entry :
    nodeBWaiting.pending.lookup "task-1" = some 0 ∧
    (requestSend nodeBWaiting lostRetry "fresh-2" netNoRoute).err =
      some "resolve unicast address failed: missing port in address" ∧
    (RequestResponse nodeBWaiting lostRetry "fresh-2" netNoRoute []).map
        (fun out => out.err) =
      some (some "send request failed: resolve unicast address failed: missing port in address") ∧
    (RequestResponse nodeBWaiting lostRetry "fresh-2" netNoRoute []).map
        (fun out => out.state.pending.lookup "task-1") = some none ∧
    (RequestResponse nodeBWaiting lostRetry "fresh-2" netNoRoute []).map
        (fun out => out.state.pending.entries) = some [] := by
  refine ⟨?_, ?_, ?_, ?_, ?_⟩ <;> decide

/-- C28, as amended: when `Send` fails inside `RequestResponse` the call
returns the zero envelope and the error "send request failed: " followed by
the error of `Send`; the pending table is then the table before the call with
the entry under the call's taskID deleted. It is exactly the table before the
call when the taskID was not pending before the call; when it was, that earlier
entry is gone. Entries under other taskIDs, the registry, the handler table and
the buffers of the existing channels are as before. -/
theorem C28_failed_send_restores_pending (d : Discovery) (env : MessageEnvelope)
    (newUUID : String) (net : Network) (e : String) (meanwhile : List Event)
    (hsend : (requestSend d env newUUID net).err = some e) :
    ∃ out, RequestResponse d env newUUID net meanwhile = some out ∧
      out.err = some ("send request failed: " ++ e) ∧ out.resp = MessageEnvelope.zero ∧
      out.state.pending = d.pending.erase (withTaskID env newUUID).TaskID ∧
      (d.pending.lookup (withTaskID env newUUID).TaskID = none →
        out.state.pending = d.pending) ∧
      (∀ ch, d.pending.lookup (withTaskID env newUUID).TaskID = some ch →
        out.state.pending.lookup (withTaskID env newUUID).TaskID = none ∧
        out.state.pending ≠ d.pending) ∧
      (∀ t, t ≠ (withTaskID env newUUID).TaskID →
        out.state.pending.lookup t = d.pending.lookup t) ∧
      out.state.devices = d.devices ∧ out.state.handlers = d.handlers ∧
      out.state.chans = d.chans ++ [none] := by
  rw [RequestResponse_of_send_error d env newUUID net meanwhile e hsend]
  have hp : ((requestRegister d env newUUID).1.pending.erase
      (requestRegister d env newUUID).2.1.TaskID) =
      d.pending.erase (withTaskID env newUUID).TaskID :=
    GoMap.erase_insert_self d.pending (withTaskID env newUUID).TaskID d.chans.length
  refine ⟨_, rfl, rfl, rfl, hp, ?_, ?_, ?_, rfl, rfl, rfl⟩
  · intro hnone
    exact hp.trans (GoMap.erase_of_lookup_none _ _ hnone)
  · intro ch hch
    refine ⟨?_, ?_⟩
    · show ((requestRegister d env newUUID).1.pending.erase
        (requestRegister d env newUUID).2.1.TaskID).lookup _ = none
      rw [hp]
      exact GoMap.lookup_erase_self _ _
    · show ((requestRegister d env newUUID).1.pending.erase
        (requestRegister d env newUUID).2.1.TaskID) ≠ _
      rw [hp]
      exact GoMap.erase_ne_of_lookup_some _ _ ch hch
  · intro t ht
    show ((requestRegister d env newUUID).1.pending.erase
      (requestRegister d env newUUID).2.1.TaskID).lookup t = _
    rw [hp]
    exact GoMap.lookup_erase_ne _ _ _ ht

theorem C28_failed_send_restores_pending_witness :
    (requestSend nodeBWaiting lostRequest "fresh-2" netNoRoute).err =
      some "resolve unicast address failed: missing port in address" ∧
    ∃ out, RequestResponse nodeBWaiting lostRequest "fresh-2" netNoRoute [] = some out ∧
      out.err =
        some "send request failed: resolve unicast address failed: missing port in address" ∧
      out.state.pending = nodeBWaiting.pending :=
  ⟨by decide,
   (C28_failed_send_restores_pending nodeBWaiting lostRequest "fresh-2" netNoRoute
     "resolve unicast address failed: missing port in address" [] (by decide)).imp
     (fun _ h => ⟨h.1, h.2.1, h.2.2.2.2.1 (by decide)⟩)⟩

/-! ## An announce whose payload does not decode -/

/-- C29: when the payload of an announce envelope fails to decode into the
map (line 252 returns an error), `processReceivedMessage` logs the failure and
returns with the node state as it was: registry, pending table and channels
are unchanged, so no waiter receives the envelope even if its taskID is
pending, and no goroutine is started, so no handler runs even if one is
registered under "announce". The same holds for the pass of the receive loop
that reads the envelope. The decode fails for an absent (empty) payload, for
text that is not valid JSON, and for a JSON array, string, number or boolean. -/
theorem C29_undecodable_announce_is_dropped (d : Discovery) (src : String)
    (env : MessageEnvelope) (now : Int) (e : String) (hcmd : env.Command = "announce")
    (herr : unmarshalInfo env.Payload = Except.error e) :
    processReceivedMessage d src env now =
      { state := d, spawned := [], logged := [LogLine.payloadFailed],
        status := Status.returned } ∧
    (listenMulticastIter d (ReadResult.ok src (Datagram.json env)) now).state = d ∧
    (listenMulticastIter d (ReadResult.ok src (Datagram.json env)) now).spawned = [] ∧
    (listenMulticastIter d (ReadResult.ok src (Datagram.json env)) now).status =
      Status.returned ∧
    (∀ (s : String) (f : Float64) (b : Bool),
      ∀ p ∈ [RawMessage.absent, RawMessage.invalid, RawMessage.array, RawMessage.string s,
          RawMessage.number f, RawMessage.bool b],
        ∃ e', unmarshalInfo p = Except.error e') := by
  have hproc : processReceivedMessage d src env now =
      { state := d, spawned := [], logged := [LogLine.payloadFailed],
        status := Status.returned } := by
    simp [processReceivedMessage, hcmd, herr]
  have hiter : listenMulticastIter d (ReadResult.ok src (Datagram.json env)) now =
      if env.FromUUID = d.uuid then
        { state := d, spawned := [], logged := [], status := Status.returned }
      else processReceivedMessage d src env now := rfl
  rw [hiter, hproc]
  refine ⟨rfl, ?_, ?_, ?_, ?_⟩
  · split <;> rfl
  · split <;> rfl
  · split <;> rfl
  · intro s f b p hp
    simp only [List.mem_cons, List.mem_singleton, List.not_mem_nil, or_false] at hp
    rcases hp with rfl | rfl | rfl | rfl | rfl | rfl <;> exact ⟨_, rfl⟩

theorem C29_undecodable_announce_is_dropped_witness :
    strayAnnounce.Command = "announce" ∧
    unmarshalInfo strayAnnounce.Payload = Except.error "unexpected end of JSON input" ∧
    nodeBWaitingWithHandler.pending.lookup strayAnnounce.TaskID = some 0 ∧
    nodeBWaitingWithHandler.handlers.lookup "announce" = some { id := 1 } ∧
    processReceivedMessage nodeBWaitingWithHandler "10.0.0.5:9999" strayAnnounce 5 =
      { state := nodeBWaitingWithHandler, spawned := [], logged := [LogLine.payloadFailed],
        status := Status.returned } :=
  ⟨rfl, rfl, by decide, by decide,
   (C29_undecodable_announce_is_dropped nodeBWaitingWithHandler "10.0.0.5:9999" strayAnnounce 5
     "unexpected end of JSON input" rfl rfl).1⟩

end discovery

namespace timetable

/-! ## A course string with fewer than four fields -/

theorem ParseData_of_short (info : String) (h : (SplitString info ",").length < 4) :
    ParseData info = none := by
  unfold ParseData
  split
  · rename_i f0 f1 f2 f3 tail heq
    rw [heq] at h
    simp at h
    omega
  · rfl

theorem ParseData_of_long (info : String) (h : 4 ≤ (SplitString info ",").length) :
    ∃ f0 f1 f2 f3 tail, SplitString info "," = f0 :: f1 :: f2 :: f3 :: tail ∧
      ParseData info =
        some [("courseName", f0), ("classroom", f1), ("class", f2), ("teacher", f3)] := by
  unfold ParseData
  match hs : SplitString info "," with
  | f0 :: f1 :: f2 :: f3 :: tail => exact ⟨f0, f1, f2, f3, tail, rfl, rfl⟩
  | [] => rw [hs] at h; simp at h
  | [_] => rw [hs] at h; simp at h
  | [_, _] => rw [hs] at h; simp at h
  | [_, _, _] => rw [hs] at h; simp at h

theorem getOneDataFrom_none (l : List String) :
    ∀ index, (∃ d ∈ l, d ≠ "" ∧ ParseData d = none) → getOneDataFrom index l = none := by
  induction l with
  | nil => rintro index ⟨d, hd, -⟩; cases hd
  | cons d0 rest ih =>
    rintro index ⟨d, hd, hne, hnone⟩
    unfold getOneDataFrom
    by_cases h0 : d0 = ""
    · rcases List.mem_cons.1 hd with rfl | hmem
      · exact absurd h0 hne
      · simp only [h0, if_true]
        rw [ih (index + 1) ⟨d, hmem, hne, hnone⟩]
        rfl
    · simp only [h0, if_false]
      cases hp : ParseData d0 with
      | none => rfl
      | some c =>
        rcases List.mem_cons.1 hd with rfl | hmem
        · rw [hp] at hnone; cases hnone
        · simp only []
          rw [ih (index + 1) ⟨d, hmem, hne, hnone⟩]
          rfl

theorem processFrom_none (rows : List Row) :
    ∀ i, (∃ items, Row.array items ∈ rows ∧ GetOneData (stringData items) = none) →
      processFrom i rows = none := by
  induction rows with
  | nil => rintro i ⟨items, h, -⟩; cases h
  | cons r rest ih =>
    rintro i ⟨items, hmem, hnone⟩
    cases r with
    | other =>
      unfold processFrom
      rcases List.mem_cons.1 hmem with h | h
      · cases h
      · exact ih (i + 1) ⟨items, h, hnone⟩
    | array items0 =>
      unfold processFrom
      cases hg : GetOneData (stringData items0) with
      | none => rfl
      | some d =>
        rcases List.mem_cons.1 hmem with h | h
        · cases h
          rw [hg] at hnone
          cases hnone
        · simp only []
          rw [ih (i + 1) ⟨items, h, hnone⟩]
          rfl

/-- C30: `ProcessBytes` panics on the JSON text `[["Math,Room1"]]`. A course
string with fewer than four comma-separated fields makes `ParseData` index its
fields out of range, while one with four or more fields gives the first four;
every input that is an array holding an array with such a short non-empty
string makes `ProcessBytes` panic. On the other inputs named
by the claim the call does what the claim says: text that is not a JSON array
gives an error, null gives the empty map, and a course string with four fields,
an empty string and a non-string give the four fields and twice "noClass". -/
theorem C30_short_course_string_panics :
    ProcessBytes shortTable = Result.panic ∧
    SplitString "Math,Room1" "," = ["Math", "Room1"] ∧
    (∀ info, (SplitString info ",").length < 4 → ParseData info = none) ∧
    (∀ info, 4 ≤ (SplitString info ",").length →
      ∃ f0 f1 f2 f3 tail, SplitString info "," = f0 :: f1 :: f2 :: f3 :: tail ∧
        ParseData info =
          some [("courseName", f0), ("classroom", f1), ("class", f2), ("teacher", f3)]) ∧
    (∀ rows items s, Row.array items ∈ rows → Elem.string s ∈ items → s ≠ "" →
      (SplitString s ",").length < 4 → ProcessBytes (Input.array rows) = Result.panic) ∧
    ProcessBytes goodTable = Result.ok
      [(0, [("第1节", Slot.course [("courseName", "Math"), ("classroom", "Room1"),
              ("class", "Class2"), ("teacher", "Li")]),
            ("第2节", Slot.text "noClass"), ("第3节", Slot.text "noClass")])] ∧
    ProcessBytes Input.null = Result.ok [] ∧
    ProcessBytes Input.invalid = Result.error "invalid character" := by
  refine ⟨by decide, by decide, ParseData_of_short, ParseData_of_long, ?_, by decide,
    by decide, by decide⟩
  intro rows items s hrow hitem hne hshort
  have hs : s ∈ stringData items := List.mem_map.2 ⟨Elem.string s, hitem, rfl⟩
  have hg : GetOneData (stringData items) = none :=
    getOneDataFrom_none _ 0 ⟨s, hs, hne, ParseData_of_short s hshort⟩
  show (match processFrom 0 rows with
    | none => Result.panic
    | some fullData => Result.ok fullData) = Result.panic
  rw [processFrom_none rows 0 ⟨items, hrow, hg⟩]

end timetable
